import Mathlib

/-!
# Cluster global egress-IP controller

A shallow embedding of `pkg/globalnet/controllers/cluster_egressip_controller.go`.

The controller mutates the status of the object it is given and talks to two
collaborators that live outside the embedded file: the IP pool (`Allocate`,
`Release`) and the iptables interface (`AddClusterEgressRules`,
`RemoveClusterEgressRules`).  Every interaction is recorded, in program order,
in a trace of `Event`s.  The collaborators are deterministic but otherwise
arbitrary: the answer to a call is a function of the trace that precedes it.

A Go runtime panic (index out of range) is the result `none`.
Logging calls (`klog`) are not modelled.
-/

namespace Globalnet

/-- The `metav1.ConditionStatus` values. -/
inductive ConditionStatus
  | ConditionTrue
  | ConditionFalse
  | ConditionUnknown
deriving DecidableEq, Repr

/-- The fields of `metav1.Condition` the controller deals with.  The literals
in the source set `Type`, `Status`, `Reason` and `Message` and leave the
transition time at its zero value. -/
structure Condition where
  type : String
  status : ConditionStatus
  reason : String
  message : String
  lastTransitionTime : Nat
deriving DecidableEq, Repr

/-- The status sub-object `submarinerv1.GlobalEgressIPStatus`. -/
structure GlobalEgressIPStatus where
  Conditions : List Condition
  AllocatedIPs : List String
deriving DecidableEq, Repr

/-- The object `submarinerv1.ClusterGlobalEgressIP`: its name, `Spec.NumberOfIPs`
(a `*int`, `none` for nil) and its status. -/
structure ClusterGlobalEgressIP where
  Name : String
  NumberOfIPs : Option Int
  Status : GlobalEgressIPStatus
deriving DecidableEq, Repr

/-- The `syncer.Operation` values; `Other` stands for any value besides the
three named constants and takes the `switch` fall-through in `process`. -/
inductive Operation
  | Create
  | Update
  | Delete
  | Other
deriving DecidableEq, Repr

/-- One observable action of the controller: a call to the pool, a call to the
iptables interface, a condition handed to `tryAppendStatusCondition`, or an
assignment to `status.AllocatedIPs`. -/
inductive Event
  | Allocate (num : Int)
  | Release (ips : List String)
  | AddClusterEgressRules (srcIP snatIP mark : String)
  | RemoveClusterEgressRules (srcIP snatIP mark : String)
  | tryAppendStatusCondition (newCond : Condition)
  | setAllocatedIPs (ips : List String)
deriving DecidableEq, Repr

/-- The controller with everything it reaches that is declared outside the
embedded file: the two package constants, the pool, the iptables interface and
the two status helpers.  A pool or iptables call answers from the trace of the
events before it; an error is `some msg` (`Except.error msg` for `Allocate`). -/
structure clusterGlobalEgressIPController where
  ClusterGlobalEgressIPName : String
  globalNetIPTableMark : String
  localSubnets : List String
  poolAllocate : List Event → Int → Except String (List String)
  poolRelease : List Event → List String → Option String
  iptAddClusterEgressRules : List Event → String → String → String → Option String
  iptRemoveClusterEgressRules : List Event → String → String → String → Option String
  tryAppendStatusCondition : List Condition → Condition → List Condition
  checkStatusChanged :
    GlobalEgressIPStatus → GlobalEgressIPStatus → ClusterGlobalEgressIP → Option ClusterGlobalEgressIP

/-- What `process` leaves behind: the object it was given, as mutated in place
(`obj`), the `runtime.Object` it returns (`ret`, `none` for nil) and the
requeue flag. -/
structure ProcessResult where
  obj : ClusterGlobalEgressIP
  ret : Option ClusterGlobalEgressIP
  requeue : Bool
deriving DecidableEq, Repr

/-- The string `string(submarinerv1.GlobalEgressIPAllocated)`. -/
def GlobalEgressIPAllocated : String := "Allocated"

/-- The verb `%q` on a name that needs no escaping: the name in double quotes. -/
def fmtQ (s : String) : String :=
  String.singleton (Char.ofNat 34) ++ s ++ String.singleton (Char.ofNat 34)

/-- `getTargetSNATIPaddress`: the element itself for a one-element list,
otherwise first and last joined by a dash.  Indexing an empty list panics. -/
def getTargetSNATIPaddress (allocIPs : List String) : Option String :=
  let allocatedIPs := allocIPs.length
  if allocatedIPs = 1 then
    allocIPs[0]?
  else do
    let first ← allocIPs[0]?
    let last ← allocIPs[allocIPs.length - 1]?
    pure (first ++ "-" ++ last)

/-- `deleteClusterGlobalEgressRules`: one removal per source subnet, in order;
a failed removal is logged and the loop goes on. -/
def deleteClusterGlobalEgressRules (c : clusterGlobalEgressIPController) :
    List String → String → List Event → List Event
  | [], _, tr => tr
  | srcIP :: rest, snatIP, tr =>
    match c.iptRemoveClusterEgressRules tr srcIP snatIP c.globalNetIPTableMark with
    | some _ =>
      deleteClusterGlobalEgressRules c rest snatIP
        (tr ++ [Event.RemoveClusterEgressRules srcIP snatIP c.globalNetIPTableMark])
    | none =>
      deleteClusterGlobalEgressRules c rest snatIP
        (tr ++ [Event.RemoveClusterEgressRules srcIP snatIP c.globalNetIPTableMark])

/-- `flushClusterGlobalEgressRules`: the SNAT target of the current allocation
is computed first, then the rules of every local subnet are removed. -/
def flushClusterGlobalEgressRules (c : clusterGlobalEgressIPController)
    (status : GlobalEgressIPStatus) (tr : List Event) : Option (List Event) := do
  let snatIP ← getTargetSNATIPaddress status.AllocatedIPs
  pure (deleteClusterGlobalEgressRules c c.localSubnets snatIP tr)

/-- The loop of `programClusterGlobalEgressRules` over the subnets still to do,
with `egressRulesProgrammed` as built so far. -/
def programLoop (c : clusterGlobalEgressIPController) (snatIP : String) :
    List String → List String → List Event → List Event × Option String
  | [], _, tr => (tr, none)
  | srcIP :: rest, egressRulesProgrammed, tr =>
    match c.iptAddClusterEgressRules tr srcIP snatIP c.globalNetIPTableMark with
    | some err =>
      (deleteClusterGlobalEgressRules c egressRulesProgrammed snatIP
        (tr ++ [Event.AddClusterEgressRules srcIP snatIP c.globalNetIPTableMark]), some err)
    | none =>
      programLoop c snatIP rest (egressRulesProgrammed ++ [srcIP])
        (tr ++ [Event.AddClusterEgressRules srcIP snatIP c.globalNetIPTableMark])

/-- `programClusterGlobalEgressRules`: returns the trace and the error, if any. -/
def programClusterGlobalEgressRules (c : clusterGlobalEgressIPController)
    (allocatedIPs : List String) (tr : List Event) : Option (List Event × Option String) := do
  let snatIP ← getTargetSNATIPaddress allocatedIPs
  pure (programLoop c snatIP c.localSubnets [] tr)

/-- `allocateGlobalIPs`: returns the trace, the status as mutated and the
requeue flag.  The result of the roll-back `Release` is discarded. -/
def allocateGlobalIPs (c : clusterGlobalEgressIPController) (key : String) (numberOfIPs : Int)
    (status : GlobalEgressIPStatus) (tr : List Event) :
    Option (List Event × GlobalEgressIPStatus × Bool) :=
  let status1 : GlobalEgressIPStatus := { status with AllocatedIPs := [] }
  let tr1 := tr ++ [Event.setAllocatedIPs []]
  if numberOfIPs = 0 then
    some (tr1, status1, false)
  else
    let tr2 := tr1 ++ [Event.Allocate numberOfIPs]
    match c.poolAllocate tr1 numberOfIPs with
    | Except.error err =>
      let newCond : Condition :=
        { type := GlobalEgressIPAllocated
          status := ConditionStatus.ConditionFalse
          reason := "IPPoolAllocationFailed"
          message := "Error allocating " ++ toString numberOfIPs ++
            " global IP(s) from the pool: " ++ err
          lastTransitionTime := 0 }
      some (tr2 ++ [Event.tryAppendStatusCondition newCond],
        { status1 with Conditions := c.tryAppendStatusCondition status1.Conditions newCond }, true)
    | Except.ok allocatedIPs =>
      match programClusterGlobalEgressRules c allocatedIPs tr2 with
      | none => none
      | some (tr3, some _) =>
        some (tr3 ++ [Event.Release allocatedIPs], status1, true)
      | some (tr3, none) =>
        let newCond : Condition :=
          { type := GlobalEgressIPAllocated
            status := ConditionStatus.ConditionTrue
            reason := "Success"
            message := "Allocated " ++ toString numberOfIPs ++ " global IP(s)"
            lastTransitionTime := 0 }
        some (tr3 ++ [Event.tryAppendStatusCondition newCond, Event.setAllocatedIPs allocatedIPs],
          { Conditions := c.tryAppendStatusCondition status1.Conditions newCond
            AllocatedIPs := allocatedIPs }, false)

/-- `validate`: returns the trace, the status with any condition recorded and
the verdict. -/
def validate (c : clusterGlobalEgressIPController) (numberOfIPs : Int)
    (egressIP : ClusterGlobalEgressIP) (tr : List Event) :
    List Event × GlobalEgressIPStatus × Bool :=
  if egressIP.Name ≠ c.ClusterGlobalEgressIPName then
    let newCond : Condition :=
      { type := GlobalEgressIPAllocated
        status := ConditionStatus.ConditionFalse
        reason := "InvalidInstance"
        message := "Only the ClusterGlobalEgressIP instance with the well-known name " ++
          fmtQ c.ClusterGlobalEgressIPName ++ " is supported"
        lastTransitionTime := 0 }
    (tr ++ [Event.tryAppendStatusCondition newCond],
      { egressIP.Status with
        Conditions := c.tryAppendStatusCondition egressIP.Status.Conditions newCond }, false)
  else if numberOfIPs < 0 then
    let newCond : Condition :=
      { type := GlobalEgressIPAllocated
        status := ConditionStatus.ConditionFalse
        reason := "InvalidInput"
        message := "The NumberOfIPs cannot be negative"
        lastTransitionTime := 0 }
    (tr ++ [Event.tryAppendStatusCondition newCond],
      { egressIP.Status with
        Conditions := c.tryAppendStatusCondition egressIP.Status.Conditions newCond }, false)
  else if numberOfIPs = 0 then
    let newCond : Condition :=
      { type := GlobalEgressIPAllocated
        status := ConditionStatus.ConditionFalse
        reason := "ZeroInput"
        message := "The specified NumberOfIPs is 0"
        lastTransitionTime := 0 }
    (tr ++ [Event.tryAppendStatusCondition newCond],
      { egressIP.Status with
        Conditions := c.tryAppendStatusCondition egressIP.Status.Conditions newCond }, true)
  else
    (tr, egressIP.Status, true)

/-- `onCreateOrUpdate`: returns the trace, the status as mutated and the
requeue flag.  The error of `pool.Release` is logged and dropped. -/
def onCreateOrUpdate (c : clusterGlobalEgressIPController) (key : String) (numberOfIPs : Int)
    (status : GlobalEgressIPStatus) (tr : List Event) :
    Option (List Event × GlobalEgressIPStatus × Bool) :=
  if numberOfIPs = (status.AllocatedIPs.length : Int) then
    some (tr, status, false)
  else if status.AllocatedIPs.length > 0 then
    match flushClusterGlobalEgressRules c status tr with
    | none => none
    | some tr1 =>
      match c.poolRelease tr1 status.AllocatedIPs with
      | some _ => allocateGlobalIPs c key numberOfIPs status (tr1 ++ [Event.Release status.AllocatedIPs])
      | none => allocateGlobalIPs c key numberOfIPs status (tr1 ++ [Event.Release status.AllocatedIPs])
  else
    allocateGlobalIPs c key numberOfIPs status tr

/-- `onRemove`: returns the trace and the requeue flag, which is always false. -/
def onRemove (c : clusterGlobalEgressIPController) (egressIP : ClusterGlobalEgressIP)
    (tr : List Event) : Option (List Event × Bool) :=
  if egressIP.Status.AllocatedIPs.length > 0 then
    match flushClusterGlobalEgressRules c egressIP.Status tr with
    | none => none
    | some tr1 =>
      match c.poolRelease tr1 egressIP.Status.AllocatedIPs with
      | some _ => some (tr1 ++ [Event.Release egressIP.Status.AllocatedIPs], false)
      | none => some (tr1 ++ [Event.Release egressIP.Status.AllocatedIPs], false)
  else
    some (tr, false)

/-- `process`: the transform the syncer calls for each event.  The key is the
object's name (the object is cluster-scoped) and is used for logging only. -/
def process (c : clusterGlobalEgressIPController) (clusterGlobalEgressIP : ClusterGlobalEgressIP)
    (numRequeues : Int) (op : Operation) (tr : List Event) :
    Option (List Event × ProcessResult) :=
  let numberOfIPs : Int :=
    match clusterGlobalEgressIP.NumberOfIPs with
    | some n => n
    | none => 1
  let key := clusterGlobalEgressIP.Name
  match op with
  | Operation.Create | Operation.Update =>
    let prevStatus := clusterGlobalEgressIP.Status
    match validate c numberOfIPs clusterGlobalEgressIP tr with
    | (tr1, status1, false) =>
      let obj1 := { clusterGlobalEgressIP with Status := status1 }
      some (tr1, { obj := obj1, ret := c.checkStatusChanged prevStatus status1 obj1, requeue := false })
    | (tr1, status1, true) =>
      match onCreateOrUpdate c key numberOfIPs status1 tr1 with
      | none => none
      | some (tr2, status2, requeue) =>
        let obj2 := { clusterGlobalEgressIP with Status := status2 }
        some (tr2, { obj := obj2, ret := c.checkStatusChanged prevStatus status2 obj2,
                     requeue := requeue })
  | Operation.Delete =>
    match onRemove c clusterGlobalEgressIP tr with
    | none => none
    | some (tr1, requeue) =>
      some (tr1, { obj := clusterGlobalEgressIP, ret := none, requeue := requeue })
  | Operation.Other =>
    some (tr, { obj := clusterGlobalEgressIP, ret := none, requeue := false })

/-! ## Trace descriptions -/

/-- The installation events for the source subnets `srcIPs`, in order. -/
def addEvents (c : clusterGlobalEgressIPController) (snatIP : String) (srcIPs : List String) :
    List Event :=
  srcIPs.map fun srcIP => Event.AddClusterEgressRules srcIP snatIP c.globalNetIPTableMark

/-- The removal events for the source subnets `srcIPs`, in order. -/
def removeEvents (c : clusterGlobalEgressIPController) (snatIP : String) (srcIPs : List String) :
    List Event :=
  srcIPs.map fun srcIP => Event.RemoveClusterEgressRules srcIP snatIP c.globalNetIPTableMark

/-- The events by which a current allocation `cur` is given up: the removal of
its rule on every local subnet, then the release of all of `cur`.  Nothing for
an empty allocation. -/
def releaseEvents (c : clusterGlobalEgressIPController) (cur : List String) : List Event :=
  match getTargetSNATIPaddress cur with
  | some snatIP => removeEvents c snatIP c.localSubnets ++ [Event.Release cur]
  | none => []

/-- The result of a Create or Update that leaves the object with status
`status`: the object returned is what `checkStatusChanged` makes of the status
before and after. -/
def resultWith (c : clusterGlobalEgressIPController) (obj : ClusterGlobalEgressIP)
    (status : GlobalEgressIPStatus) (requeue : Bool) : ProcessResult :=
  { obj := { obj with Status := status }
    ret := c.checkStatusChanged obj.Status status { obj with Status := status }
    requeue := requeue }

/-! ## A kernel model for the egress rules -/

/-- An egress rule: source subnet, SNAT target and mark. -/
structure EgressRule where
  srcIP : String
  snatIP : String
  mark : String
deriving DecidableEq, Repr

/-- The rules installed after the events `evs`, which follow the trace
`before`, starting from `rules`: an installation that succeeds appends its
rule, a removal that succeeds deletes one instance of its rule, and a call
that fails changes nothing. -/
def kernelRules (c : clusterGlobalEgressIPController) :
    List Event → List Event → List EgressRule → List EgressRule
  | _, [], rules => rules
  | before, ev :: evs, rules =>
    match ev with
    | Event.AddClusterEgressRules srcIP snatIP mark =>
      match c.iptAddClusterEgressRules before srcIP snatIP mark with
      | none => kernelRules c (before ++ [ev]) evs (rules ++ [⟨srcIP, snatIP, mark⟩])
      | some _ => kernelRules c (before ++ [ev]) evs rules
    | Event.RemoveClusterEgressRules srcIP snatIP mark =>
      match c.iptRemoveClusterEgressRules before srcIP snatIP mark with
      | none => kernelRules c (before ++ [ev]) evs (rules.erase ⟨srcIP, snatIP, mark⟩)
      | some _ => kernelRules c (before ++ [ev]) evs rules
    | _ => kernelRules c (before ++ [ev]) evs rules

/-! ## Concrete collaborators -/

/-- The search of `tryAppendStatusConditionModel` through the conditions, last
one first. -/
def replaceLastOfType (newCond : Condition) : List Condition → Option (List Condition)
  | [] => none
  | cond :: earlier =>
    if cond.type = newCond.type then
      if cond.status = newCond.status ∧ cond.reason = newCond.reason ∧
          cond.message = newCond.message then
        some (cond :: earlier)
      else
        some (newCond :: earlier)
    else
      (replaceLastOfType newCond earlier).map fun l => cond :: l

/-- Modelled from the spec: `tryAppendStatusCondition` is declared outside the
embedded file.  It replaces the last condition of the same type iff status,
reason or message differ, is a no-op when they agree, and appends when there
is no condition of that type. -/
def tryAppendStatusConditionModel (conditions : List Condition) (newCond : Condition) :
    List Condition :=
  match replaceLastOfType newCond conditions.reverse with
  | some l => l.reverse
  | none => conditions ++ [newCond]

/-- Modelled from the spec: `checkStatusChanged` is declared outside the
embedded file.  The object goes back to the syncer whether or not the status
changed (changed: to be published; unchanged: so that the syncer can
short-circuit), so the object returned is the same in both cases. -/
def checkStatusChangedModel (_prevStatus _status : GlobalEgressIPStatus)
    (retObj : ClusterGlobalEgressIP) : Option ClusterGlobalEgressIP :=
  some retObj

/-- A controller over two local subnets and a pool of two addresses in which
every call succeeds as long as at most two addresses are asked for. -/
def demoController : clusterGlobalEgressIPController where
  ClusterGlobalEgressIPName := "cluster-egress-ip"
  globalNetIPTableMark := "0xC0000/0xC0000"
  localSubnets := ["10.0.0.0/16", "10.1.0.0/16"]
  poolAllocate := fun _ num =>
    if 0 < num ∧ num ≤ 2 then Except.ok (["169.254.0.0", "169.254.0.1"].take num.toNat)
    else Except.error "insufficient IPs available"
  poolRelease := fun _ _ => none
  iptAddClusterEgressRules := fun _ _ _ _ => none
  iptRemoveClusterEgressRules := fun _ _ _ _ => none
  tryAppendStatusCondition := tryAppendStatusConditionModel
  checkStatusChanged := checkStatusChangedModel

/-- The controller of `demoController` with an iptables interface that refuses
to install a rule for the second local subnet. -/
def demoAddFails : clusterGlobalEgressIPController :=
  { demoController with
    iptAddClusterEgressRules := fun _ srcIP _ _ =>
      if srcIP = "10.1.0.0/16" then some "iptables: resource temporarily unavailable" else none }

/-- An object with the well-known name, the given `Spec.NumberOfIPs` and the
given allocation, without conditions. -/
def demoObject (numberOfIPs : Option Int) (allocatedIPs : List String) : ClusterGlobalEgressIP :=
  { Name := "cluster-egress-ip"
    NumberOfIPs := numberOfIPs
    Status := { Conditions := [], AllocatedIPs := allocatedIPs } }

/-- An object that does not bear the well-known name. -/
def wrongNameObject : ClusterGlobalEgressIP :=
  { Name := "wrong-name"
    NumberOfIPs := some 2
    Status := { Conditions := [], AllocatedIPs := [] } }

end Globalnet

/-!
# Route agent controller

A shallow embedding of `pkg/routeagent/controllers/route/route.go`.

The controller keeps its mutable fields in `Controller` and reaches the object
store, the work queues, netlink, the VXLAN device and the file system through
`Env`; as above every call is recorded in a trace and answered from the trace
before it.  `klog.Fatalf` ends the process (`Result.fatal`), a nil pointer
dereference is `Result.panic`.  Addresses are the nil address or IPv4: the
overlay is AF_INET throughout and IPv6 text is treated as unparsable.
-/

namespace RouteAgent

/-! ## The parts of the Go `net` and `strings` packages in use -/

/-- `net.IP`: the nil address or an IPv4 address given by its four octets. -/
inductive IP
  | nil
  | v4 (a b c d : Nat)
deriving DecidableEq, Repr

/-- `net.IPNet` for IPv4: the network address and the number of leading ones
of the mask. -/
structure IPNet where
  IP : RouteAgent.IP
  Mask : Nat
deriving DecidableEq, Repr

/-- `strings.Split(s, sep)` for a one-character separator. -/
def stringsSplit (s : String) (sep : Char) : List String :=
  (s.toList.splitOn sep).map String.mk

/-- `strings.Join(elems, sep)` for a one-character separator. -/
def stringsJoin (elems : List String) (sep : Char) : String :=
  String.mk ([sep].intercalate (elems.map String.toList))

/-- `IP.String()`: dotted decimal, `<nil>` for the nil address. -/
def ipString : IP → String
  | IP.nil => "<nil>"
  | IP.v4 a b c d => toString a ++ "." ++ toString b ++ "." ++ toString c ++ "." ++ toString d

/-- `IP.Equal`. -/
def ipEqual (x y : IP) : Bool := decide (x = y)

/-- A decimal field: non-empty, digits only. -/
def parseDigits : List Char → Option Nat
  | [] => none
  | cs => if cs.all Char.isDigit then some (cs.foldl (fun n c => 10 * n + (c.toNat - 48)) 0)
          else none

/-- One field of a dotted quad: a decimal number of at most 255. -/
def parseOctet (cs : List Char) : Option Nat :=
  match parseDigits cs with
  | some n => if n ≤ 255 then some n else none
  | none => none

/-- The IPv4 parser on a character list: four decimal fields separated by dots. -/
def parseIPv4 (cs : List Char) : IP :=
  match cs.splitOn '.' with
  | [f0, f1, f2, f3] =>
    match parseOctet f0, parseOctet f1, parseOctet f2, parseOctet f3 with
    | some a, some b, some c, some d => IP.v4 a b c d
    | _, _, _, _ => IP.nil
  | _ => IP.nil

/-- `net.ParseIP`: nil for text that is not an IPv4 address. -/
def ParseIP (s : String) : IP := parseIPv4 s.toList

/-- `IP.Mask` with the mask `net.CIDRMask(ones, 32)`. -/
def maskIP (ones : Nat) : IP → IP
  | IP.nil => IP.nil
  | IP.v4 a b c d =>
    let x := a * 2 ^ 24 + b * 2 ^ 16 + c * 2 ^ 8 + d
    let y := x / 2 ^ (32 - ones) * 2 ^ (32 - ones)
    IP.v4 (y / 2 ^ 24) (y / 2 ^ 16 % 256) (y / 2 ^ 8 % 256) (y % 256)

/-- `net.ParseCIDR` for IPv4: the address and the network it lies in; `none`
is the parse error. -/
def ParseCIDR (s : String) : Option (IP × IPNet) :=
  match s.toList.dropWhile (fun ch => ch != '/') with
  | [] => none
  | _ :: mask =>
    match parseIPv4 (s.toList.takeWhile (fun ch => ch != '/')), parseDigits mask with
    | IP.nil, _ => none
    | _, none => none
    | ip, some ones => if ones ≤ 32 then some (ip, { IP := maskIP ones ip, Mask := ones }) else none

/-- `IPNet.String()`. -/
def ipNetString (n : IPNet) : String :=
  ipString n.IP ++ "/" ++ toString n.Mask

/-! ## Data -/

/-- The fields of a `Cluster` object in use. -/
structure Cluster where
  ClusterID : String
  ClusterCIDR : List String
  ServiceCIDR : List String
deriving DecidableEq, Repr

/-- The fields of an `Endpoint` object in use. -/
structure Endpoint where
  ClusterID : String
  Hostname : String
  PrivateIP : String
deriving DecidableEq, Repr

/-- The fields of a pod in use. -/
structure Pod where
  HostIP : String
  PodIP : String
deriving DecidableEq, Repr

/-- A `netlink.Link`, by its index and name. -/
structure Link where
  Index : Nat
  Name : String
deriving DecidableEq, Repr

/-- The fields of a `netlink.Route` in use (a nil `Dst` is `none`, a nil `Gw`
is `IP.nil`), with the metric `Priority`, which the controller leaves alone. -/
structure Route where
  Dst : Option IPNet
  Gw : IP
  Scope : Nat
  LinkIndex : Nat
  Protocol : Nat
  Priority : Nat
deriving DecidableEq, Repr

/-- The attributes handed to `newVxlanIface`; a nil `group` or `srcAddr` is
`IP.nil`. -/
structure vxLanAttributes where
  name : String
  vxlanId : Nat
  group : IP
  srcAddr : IP
  vtepPort : Nat
  mtu : Nat
deriving DecidableEq, Repr

/-- The three work queues. -/
inductive Queue
  | Clusters
  | Endpoints
  | Pods
deriving DecidableEq, Repr

/-- A work-queue item: a namespace/name key, or a pod. -/
inductive Item
  | key (k : String)
  | pod (p : Pod)
deriving DecidableEq, Repr

/-- One observable action of the route agent. -/
inductive Event
  | Get (q : Queue)
  | Done (q : Queue) (item : Item)
  | Forget (q : Queue) (item : Item)
  | AddRateLimited (q : Queue) (item : Item)
  | HandleError (msg : String)
  | GetCluster (ns name : String)
  | GetEndpoint (ns name : String)
  | Hostname
  | programIptableRulesForInterClusterTraffic (remoteCidrBlock : String)
  | setIsGatewayNode (b : Bool)
  | linkAddrs
  | newVxlanIface (attrs : vxLanAttributes)
  | AddFDB (ip : IP) (mac : String)
  | DelFDB (ip : IP) (mac : String)
  | configureIPAddress (ip : IP) (ones : Nat)
  | WriteFile (path data : String)
  | LinkByName (name : String)
  | RouteList (link : Link)
  | RouteDel (route : Route)
  | RouteAdd (route : Route)
  | XfrmPolicyList
  | XfrmPolicyDel (policy : String)
deriving DecidableEq, Repr

/-- The fields of `Controller` the handlers read or write. -/
structure Controller where
  clusterID : String
  gatewayNodeIP : IP
  remoteSubnets : List String
  vxlanDevice : Option vxLanAttributes
  vxlanGw : IP
  remoteVTEPs : List String
  isGatewayNode : Bool
deriving DecidableEq, Repr

/-- Everything the handlers call that is declared outside the embedded file and
whose answer they use.  An error is `some msg` (`Except.error msg` where a
value comes back).  A call whose outcome is only logged (`DelFDB`, `RouteDel`,
`RouteAdd`, `XfrmPolicyDel`, the `rp_filter` write, a failed `AddFDB` for a
pod) is recorded in the trace and needs no answer. -/
structure Env where
  SplitMetaNamespaceKey : String → Except String (String × String)
  clusterQueueGet : List Event → String × Bool
  endpointQueueGet : List Event → String × Bool
  podQueueGet : List Event → Pod × Bool
  GetCluster : List Event → String → String → Except String Cluster
  GetEndpoint : List Event → String → String → Except String Endpoint
  Hostname : List Event → Except String String
  linkAddrs : List Event → List String × Option String
  newVxlanIface : List Event → vxLanAttributes → Option String
  AddFDB : List Event → IP → String → Option String
  configureIPAddress : List Event → IP → Nat → Option String
  LinkByName : List Event → String → Except String Link
  RouteList : List Event → Link → Except String (List Route)
  XfrmPolicyList : List Event → Except String (List String)

/-- How a handler ends: it returns, the process exits in `klog.Fatalf`, or it
panics. -/
inductive Result (α : Type)
  | ok (val : α) (r : Controller) (tr : List Event)
  | fatal (r : Controller) (tr : List Event)
  | panic (r : Controller) (tr : List Event)

/-- The constant `VXLAN_IFACE`. -/
def VXLAN_IFACE : String := "vxlan100"

/-- The constant `VXLAN_PORT`. -/
def VXLAN_PORT : String := "4800"

/-- The constant `VXLAN_VTEP_NETWORK_PREFIX`. -/
def VXLAN_VTEP_NETWORK_PREFIX : String := "240"

/-- The constant `unix.RT_SCOPE_UNIVERSE`. -/
def RT_SCOPE_UNIVERSE : Nat := 0

/-! ## Lists of strings -/

/-- `containsString`. -/
def containsString : List String → String → Bool
  | [], _ => false
  | v :: c, s => if v = s then true else containsString c s

/-- `updateIptableRulesForInterclusterTraffic`: a block that is not yet among
the remote subnets is appended and its rules are programmed. -/
def updateIptableRulesForInterclusterTraffic :
    List String → Controller → List Event → Controller × List Event
  | [], r, tr => (r, tr)
  | remoteCidrBlock :: rest, r, tr =>
    if !containsString r.remoteSubnets remoteCidrBlock then
      updateIptableRulesForInterclusterTraffic rest
        { r with remoteSubnets := r.remoteSubnets ++ [remoteCidrBlock] }
        (tr ++ [Event.programIptableRulesForInterClusterTraffic remoteCidrBlock])
    else
      updateIptableRulesForInterclusterTraffic rest r tr

/-- `populateRemoteVtepIps`. -/
def populateRemoteVtepIps (r : Controller) (vtepIP : String) : Controller :=
  if !containsString r.remoteVTEPs vtepIP then
    { r with remoteVTEPs := r.remoteVTEPs ++ [vtepIP] }
  else r

/-- `deleteVepEntry`: the list without the first entry equal to
`entryToDelete`. -/
def deleteVepEntry : List String → String → List String
  | [], _ => []
  | v :: rest, entryToDelete =>
    if v = entryToDelete then rest else v :: deleteVepEntry rest entryToDelete

/-- `deleteRemoteVtepIp`. -/
def deleteRemoteVtepIp (r : Controller) (vtepIP : String) : Controller :=
  if containsString r.remoteVTEPs vtepIP then
    { r with remoteVTEPs := deleteVepEntry r.remoteVTEPs vtepIP }
  else r

/-! ## The cluster and pod queues -/

/-- `processNextCluster`.  The deferred `Done` runs when the inner function
returns, before the error, if any, is handed to `HandleError`. -/
def processNextCluster (env : Env) (r : Controller) (tr : List Event) : Result Bool :=
  match env.clusterQueueGet tr with
  | (_, true) => Result.ok false r (tr ++ [Event.Get Queue.Clusters])
  | (key, false) =>
    let tr1 := tr ++ [Event.Get Queue.Clusters]
    let obj := Item.key key
    match env.SplitMetaNamespaceKey key with
    | Except.error err =>
      Result.ok true r
        (tr1 ++ [Event.Done Queue.Clusters obj,
          Event.HandleError ("Error while splitting meta namespace key " ++ key ++ ": " ++ err)])
    | Except.ok (ns, name) =>
      match env.GetCluster tr1 ns name with
      | Except.error err =>
        Result.ok true r
          (tr1 ++ [Event.GetCluster ns name, Event.Done Queue.Clusters obj,
            Event.HandleError
              ("Error retrieving submariner cluster object " ++ name ++ ": " ++ err)])
      | Except.ok cluster =>
        let tr2 := tr1 ++ [Event.GetCluster ns name]
        if cluster.ClusterID = r.clusterID then
          Result.ok true r (tr2 ++ [Event.Done Queue.Clusters obj])
        else
          match updateIptableRulesForInterclusterTraffic
              (cluster.ClusterCIDR ++ cluster.ServiceCIDR) r tr2 with
          | (r1, tr3) =>
            Result.ok true r1
              (tr3 ++ [Event.Forget Queue.Clusters obj, Event.Done Queue.Clusters obj])

/-- `processNextPod`.  A failed `AddFDB` is logged. -/
def processNextPod (env : Env) (r : Controller) (tr : List Event) : Result Bool :=
  match env.podQueueGet tr with
  | (_, true) => Result.ok false r (tr ++ [Event.Get Queue.Pods])
  | (pod, false) =>
    let tr1 := tr ++ [Event.Get Queue.Pods]
    let r1 := populateRemoteVtepIps r pod.PodIP
    let tr2 :=
      if r1.isGatewayNode then
        tr1 ++ [Event.AddFDB (ParseIP pod.PodIP) "00:00:00:00:00:00"]
      else tr1
    Result.ok true r1 (tr2 ++ [Event.Forget Queue.Pods (Item.pod pod),
      Event.Done Queue.Pods (Item.pod pod)])

/-- `handleRemovedPod`, for an object that is a pod.  A failed `DelFDB` is
logged. -/
def handleRemovedPod (r : Controller) (pod : Pod) (tr : List Event) :
    Controller × List Event :=
  if containsString r.remoteVTEPs pod.HostIP then
    let r1 := deleteRemoteVtepIp r pod.HostIP
    if r1.isGatewayNode then
      (r1, tr ++ [Event.DelFDB (ParseIP pod.PodIP) "00:00:00:00:00:00"])
    else (r1, tr)
  else (r, tr)

/-! ## The VXLAN device -/

/-- The VTEP derivation, written out twice in the source
(`getVxlanVtepIPAddress` and `processNextEndpoint`): split the text of the
address at the dots, overwrite the first field, join and parse. -/
def replaceFirstOctet (ip : IP) : IP :=
  let ipSlice := stringsSplit (ipString ip) '.'
  let ipSlice := ipSlice.set 0 VXLAN_VTEP_NETWORK_PREFIX
  ParseIP (stringsJoin ipSlice '.')

/-- The loop of `getHostIfaceIPAddress` over the addresses of the link: the
first one that parses to an IPv4 address. -/
def firstIPv4 : List String → Option (IP × IPNet)
  | [] => none
  | addr :: rest =>
    match ParseCIDR addr with
    | some (IP.v4 a b c d, ipNetwork) => some (IP.v4 a b c d, ipNetwork)
    | _ => firstIPv4 rest

/-- `getHostIfaceIPAddress`: address, network and error. -/
def getHostIfaceIPAddress (env : Env) (tr : List Event) :
    List Event × IP × Option IPNet × Option String :=
  match env.linkAddrs tr with
  | (addrs, err) =>
    match firstIPv4 addrs with
    | some (ipAddr, ipNetwork) => (tr ++ [Event.linkAddrs], ipAddr, some ipNetwork, none)
    | none => (tr ++ [Event.linkAddrs], IP.nil, none, err)

/-- `getVxlanVtepIPAddress`. -/
def getVxlanVtepIPAddress (env : Env) (tr : List Event) :
    List Event × Except String (IP × Option IPNet) :=
  match getHostIfaceIPAddress env tr with
  | (tr1, _, _, some err) => (tr1, Except.error err)
  | (tr1, ipAddr, ipNetwork, none) => (tr1, Except.ok (replaceFirstOctet ipAddr, ipNetwork))

/-- The loop of `createVxLANInterface` over the remote VTEPs; `false` when an
`AddFDB` fails, which is fatal. -/
def addFDBLoop (env : Env) : List String → List Event → List Event × Bool
  | [], tr => (tr, true)
  | fdbAddress :: rest, tr =>
    match env.AddFDB tr (ParseIP fdbAddress) "00:00:00:00:00:00" with
    | some _ => (tr ++ [Event.AddFDB (ParseIP fdbAddress) "00:00:00:00:00:00"], false)
    | none => addFDBLoop env rest (tr ++ [Event.AddFDB (ParseIP fdbAddress) "00:00:00:00:00:00"])

/-- The attributes of the device on the gateway node. -/
def gatewayAttributes : vxLanAttributes :=
  { name := VXLAN_IFACE, vxlanId := 100, group := IP.nil, srcAddr := IP.nil,
    vtepPort := 4800, mtu := 1450 }

/-- The last step of `createVxLANInterface`: `vtepMask.Mask` dereferences the
network, then the address is configured. -/
def configureVtep (env : Env) (r : Controller) (vtepIP : IP) (vtepMask : Option IPNet)
    (tr : List Event) : Result (Option String) :=
  match vtepMask with
  | none => Result.panic r tr
  | some ipNetwork =>
    match env.configureIPAddress tr vtepIP ipNetwork.Mask with
    | some _ => Result.fatal r (tr ++ [Event.configureIPAddress vtepIP ipNetwork.Mask])
    | none => Result.ok none r (tr ++ [Event.configureIPAddress vtepIP ipNetwork.Mask])

/-- `createVxLANInterface`.  The port is `strconv.Atoi(VXLAN_PORT)`; the
outcome of the `rp_filter` write is logged. -/
def createVxLANInterface (env : Env) (r : Controller) (isGatewayDevice : Bool)
    (tr : List Event) : Result (Option String) :=
  match getVxlanVtepIPAddress env tr with
  | (tr1, Except.error _) => Result.fatal r tr1
  | (tr1, Except.ok (vtepIP, vtepMask)) =>
    if isGatewayDevice then
      let attrs := gatewayAttributes
      match env.newVxlanIface tr1 attrs with
      | some _ => Result.fatal { r with vxlanDevice := none } (tr1 ++ [Event.newVxlanIface attrs])
      | none =>
        let r1 := { r with vxlanDevice := some attrs }
        match addFDBLoop env r1.remoteVTEPs (tr1 ++ [Event.newVxlanIface attrs]) with
        | (tr2, false) => Result.fatal r1 tr2
        | (tr2, true) =>
          configureVtep env r1 vtepIP vtepMask
            (tr2 ++ [Event.WriteFile ("/proc/sys/net/ipv4/conf/" ++ VXLAN_IFACE ++ "/rp_filter")
              "2"])
    else
      let attrs : vxLanAttributes :=
        { name := VXLAN_IFACE, vxlanId := 100, group := r.gatewayNodeIP, srcAddr := vtepIP,
          vtepPort := 4800, mtu := 1450 }
      match env.newVxlanIface tr1 attrs with
      | some _ => Result.fatal { r with vxlanDevice := none } (tr1 ++ [Event.newVxlanIface attrs])
      | none =>
        configureVtep env { r with vxlanDevice := some attrs } vtepIP vtepMask
          (tr1 ++ [Event.newVxlanIface attrs])

/-! ## Routes -/

/-- The loop of `cleanRoutes` over the listed routes. -/
def cleanRoutesLoop (r : Controller) : List Route → List Event → List Event
  | [], tr => tr
  | route :: rest, tr =>
    match route.Dst with
    | none => cleanRoutesLoop r rest tr
    | some dst =>
      if route.Gw = IP.nil then cleanRoutesLoop r rest tr
      else if containsString r.remoteSubnets (ipNetString dst) then
        cleanRoutesLoop r rest (tr ++ [Event.RouteDel route])
      else cleanRoutesLoop r rest tr

/-- `cleanRoutes`. -/
def cleanRoutes (env : Env) (r : Controller) (tr : List Event) : List Event :=
  match env.LinkByName tr VXLAN_IFACE with
  | Except.error _ => tr ++ [Event.LinkByName VXLAN_IFACE]
  | Except.ok link =>
    match env.RouteList (tr ++ [Event.LinkByName VXLAN_IFACE]) link with
    | Except.error _ => tr ++ [Event.LinkByName VXLAN_IFACE, Event.RouteList link]
    | Except.ok currentRouteList =>
      cleanRoutesLoop r currentRouteList
        (tr ++ [Event.LinkByName VXLAN_IFACE, Event.RouteList link])

/-- `cleanXfrmPolicies`. -/
def cleanXfrmPolicies (env : Env) (tr : List Event) : List Event :=
  match env.XfrmPolicyList tr with
  | Except.error _ => tr ++ [Event.XfrmPolicyList]
  | Except.ok currentXfrmPolicyList =>
    tr ++ [Event.XfrmPolicyList] ++ currentXfrmPolicyList.map Event.XfrmPolicyDel

/-- The first loop of `reconcileRoutes`: the routes that do not match are
deleted; a failed `RouteDel` is logged. -/
def reconcileDeleteLoop (r : Controller) : List Route → List Event → List Event
  | [], tr => tr
  | route :: rest, tr =>
    match route.Dst with
    | none => reconcileDeleteLoop r rest tr
    | some dst =>
      if route.Gw = IP.nil then reconcileDeleteLoop r rest tr
      else if containsString r.remoteSubnets (ipNetString dst) && ipEqual route.Gw r.vxlanGw then
        reconcileDeleteLoop r rest tr
      else reconcileDeleteLoop r rest (tr ++ [Event.RouteDel route])

/-- The inner loop of the second pass: is there a listed route with the same
gateway and the same destination text? -/
def routeFound (currentRouteList : List Route) (route : Route) : Bool :=
  currentRouteList.any fun curRoute =>
    match curRoute.Dst, route.Dst with
    | some curDst, some dst =>
      if curRoute.Gw = IP.nil then false
      else ipEqual curRoute.Gw route.Gw && ipNetString curDst == ipNetString dst
    | _, _ => false

/-- The route literal of the second pass of `reconcileRoutes` for the network
`dst`; the metric is left at zero. -/
def desiredRoute (r : Controller) (link : Link) (dst : IPNet) : Route :=
  { Dst := some dst, Gw := r.vxlanGw, Scope := RT_SCOPE_UNIVERSE,
    LinkIndex := link.Index, Protocol := 4, Priority := 0 }

/-- The second loop of `reconcileRoutes`: a missing route is added; a block
that does not parse ends the loop; a failed `RouteAdd` is logged. -/
def reconcileAddLoop (r : Controller) (link : Link) (currentRouteList : List Route) :
    List String → List Event → List Event
  | [], tr => tr
  | cidrBlock :: rest, tr =>
    match ParseCIDR cidrBlock with
    | none => tr
    | some (_, dst) =>
      let route : Route := desiredRoute r link dst
      if !routeFound currentRouteList route then
        reconcileAddLoop r link currentRouteList rest (tr ++ [Event.RouteAdd route])
      else
        reconcileAddLoop r link currentRouteList rest tr

/-- `reconcileRoutes`: the trace and the error returned. -/
def reconcileRoutes (env : Env) (r : Controller) (tr : List Event) :
    List Event × Option String :=
  match env.LinkByName tr VXLAN_IFACE with
  | Except.error err =>
    (tr ++ [Event.LinkByName VXLAN_IFACE],
      some ("Error retrieving link by name " ++ VXLAN_IFACE ++ ": " ++ err))
  | Except.ok link =>
    let tr1 := tr ++ [Event.LinkByName VXLAN_IFACE]
    match env.RouteList tr1 link with
    | Except.error err =>
      (tr1 ++ [Event.RouteList link],
        some ("Error retrieving routes for link " ++ VXLAN_IFACE ++ ": " ++ err))
    | Except.ok currentRouteList =>
      let tr2 := reconcileDeleteLoop r currentRouteList (tr1 ++ [Event.RouteList link])
      match env.RouteList tr2 link with
      | Except.error err =>
        (tr2 ++ [Event.RouteList link],
          some ("Error retrieving routes for link " ++ VXLAN_IFACE ++ ": " ++ err))
      | Except.ok currentRouteList2 =>
        (reconcileAddLoop r link currentRouteList2 r.remoteSubnets
          (tr2 ++ [Event.RouteList link]), none)

/-! ## The endpoint queue -/

/-- `processNextEndpoint`.  `createVxLANInterface` never returns an error, so
the `Fatalf` behind its call is kept only for the shape of the source. -/
def processNextEndpoint (env : Env) (r : Controller) (tr : List Event) : Result Bool :=
  match env.endpointQueueGet tr with
  | (_, true) => Result.ok false r (tr ++ [Event.Get Queue.Endpoints])
  | (key, false) =>
    let tr1 := tr ++ [Event.Get Queue.Endpoints]
    let obj := Item.key key
    match env.SplitMetaNamespaceKey key with
    | Except.error err =>
      Result.ok true r
        (tr1 ++ [Event.Done Queue.Endpoints obj,
          Event.HandleError ("Error while splitting meta namespace key " ++ key ++ ": " ++ err)])
    | Except.ok (ns, name) =>
      match env.GetEndpoint tr1 ns name with
      | Except.error err =>
        Result.ok true r
          (tr1 ++ [Event.GetEndpoint ns name, Event.Done Queue.Endpoints obj,
            Event.HandleError
              ("Error retrieving submariner endpoint object " ++ name ++ ": " ++ err)])
      | Except.ok endpoint =>
        let tr2 := tr1 ++ [Event.GetEndpoint ns name]
        if endpoint.ClusterID ≠ r.clusterID then
          Result.ok true r (tr2 ++ [Event.Done Queue.Endpoints obj])
        else
          match env.Hostname tr2 with
          | Except.error _ => Result.fatal r (tr2 ++ [Event.Hostname])
          | Except.ok hostname =>
            let tr3 := tr2 ++ [Event.Hostname]
            let r1 := { r with gatewayNodeIP := ParseIP endpoint.PrivateIP }
            let r2 := { r1 with vxlanGw := replaceFirstOctet r1.gatewayNodeIP }
            if endpoint.Hostname = hostname then
              let tr4 := cleanRoutes env r2 tr3
              let r3 := { r2 with isGatewayNode := true }
              match createVxLANInterface env r3 true (tr4 ++ [Event.setIsGatewayNode true]) with
              | Result.ok (some _) r4 tr5 => Result.fatal r4 tr5
              | Result.ok none r4 tr5 => Result.ok true r4 (tr5 ++ [Event.Done Queue.Endpoints obj])
              | Result.fatal r4 tr5 => Result.fatal r4 tr5
              | Result.panic r4 tr5 => Result.panic r4 (tr5 ++ [Event.Done Queue.Endpoints obj])
            else
              let r3 := { r2 with isGatewayNode := false }
              match createVxLANInterface env r3 false (tr3 ++ [Event.setIsGatewayNode false]) with
              | Result.ok (some _) r4 tr5 => Result.fatal r4 tr5
              | Result.fatal r4 tr5 => Result.fatal r4 tr5
              | Result.panic r4 tr5 => Result.panic r4 (tr5 ++ [Event.Done Queue.Endpoints obj])
              | Result.ok none r4 tr5 =>
                match reconcileRoutes env r4 (cleanXfrmPolicies env tr5) with
                | (tr6, some err) =>
                  Result.ok true r4
                    (tr6 ++ [Event.AddRateLimited Queue.Endpoints obj,
                      Event.Done Queue.Endpoints obj,
                      Event.HandleError ("Error while reconciling routes " ++ err)])
                | (tr6, none) =>
                  Result.ok true r4
                    (tr6 ++ [Event.Forget Queue.Endpoints obj, Event.Done Queue.Endpoints obj])

/-! ## Descriptions used in the statements -/

/-- The entries of a list without repeats, each at its first occurrence. -/
def firstOccurrences : List String → List String
  | [] => []
  | x :: xs => x :: (firstOccurrences xs).filter (fun y => y ≠ x)

/-- The distinct entries of `input` that are not in `old`, in the order of
their first occurrence. -/
def newEntries (old input : List String) : List String :=
  firstOccurrences (input.filter fun x => x ∉ old)

/-- One `AddFDB` event, with the all-zero MAC address, per VTEP. -/
def fdbEvents (vteps : List String) : List Event :=
  vteps.map fun fdbAddress => Event.AddFDB (ParseIP fdbAddress) "00:00:00:00:00:00"

/-- The routes the deletion pass is to delete: dst and gw are not nil, and it
is not the case that the text of dst is among the remote subnets and gw equals
`vxlanGw`. -/
def shouldDelete (r : Controller) (route : Route) : Bool :=
  match route.Dst with
  | none => false
  | some dst =>
    decide (route.Gw ≠ IP.nil ∧ ¬ (ipNetString dst ∈ r.remoteSubnets ∧ route.Gw = r.vxlanGw))

/-- The routes the second pass adds, in order: for the blocks before the first
one that does not parse, the desired route when no listed route matches. -/
def addedRoutes (r : Controller) (link : Link) (currentRouteList : List Route) :
    List String → List Route
  | [] => []
  | cidrBlock :: rest =>
    match ParseCIDR cidrBlock with
    | none => []
    | some (_, dst) =>
      if routeFound currentRouteList (desiredRoute r link dst) then
        addedRoutes r link currentRouteList rest
      else
        desiredRoute r link dst :: addedRoutes r link currentRouteList rest

/-- The controller state a handler ends with. -/
def Result.controller {α : Type} : Result α → Controller
  | Result.ok _ r _ => r
  | Result.fatal r _ => r
  | Result.panic r _ => r

/-! ## A kernel model for the route table -/

/-- The effect of one event on the route table: `RouteAdd` appends its route,
`RouteDel` deletes one route equal to its argument, nothing else touches the
table. -/
def routeTableStep (table : List Route) : Event → List Route
  | Event.RouteAdd route => table ++ [route]
  | Event.RouteDel route => table.erase route
  | _ => table

/-- The route table after the events of `tr`, starting from `init`. -/
def routeTable (init : List Route) (tr : List Event) : List Route :=
  tr.foldl routeTableStep init

/-- The environment `base` with netlink answering from the kernel model: the
link lookup gives `link`, a listing gives the routes of the table on the link
asked for, and `RouteAdd` and `RouteDel` take effect. -/
def kernelEnv (link : Link) (init : List Route) (base : Env) : Env :=
  { base with
    LinkByName := fun _ _ => Except.ok link
    RouteList := fun tr l =>
      Except.ok ((routeTable init tr).filter fun route => route.LinkIndex = l.Index) }

/-- Is `route` a route on `link` through `gw` whose dst has the text `dstText`? -/
def isRouteTo (link : Link) (gw : IP) (dstText : String) (route : Route) : Bool :=
  match route.Dst with
  | some dst => decide (route.LinkIndex = link.Index ∧ route.Gw = gw ∧ ipNetString dst = dstText)
  | none => false

/-- The text of the network a CIDR block lies in, `none` when the block does
not parse. -/
def networkText (cidrBlock : String) : Option String :=
  (ParseCIDR cidrBlock).map fun p => ipNetString p.2

/-! ## Concrete collaborators -/

/-- A controller of cluster `east` that has seen nothing yet. -/
def demoRouteAgent : Controller :=
  { clusterID := "east", gatewayNodeIP := IP.nil, remoteSubnets := [], vxlanDevice := none,
    vxlanGw := IP.nil, remoteVTEPs := [], isGatewayNode := false }

/-- An environment in which every call succeeds: the store holds the cluster
and the endpoint given, the pod queue hands out the pod given, the host is
`node-a` with the address 192.168.1.7/24 and `vxlan100` has no routes. -/
def demoEnv (cluster : Cluster) (endpoint : Endpoint) (pod : Pod) : Env where
  SplitMetaNamespaceKey := fun key =>
    match stringsSplit key '/' with
    | [name] => Except.ok ("", name)
    | [ns, name] => Except.ok (ns, name)
    | _ => Except.error ("unexpected key format: " ++ key)
  clusterQueueGet := fun _ => ("submariner/cluster", false)
  endpointQueueGet := fun _ => ("submariner/endpoint", false)
  podQueueGet := fun _ => (pod, false)
  GetCluster := fun _ _ _ => Except.ok cluster
  GetEndpoint := fun _ _ _ => Except.ok endpoint
  Hostname := fun _ => Except.ok "node-a"
  linkAddrs := fun _ => (["fe80::1/64", "192.168.1.7/24"], none)
  newVxlanIface := fun _ _ => none
  AddFDB := fun _ _ _ => none
  configureIPAddress := fun _ _ _ => none
  LinkByName := fun _ name => Except.ok { Index := 7, Name := name }
  RouteList := fun _ _ => Except.ok []
  XfrmPolicyList := fun _ => Except.ok []

/-- The cluster object of the local cluster `east`. -/
def eastCluster : Cluster :=
  { ClusterID := "east", ClusterCIDR := ["10.0.0.0/16"], ServiceCIDR := ["100.0.0.0/16"] }

/-- The cluster object of a remote cluster. -/
def westCluster : Cluster :=
  { ClusterID := "west", ClusterCIDR := ["10.1.0.0/16", "10.2.0.0/16"],
    ServiceCIDR := ["10.1.0.0/16", "100.1.0.0/16"] }

/-- The endpoint of the local cluster, on `node-a`. -/
def eastEndpoint : Endpoint :=
  { ClusterID := "east", Hostname := "node-a", PrivateIP := "192.168.1.7" }

/-- A route agent pod whose pod address differs from its host address. -/
def demoPod : Pod := { HostIP := "192.168.1.5", PodIP := "10.1.2.3" }

/-- A worker node of cluster `east` that knows one remote subnet and whose
gateway VTEP is 240.168.1.7. -/
def demoWorker : Controller :=
  { clusterID := "east", gatewayNodeIP := IP.v4 192 168 1 7, remoteSubnets := ["10.1.0.0/16"],
    vxlanDevice := none, vxlanGw := IP.v4 240 168 1 7, remoteVTEPs := [],
    isGatewayNode := false }

/-- A route on link 7 to `dst` through `gw` with metric `priority`. -/
def routeVia (dst : Option IPNet) (gw : IP) (priority : Nat) : Route :=
  { Dst := dst, Gw := gw, Scope := 0, LinkIndex := 7, Protocol := 4, Priority := priority }

/-- Four routes on `vxlan100`: to the remote subnet through the gateway VTEP,
to the remote subnet through another gateway, to an unknown subnet, and an
on-link route without gateway. -/
def demoRoutes : List Route :=
  [routeVia (some { IP := IP.v4 10 1 0 0, Mask := 16 }) (IP.v4 240 168 1 7) 0,
   routeVia (some { IP := IP.v4 10 1 0 0, Mask := 16 }) (IP.v4 240 168 1 9) 0,
   routeVia (some { IP := IP.v4 10 9 0 0, Mask := 16 }) (IP.v4 240 168 1 7) 0,
   routeVia (some { IP := IP.v4 240 0 0 0, Mask := 8 }) IP.nil 0]

/-- Two routes on `vxlan100` to the remote subnet through the gateway VTEP that
differ in their metric only. -/
def twoMetricRoutes : List Route :=
  [routeVia (some { IP := IP.v4 10 1 0 0, Mask := 16 }) (IP.v4 240 168 1 7) 0,
   routeVia (some { IP := IP.v4 10 1 0 0, Mask := 16 }) (IP.v4 240 168 1 7) 100]

/-- The link `vxlan100` of the demo environment. -/
def demoLink : Link := { Index := 7, Name := "vxlan100" }

/-- The worker `demoWorker` with its remote subnet written with host bits:
10.1.2.3/16 lies in the network 10.1.0.0/16. -/
def hostBitsWorker : Controller :=
  { demoWorker with remoteSubnets := ["10.1.2.3/16"] }

end RouteAgent

namespace Globalnet

/-! ## Basic facts -/

theorem getTargetSNATIPaddress_nil : getTargetSNATIPaddress [] = none := by
  simp [getTargetSNATIPaddress]

theorem getTargetSNATIPaddress_isSome (allocIPs : List String) (h : allocIPs ≠ []) :
    ∃ snatIP, getTargetSNATIPaddress allocIPs = some snatIP := by
  cases allocIPs with
  | nil => exact absurd rfl h
  | cons a rest =>
    by_cases h1 : (a :: rest).length = 1
    · exact ⟨a, by simp [getTargetSNATIPaddress, h1]⟩
    · have hlt : (a :: rest).length - 1 < (a :: rest).length := by simp
      refine ⟨a ++ "-" ++ (a :: rest)[(a :: rest).length - 1], ?_⟩
      simp only [getTargetSNATIPaddress, if_neg h1]
      rw [List.getElem?_eq_getElem hlt]
      simp

theorem getTargetSNATIPaddress_ne_nil (allocIPs : List String) (snatIP : String)
    (h : getTargetSNATIPaddress allocIPs = some snatIP) : allocIPs ≠ [] := by
  intro h0
  rw [h0, getTargetSNATIPaddress_nil] at h
  exact Option.noConfusion h

theorem deleteClusterGlobalEgressRules_eq (c : clusterGlobalEgressIPController)
    (srcIPList : List String) (snatIP : String) (tr : List Event) :
    deleteClusterGlobalEgressRules c srcIPList snatIP tr
      = tr ++ removeEvents c snatIP srcIPList := by
  induction srcIPList generalizing tr with
  | nil => simp [deleteClusterGlobalEgressRules, removeEvents]
  | cons srcIP rest ih =>
    unfold deleteClusterGlobalEgressRules
    cases c.iptRemoveClusterEgressRules tr srcIP snatIP c.globalNetIPTableMark <;>
      simp [ih, removeEvents]

theorem flushClusterGlobalEgressRules_eq (c : clusterGlobalEgressIPController)
    (status : GlobalEgressIPStatus) (snatIP : String) (tr : List Event)
    (h : getTargetSNATIPaddress status.AllocatedIPs = some snatIP) :
    flushClusterGlobalEgressRules c status tr
      = some (tr ++ removeEvents c snatIP c.localSubnets) := by
  simp [flushClusterGlobalEgressRules, h, deleteClusterGlobalEgressRules_eq]

theorem programLoop_ok (c : clusterGlobalEgressIPController) (snatIP : String)
    (srcIPs programmed : List String) (tr : List Event)
    (hadd : ∀ j srcIP, srcIPs[j]? = some srcIP →
      c.iptAddClusterEgressRules (tr ++ addEvents c snatIP (srcIPs.take j)) srcIP snatIP
        c.globalNetIPTableMark = none) :
    programLoop c snatIP srcIPs programmed tr = (tr ++ addEvents c snatIP srcIPs, none) := by
  induction srcIPs generalizing programmed tr with
  | nil => simp [programLoop, addEvents]
  | cons srcIP rest ih =>
    have h0 := hadd 0 srcIP (by simp)
    simp only [List.take_zero, addEvents, List.map_nil, List.append_nil] at h0
    unfold programLoop
    rw [h0]
    simp only
    rw [ih]
    · simp [addEvents]
    · intro j s hj
      have := hadd (j + 1) s (by simpa using hj)
      simpa [addEvents] using this

theorem programLoop_fail (c : clusterGlobalEgressIPController) (snatIP : String)
    (srcIPs programmed : List String) (tr : List Event) (i : Nat) (failed err : String)
    (hi : srcIPs[i]? = some failed)
    (hadd : ∀ j srcIP, j < i → srcIPs[j]? = some srcIP →
      c.iptAddClusterEgressRules (tr ++ addEvents c snatIP (srcIPs.take j)) srcIP snatIP
        c.globalNetIPTableMark = none)
    (hfail : c.iptAddClusterEgressRules (tr ++ addEvents c snatIP (srcIPs.take i)) failed snatIP
        c.globalNetIPTableMark = some err) :
    programLoop c snatIP srcIPs programmed tr
      = (tr ++ addEvents c snatIP (srcIPs.take (i + 1))
          ++ removeEvents c snatIP (programmed ++ srcIPs.take i), some err) := by
  induction srcIPs generalizing programmed tr i with
  | nil => simp at hi
  | cons srcIP rest ih =>
    cases i with
    | zero =>
      simp only [List.getElem?_cons_zero, Option.some.injEq] at hi
      subst hi
      simp only [List.take_zero, addEvents, List.map_nil, List.append_nil] at hfail
      unfold programLoop
      rw [hfail]
      simp [deleteClusterGlobalEgressRules_eq, addEvents]
    | succ i =>
      have h0 := hadd 0 srcIP (Nat.succ_pos i) (by simp)
      simp only [List.take_zero, addEvents, List.map_nil, List.append_nil] at h0
      unfold programLoop
      rw [h0]
      simp only
      rw [ih (programmed ++ [srcIP]) _ i (by simpa using hi)]
      · simp [addEvents]
      · intro j s hj hs
        have := hadd (j + 1) s (Nat.succ_lt_succ hj) (by simpa using hs)
        simpa [addEvents] using this
      · simpa [addEvents] using hfail

theorem releaseEvents_nil (c : clusterGlobalEgressIPController) : releaseEvents c [] = [] := by
  simp [releaseEvents, getTargetSNATIPaddress_nil]

theorem releaseEvents_of_target (c : clusterGlobalEgressIPController) (cur : List String)
    (snatIP : String) (h : getTargetSNATIPaddress cur = some snatIP) :
    releaseEvents c cur = removeEvents c snatIP c.localSubnets ++ [Event.Release cur] := by
  simp [releaseEvents, h]

/-- When the counts differ `onCreateOrUpdate` gives up the current allocation,
if there is one, and goes on with `allocateGlobalIPs`. -/
theorem onCreateOrUpdate_of_ne (c : clusterGlobalEgressIPController) (key : String) (n : Int)
    (status : GlobalEgressIPStatus) (tr : List Event)
    (hne : n ≠ (status.AllocatedIPs.length : Int)) :
    onCreateOrUpdate c key n status tr
      = allocateGlobalIPs c key n status (tr ++ releaseEvents c status.AllocatedIPs) := by
  unfold onCreateOrUpdate
  rw [if_neg hne]
  by_cases hcur : status.AllocatedIPs = []
  · simp [hcur, releaseEvents_nil]
  · obtain ⟨snatIP, hs⟩ := getTargetSNATIPaddress_isSome _ hcur
    have hlen : status.AllocatedIPs.length > 0 := List.length_pos.mpr hcur
    rw [if_pos hlen, flushClusterGlobalEgressRules_eq c status snatIP tr hs,
      releaseEvents_of_target c _ snatIP hs]
    simp only [List.append_assoc]
    cases c.poolRelease (tr ++ removeEvents c snatIP c.localSubnets) status.AllocatedIPs <;> rfl

theorem allocateGlobalIPs_zero (c : clusterGlobalEgressIPController) (key : String)
    (status : GlobalEgressIPStatus) (tr : List Event) :
    allocateGlobalIPs c key 0 status tr
      = some (tr ++ [Event.setAllocatedIPs []], { status with AllocatedIPs := [] }, false) := by
  simp [allocateGlobalIPs]

/-- A Create or Update of the singleton with a positive count is whatever
`onCreateOrUpdate` makes of the status it was given. -/
theorem process_of_valid_pos (c : clusterGlobalEgressIPController)
    (obj : ClusterGlobalEgressIP) (numRequeues : Int) (op : Operation) (tr : List Event)
    (n : Int) (hop : op = Operation.Create ∨ op = Operation.Update)
    (hname : obj.Name = c.ClusterGlobalEgressIPName)
    (hn : obj.NumberOfIPs.getD 1 = n) (hpos : 0 < n) :
    process c obj numRequeues op tr
      = (onCreateOrUpdate c obj.Name n obj.Status tr).map
          fun out => (out.1, resultWith c obj out.2.1 out.2.2) := by
  have hn2 : (match obj.NumberOfIPs with | some n => n | none => 1) = n := by
    rw [← hn]; cases obj.NumberOfIPs <;> rfl
  have hnn : ¬ n < 0 := by omega
  have hn0 : ¬ n = 0 := by omega
  have hv : validate c n obj tr = (tr, obj.Status, true) := by
    simp [validate, hname, hnn, hn0]
  rcases hop with h | h <;> subst h <;>
    (simp only [process, hn2, hv, resultWith]
     cases onCreateOrUpdate c obj.Name n obj.Status tr <;> rfl)

theorem allocateGlobalIPs_pool_failure (c : clusterGlobalEgressIPController) (key : String)
    (n : Int) (status : GlobalEgressIPStatus) (tr : List Event) (err : String)
    (hn0 : n ≠ 0)
    (hfail : c.poolAllocate (tr ++ [Event.setAllocatedIPs []]) n = Except.error err) :
    allocateGlobalIPs c key n status tr =
      some (tr ++ [Event.setAllocatedIPs [], Event.Allocate n,
              Event.tryAppendStatusCondition
                ⟨"Allocated", ConditionStatus.ConditionFalse, "IPPoolAllocationFailed",
                  "Error allocating " ++ toString n ++ " global IP(s) from the pool: " ++ err, 0⟩],
        { Conditions := c.tryAppendStatusCondition status.Conditions
            ⟨"Allocated", ConditionStatus.ConditionFalse, "IPPoolAllocationFailed",
              "Error allocating " ++ toString n ++ " global IP(s) from the pool: " ++ err, 0⟩
          AllocatedIPs := [] }, true) := by
  simp [allocateGlobalIPs, hn0, hfail, GlobalEgressIPAllocated]

theorem allocateGlobalIPs_success (c : clusterGlobalEgressIPController) (key : String)
    (n : Int) (status : GlobalEgressIPStatus) (tr : List Event) (L : List String)
    (snatIP : String) (hn0 : n ≠ 0)
    (halloc : c.poolAllocate (tr ++ [Event.setAllocatedIPs []]) n = Except.ok L)
    (hsnat : getTargetSNATIPaddress L = some snatIP)
    (hadd : ∀ j srcIP, c.localSubnets[j]? = some srcIP →
      c.iptAddClusterEgressRules
        (tr ++ [Event.setAllocatedIPs [], Event.Allocate n]
          ++ addEvents c snatIP (c.localSubnets.take j))
        srcIP snatIP c.globalNetIPTableMark = none) :
    allocateGlobalIPs c key n status tr =
      some (tr ++ [Event.setAllocatedIPs [], Event.Allocate n]
              ++ addEvents c snatIP c.localSubnets
              ++ [Event.tryAppendStatusCondition
                    ⟨"Allocated", ConditionStatus.ConditionTrue, "Success",
                      "Allocated " ++ toString n ++ " global IP(s)", 0⟩,
                  Event.setAllocatedIPs L],
        { Conditions := c.tryAppendStatusCondition status.Conditions
            ⟨"Allocated", ConditionStatus.ConditionTrue, "Success",
              "Allocated " ++ toString n ++ " global IP(s)", 0⟩
          AllocatedIPs := L }, false) := by
  have hloop := programLoop_ok c snatIP c.localSubnets []
    (tr ++ [Event.setAllocatedIPs [], Event.Allocate n]) hadd
  simp only [allocateGlobalIPs, if_neg hn0, halloc, programClusterGlobalEgressRules, hsnat,
    Option.bind_eq_bind, Option.some_bind, Option.pure_def, List.append_assoc,
    List.singleton_append, GlobalEgressIPAllocated]
  simp only [List.append_assoc, List.cons_append, List.nil_append] at hloop
  rw [hloop]
  simp

theorem allocateGlobalIPs_program_failure (c : clusterGlobalEgressIPController) (key : String)
    (n : Int) (status : GlobalEgressIPStatus) (tr : List Event) (L : List String)
    (snatIP : String) (i : Nat) (failed err : String) (hn0 : n ≠ 0)
    (halloc : c.poolAllocate (tr ++ [Event.setAllocatedIPs []]) n = Except.ok L)
    (hsnat : getTargetSNATIPaddress L = some snatIP)
    (hi : c.localSubnets[i]? = some failed)
    (hadd : ∀ j srcIP, j < i → c.localSubnets[j]? = some srcIP →
      c.iptAddClusterEgressRules
        (tr ++ [Event.setAllocatedIPs [], Event.Allocate n]
          ++ addEvents c snatIP (c.localSubnets.take j))
        srcIP snatIP c.globalNetIPTableMark = none)
    (hfail : c.iptAddClusterEgressRules
        (tr ++ [Event.setAllocatedIPs [], Event.Allocate n]
          ++ addEvents c snatIP (c.localSubnets.take i))
        failed snatIP c.globalNetIPTableMark = some err) :
    allocateGlobalIPs c key n status tr =
      some (tr ++ [Event.setAllocatedIPs [], Event.Allocate n]
              ++ addEvents c snatIP (c.localSubnets.take (i + 1))
              ++ removeEvents c snatIP (c.localSubnets.take i)
              ++ [Event.Release L],
        { status with AllocatedIPs := [] }, true) := by
  have hloop := programLoop_fail c snatIP c.localSubnets []
    (tr ++ [Event.setAllocatedIPs [], Event.Allocate n]) i failed err hi hadd hfail
  simp only [allocateGlobalIPs, if_neg hn0, halloc, programClusterGlobalEgressRules, hsnat,
    Option.bind_eq_bind, Option.some_bind, Option.pure_def, List.append_assoc,
    List.singleton_append]
  simp only [List.append_assoc, List.cons_append, List.nil_append] at hloop
  rw [hloop]
  simp

/-- The loop either installs every rule, or stops at the first subnet whose
installation fails and removes the rules of the subnets before it. -/
theorem programLoop_cases (c : clusterGlobalEgressIPController) (snatIP : String)
    (srcIPs programmed : List String) (tr : List Event) :
    programLoop c snatIP srcIPs programmed tr = (tr ++ addEvents c snatIP srcIPs, none) ∨
    ∃ (i : Nat) (failed err : String),
      srcIPs[i]? = some failed ∧
      c.iptAddClusterEgressRules (tr ++ addEvents c snatIP (srcIPs.take i)) failed snatIP
        c.globalNetIPTableMark = some err ∧
      programLoop c snatIP srcIPs programmed tr
        = (tr ++ addEvents c snatIP (srcIPs.take (i + 1))
            ++ removeEvents c snatIP (programmed ++ srcIPs.take i), some err) := by
  induction srcIPs generalizing programmed tr with
  | nil => left; simp [programLoop, addEvents]
  | cons srcIP rest ih =>
    cases h0 : c.iptAddClusterEgressRules tr srcIP snatIP c.globalNetIPTableMark with
    | some err =>
      right
      refine ⟨0, srcIP, err, by simp, by simpa [addEvents] using h0, ?_⟩
      unfold programLoop
      rw [h0]
      simp [deleteClusterGlobalEgressRules_eq, addEvents]
    | none =>
      rcases ih (programmed ++ [srcIP])
          (tr ++ [Event.AddClusterEgressRules srcIP snatIP c.globalNetIPTableMark]) with h | h
      · left
        unfold programLoop
        rw [h0]
        simp only
        rw [h]
        simp [addEvents]
      · right
        obtain ⟨i, failed, err, hi, hfail, hres⟩ := h
        refine ⟨i + 1, failed, err, by simpa using hi, by simpa [addEvents] using hfail, ?_⟩
        unfold programLoop
        rw [h0]
        simp only
        rw [hres]
        simp [addEvents]

/-- The outcomes of `allocateGlobalIPs` for a non-zero count: the pool refuses,
the pool answers with an empty list (and the SNAT target cannot be formed),
everything succeeds, or a rule installation fails and is rolled back. -/
theorem allocateGlobalIPs_cases (c : clusterGlobalEgressIPController) (key : String)
    (n : Int) (status : GlobalEgressIPStatus) (tr : List Event) (hn0 : n ≠ 0) :
    (∃ err, c.poolAllocate (tr ++ [Event.setAllocatedIPs []]) n = Except.error err ∧
      allocateGlobalIPs c key n status tr =
        some (tr ++ [Event.setAllocatedIPs [], Event.Allocate n,
                Event.tryAppendStatusCondition
                  ⟨"Allocated", ConditionStatus.ConditionFalse, "IPPoolAllocationFailed",
                    "Error allocating " ++ toString n ++ " global IP(s) from the pool: " ++ err,
                    0⟩],
          { Conditions := c.tryAppendStatusCondition status.Conditions
              ⟨"Allocated", ConditionStatus.ConditionFalse, "IPPoolAllocationFailed",
                "Error allocating " ++ toString n ++ " global IP(s) from the pool: " ++ err, 0⟩
            AllocatedIPs := [] }, true)) ∨
    (c.poolAllocate (tr ++ [Event.setAllocatedIPs []]) n = Except.ok [] ∧
      allocateGlobalIPs c key n status tr = none) ∨
    (∃ L snatIP, c.poolAllocate (tr ++ [Event.setAllocatedIPs []]) n = Except.ok L ∧
      getTargetSNATIPaddress L = some snatIP ∧
      allocateGlobalIPs c key n status tr =
        some (tr ++ [Event.setAllocatedIPs [], Event.Allocate n]
                ++ addEvents c snatIP c.localSubnets
                ++ [Event.tryAppendStatusCondition
                      ⟨"Allocated", ConditionStatus.ConditionTrue, "Success",
                        "Allocated " ++ toString n ++ " global IP(s)", 0⟩,
                    Event.setAllocatedIPs L],
          { Conditions := c.tryAppendStatusCondition status.Conditions
              ⟨"Allocated", ConditionStatus.ConditionTrue, "Success",
                "Allocated " ++ toString n ++ " global IP(s)", 0⟩
            AllocatedIPs := L }, false)) ∨
    (∃ (L : List String) (snatIP : String) (i : Nat) (failed err : String),
      c.poolAllocate (tr ++ [Event.setAllocatedIPs []]) n = Except.ok L ∧
      getTargetSNATIPaddress L = some snatIP ∧
      c.localSubnets[i]? = some failed ∧
      c.iptAddClusterEgressRules
        (tr ++ [Event.setAllocatedIPs [], Event.Allocate n]
          ++ addEvents c snatIP (c.localSubnets.take i))
        failed snatIP c.globalNetIPTableMark = some err ∧
      allocateGlobalIPs c key n status tr =
        some (tr ++ [Event.setAllocatedIPs [], Event.Allocate n]
                ++ addEvents c snatIP (c.localSubnets.take (i + 1))
                ++ removeEvents c snatIP (c.localSubnets.take i)
                ++ [Event.Release L],
          { status with AllocatedIPs := [] }, true)) := by
  cases halloc : c.poolAllocate (tr ++ [Event.setAllocatedIPs []]) n with
  | error err =>
    left
    exact ⟨err, rfl, allocateGlobalIPs_pool_failure c key n status tr err hn0 halloc⟩
  | ok L =>
    right
    by_cases hL : L = []
    · left
      subst hL
      refine ⟨rfl, ?_⟩
      simp [allocateGlobalIPs, hn0, halloc, programClusterGlobalEgressRules,
        getTargetSNATIPaddress_nil]
    · right
      obtain ⟨snatIP, hsnat⟩ := getTargetSNATIPaddress_isSome L hL
      rcases programLoop_cases c snatIP c.localSubnets []
          (tr ++ [Event.setAllocatedIPs [], Event.Allocate n]) with h | h
      · left
        refine ⟨L, snatIP, rfl, hsnat, ?_⟩
        simp only [allocateGlobalIPs, if_neg hn0, halloc, programClusterGlobalEgressRules, hsnat,
          Option.bind_eq_bind, Option.some_bind, Option.pure_def, List.append_assoc,
          List.singleton_append, GlobalEgressIPAllocated]
        simp only [List.append_assoc, List.cons_append, List.nil_append] at h
        rw [h]
        simp
      · right
        obtain ⟨i, failed, err, hi, hfail, hres⟩ := h
        refine ⟨L, snatIP, i, failed, err, rfl, hsnat, hi, hfail, ?_⟩
        simp only [allocateGlobalIPs, if_neg hn0, halloc, programClusterGlobalEgressRules, hsnat,
          Option.bind_eq_bind, Option.some_bind, Option.pure_def, List.append_assoc,
          List.singleton_append]
        simp only [List.append_assoc, List.cons_append, List.nil_append] at hres
        rw [hres]
        simp

theorem allocate_not_mem_addEvents (c : clusterGlobalEgressIPController) (snatIP : String)
    (srcIPs : List String) (m : Int) : Event.Allocate m ∉ addEvents c snatIP srcIPs := by
  simp [addEvents]

theorem allocate_not_mem_removeEvents (c : clusterGlobalEgressIPController) (snatIP : String)
    (srcIPs : List String) (m : Int) : Event.Allocate m ∉ removeEvents c snatIP srcIPs := by
  simp [removeEvents]

theorem release_not_mem_addEvents (c : clusterGlobalEgressIPController) (snatIP : String)
    (srcIPs ips : List String) : Event.Release ips ∉ addEvents c snatIP srcIPs := by
  simp [addEvents]

theorem release_not_mem_removeEvents (c : clusterGlobalEgressIPController) (snatIP : String)
    (srcIPs ips : List String) : Event.Release ips ∉ removeEvents c snatIP srcIPs := by
  simp [removeEvents]

/-! ## The kernel model -/

theorem kernelRules_append (c : clusterGlobalEgressIPController)
    (before evs1 evs2 : List Event) (rules : List EgressRule) :
    kernelRules c before (evs1 ++ evs2) rules
      = kernelRules c (before ++ evs1) evs2 (kernelRules c before evs1 rules) := by
  induction evs1 generalizing before rules with
  | nil => simp [kernelRules]
  | cons ev evs ih =>
    cases ev with
    | AddClusterEgressRules srcIP snatIP mark =>
      simp only [List.cons_append, kernelRules]
      cases c.iptAddClusterEgressRules before srcIP snatIP mark <;> simp [ih]
    | RemoveClusterEgressRules srcIP snatIP mark =>
      simp only [List.cons_append, kernelRules]
      cases c.iptRemoveClusterEgressRules before srcIP snatIP mark <;> simp [ih]
    | Allocate num => simp [kernelRules, ih]
    | Release ips => simp [kernelRules, ih]
    | tryAppendStatusCondition newCond => simp [kernelRules, ih]
    | setAllocatedIPs ips => simp [kernelRules, ih]

/-- Installations that all succeed append their rules in order. -/
theorem kernelRules_addEvents (c : clusterGlobalEgressIPController) (snatIP : String)
    (srcIPs : List String) (before : List Event) (rules : List EgressRule)
    (hadd : ∀ j srcIP, srcIPs[j]? = some srcIP →
      c.iptAddClusterEgressRules (before ++ addEvents c snatIP (srcIPs.take j)) srcIP snatIP
        c.globalNetIPTableMark = none) :
    kernelRules c before (addEvents c snatIP srcIPs) rules
      = rules ++ srcIPs.map fun srcIP => (⟨srcIP, snatIP, c.globalNetIPTableMark⟩ : EgressRule) := by
  induction srcIPs generalizing before rules with
  | nil => simp [kernelRules, addEvents]
  | cons srcIP rest ih =>
    have h0 := hadd 0 srcIP (by simp)
    simp only [List.take_zero, addEvents, List.map_nil, List.append_nil] at h0
    simp only [addEvents, List.map_cons, kernelRules, h0]
    have := ih (before ++ [Event.AddClusterEgressRules srcIP snatIP c.globalNetIPTableMark])
      (rules ++ [⟨srcIP, snatIP, c.globalNetIPTableMark⟩])
      (by
        intro j s hj
        have := hadd (j + 1) s (by simpa using hj)
        simpa [addEvents] using this)
    simp only [addEvents] at this
    rw [this]
    simp

/-- Removals that all succeed delete one instance of each rule in order. -/
theorem kernelRules_removeEvents (c : clusterGlobalEgressIPController) (snatIP : String)
    (srcIPs : List String) (before : List Event) (rules : List EgressRule)
    (hrem : ∀ tr srcIP snat mark, c.iptRemoveClusterEgressRules tr srcIP snat mark = none) :
    kernelRules c before (removeEvents c snatIP srcIPs) rules
      = rules.diff (srcIPs.map fun srcIP => (⟨srcIP, snatIP, c.globalNetIPTableMark⟩ : EgressRule)) := by
  induction srcIPs generalizing before rules with
  | nil => simp [kernelRules, removeEvents]
  | cons srcIP rest ih =>
    simp only [removeEvents, List.map_cons, kernelRules, hrem, List.diff_cons]
    have := ih (before ++ [Event.RemoveClusterEgressRules srcIP snatIP c.globalNetIPTableMark])
      (rules.erase ⟨srcIP, snatIP, c.globalNetIPTableMark⟩)
    simp only [removeEvents] at this
    rw [this]

theorem append_diff_perm (rules added : List EgressRule) :
    ((rules ++ added).diff added).Perm rules := by
  rw [← Multiset.coe_eq_coe, ← Multiset.coe_sub, ← Multiset.coe_add]
  exact add_tsub_cancel_right _ _

/-- A run of installations that fails at index `i`, followed by the removal of
the rules of the subnets before `i`, leaves the installed rules as they were
(up to order), provided removals succeed. -/
theorem kernelRules_rollback (c : clusterGlobalEgressIPController) (snatIP : String)
    (srcIPs : List String) (i : Nat) (failed err : String) (before : List Event)
    (rules : List EgressRule)
    (hi : srcIPs[i]? = some failed)
    (hadd : ∀ j srcIP, j < i → srcIPs[j]? = some srcIP →
      c.iptAddClusterEgressRules (before ++ addEvents c snatIP (srcIPs.take j)) srcIP snatIP
        c.globalNetIPTableMark = none)
    (hfail : c.iptAddClusterEgressRules (before ++ addEvents c snatIP (srcIPs.take i)) failed
        snatIP c.globalNetIPTableMark = some err)
    (hrem : ∀ tr srcIP snat mark, c.iptRemoveClusterEgressRules tr srcIP snat mark = none) :
    (kernelRules c before
      (addEvents c snatIP (srcIPs.take (i + 1)) ++ removeEvents c snatIP (srcIPs.take i))
      rules).Perm rules := by
  have htake : srcIPs.take (i + 1) = srcIPs.take i ++ [failed] := by
    rw [List.take_succ, hi]; rfl
  have hsplit : addEvents c snatIP (srcIPs.take (i + 1))
      = addEvents c snatIP (srcIPs.take i)
        ++ [Event.AddClusterEgressRules failed snatIP c.globalNetIPTableMark] := by
    rw [htake]; simp [addEvents]
  have hadds : kernelRules c before (addEvents c snatIP (srcIPs.take i)) rules
      = rules ++ (srcIPs.take i).map
          fun srcIP => (⟨srcIP, snatIP, c.globalNetIPTableMark⟩ : EgressRule) := by
    apply kernelRules_addEvents
    intro j s hj
    have hji : j < i := by
      by_contra hcon
      rw [List.getElem?_take_eq_none (Nat.le_of_not_lt hcon)] at hj
      exact Option.noConfusion hj
    have hs : srcIPs[j]? = some s := by
      rw [List.getElem?_take_of_lt hji] at hj
      exact hj
    have := hadd j s hji hs
    rwa [List.take_take, Nat.min_eq_left (Nat.le_of_lt hji)]
  rw [hsplit, List.append_assoc, kernelRules_append, hadds, kernelRules_append]
  have hone : kernelRules c (before ++ addEvents c snatIP (srcIPs.take i))
      [Event.AddClusterEgressRules failed snatIP c.globalNetIPTableMark]
      (rules ++ (srcIPs.take i).map
          fun srcIP => (⟨srcIP, snatIP, c.globalNetIPTableMark⟩ : EgressRule))
      = rules ++ (srcIPs.take i).map
          fun srcIP => (⟨srcIP, snatIP, c.globalNetIPTableMark⟩ : EgressRule) := by
    simp [kernelRules, hfail]
  rw [hone, kernelRules_removeEvents c snatIP _ _ _ hrem]
  exact append_diff_perm _ _

theorem replaceLastOfType_mem (newCond : Condition) (conds replaced : List Condition)
    (h : replaceLastOfType newCond conds = some replaced) :
    ∃ cond ∈ replaced, cond.type = newCond.type ∧ cond.status = newCond.status ∧
      cond.reason = newCond.reason := by
  induction conds generalizing replaced with
  | nil => simp [replaceLastOfType] at h
  | cons cond earlier ih =>
    unfold replaceLastOfType at h
    by_cases ht : cond.type = newCond.type
    · rw [if_pos ht] at h
      by_cases hs : cond.status = newCond.status ∧ cond.reason = newCond.reason ∧
          cond.message = newCond.message
      · rw [if_pos hs] at h
        cases h
        exact ⟨cond, List.mem_cons_self _ _, ht, hs.1, hs.2.1⟩
      · rw [if_neg hs] at h
        cases h
        exact ⟨newCond, List.mem_cons_self _ _, rfl, rfl, rfl⟩
    · rw [if_neg ht] at h
      cases hr : replaceLastOfType newCond earlier with
      | none => rw [hr] at h; exact Option.noConfusion h
      | some l =>
        rw [hr] at h
        cases h
        obtain ⟨x, hx, hx3⟩ := ih l hr
        exact ⟨x, List.mem_cons_of_mem _ hx, hx3⟩

/-- The modelled `tryAppendStatusCondition` leaves a condition with the type,
status and reason of the one submitted in the list. -/
theorem tryAppendStatusConditionModel_mem (conditions : List Condition) (newCond : Condition) :
    ∃ cond ∈ tryAppendStatusConditionModel conditions newCond,
      cond.type = newCond.type ∧ cond.status = newCond.status ∧
      cond.reason = newCond.reason := by
  unfold tryAppendStatusConditionModel
  cases hr : replaceLastOfType newCond conditions.reverse with
  | none => exact ⟨newCond, by simp, rfl, rfl, rfl⟩
  | some l =>
    obtain ⟨x, hx, hx3⟩ := replaceLastOfType_mem newCond _ l hr
    exact ⟨x, by simpa using hx, hx3⟩

/-! ## Validation -/

/-- C1: a Create or Update of an object whose name differs from the well-known
name, whatever its `numberOfIPs`, returns requeue=false; the only event is the
condition (Allocated, False, InvalidInstance) handed to
`tryAppendStatusCondition` (so no pool call, no rule added or removed), the
allocated IPs stay as they were and the conditions change by that submission
alone. -/
theorem process_rejects_wrong_name (c : clusterGlobalEgressIPController)
    (obj : ClusterGlobalEgressIP) (numRequeues : Int) (op : Operation) (tr : List Event)
    (hop : op = Operation.Create ∨ op = Operation.Update)
    (hname : obj.Name ≠ c.ClusterGlobalEgressIPName) :
    ∃ newCond : Condition,
      newCond.type = "Allocated" ∧ newCond.status = ConditionStatus.ConditionFalse ∧
      newCond.reason = "InvalidInstance" ∧
      (validate c (obj.NumberOfIPs.getD 1) obj tr).2.2 = false ∧
      process c obj numRequeues op tr =
        some (tr ++ [Event.tryAppendStatusCondition newCond],
          resultWith c obj
            { Conditions := c.tryAppendStatusCondition obj.Status.Conditions newCond
              AllocatedIPs := obj.Status.AllocatedIPs } false) := by
  refine ⟨⟨"Allocated", ConditionStatus.ConditionFalse, "InvalidInstance",
    "Only the ClusterGlobalEgressIP instance with the well-known name " ++
      fmtQ c.ClusterGlobalEgressIPName ++ " is supported", 0⟩, rfl, rfl, rfl, ?_, ?_⟩
  · simp [validate, hname]
  · rcases hop with h | h <;> subst h <;>
      cases hN : obj.NumberOfIPs <;>
        simp [process, validate, hname, resultWith, GlobalEgressIPAllocated]

theorem process_rejects_wrong_name_witness :
    wrongNameObject.Name ≠ demoController.ClusterGlobalEgressIPName ∧
    ∃ newCond : Condition,
      newCond.type = "Allocated" ∧ newCond.status = ConditionStatus.ConditionFalse ∧
      newCond.reason = "InvalidInstance" ∧
      (validate demoController (wrongNameObject.NumberOfIPs.getD 1) wrongNameObject []).2.2
        = false ∧
      process demoController wrongNameObject 0 Operation.Create [] =
        some ([] ++ [Event.tryAppendStatusCondition newCond],
          resultWith demoController wrongNameObject
            { Conditions :=
                demoController.tryAppendStatusCondition wrongNameObject.Status.Conditions newCond
              AllocatedIPs := wrongNameObject.Status.AllocatedIPs } false) :=
  ⟨by decide,
    process_rejects_wrong_name demoController wrongNameObject 0 Operation.Create []
      (Or.inl rfl) (by decide)⟩

/-- C7: a Create or Update of an object with the well-known name and
`numberOfIPs < 0` is refused by `validate`; `process` returns requeue=false, the
only event is the condition (Allocated, False, InvalidInput) handed to
`tryAppendStatusCondition` (no pool call, no iptables call) and the allocated
IPs stay as they were. -/
theorem process_rejects_negative (c : clusterGlobalEgressIPController)
    (obj : ClusterGlobalEgressIP) (numRequeues : Int) (op : Operation) (tr : List Event)
    (n : Int) (hop : op = Operation.Create ∨ op = Operation.Update)
    (hname : obj.Name = c.ClusterGlobalEgressIPName)
    (hn : obj.NumberOfIPs = some n) (hneg : n < 0) :
    ∃ newCond : Condition,
      newCond.type = "Allocated" ∧ newCond.status = ConditionStatus.ConditionFalse ∧
      newCond.reason = "InvalidInput" ∧
      (validate c n obj tr).2.2 = false ∧
      process c obj numRequeues op tr =
        some (tr ++ [Event.tryAppendStatusCondition newCond],
          resultWith c obj
            { Conditions := c.tryAppendStatusCondition obj.Status.Conditions newCond
              AllocatedIPs := obj.Status.AllocatedIPs } false) := by
  refine ⟨⟨"Allocated", ConditionStatus.ConditionFalse, "InvalidInput",
    "The NumberOfIPs cannot be negative", 0⟩, rfl, rfl, rfl, ?_, ?_⟩
  · simp [validate, hname, hneg]
  · rcases hop with h | h <;> subst h <;>
      simp [process, validate, hname, hn, hneg, resultWith, GlobalEgressIPAllocated]

theorem process_rejects_negative_witness :
    (demoObject (some (-1)) []).Name = demoController.ClusterGlobalEgressIPName ∧
    ((-1 : Int) < 0) ∧
    ∃ newCond : Condition,
      newCond.type = "Allocated" ∧ newCond.status = ConditionStatus.ConditionFalse ∧
      newCond.reason = "InvalidInput" ∧
      (validate demoController (-1) (demoObject (some (-1)) []) []).2.2 = false ∧
      process demoController (demoObject (some (-1)) []) 0 Operation.Update [] =
        some ([] ++ [Event.tryAppendStatusCondition newCond],
          resultWith demoController (demoObject (some (-1)) [])
            { Conditions :=
                demoController.tryAppendStatusCondition
                  (demoObject (some (-1)) []).Status.Conditions newCond
              AllocatedIPs := (demoObject (some (-1)) []).Status.AllocatedIPs } false) :=
  ⟨by decide, by decide,
    process_rejects_negative demoController (demoObject (some (-1)) []) 0 Operation.Update []
      (-1) (Or.inr rfl) (by decide) rfl (by decide)⟩

/-- The no-op path: with equal counts the trace and status are as `validate`
left them. -/
theorem process_of_equal_counts (c : clusterGlobalEgressIPController)
    (obj : ClusterGlobalEgressIP) (numRequeues : Int) (op : Operation) (tr : List Event)
    (n : Int) (hop : op = Operation.Create ∨ op = Operation.Update)
    (hname : obj.Name = c.ClusterGlobalEgressIPName)
    (hn : obj.NumberOfIPs.getD 1 = n)
    (heq : n = (obj.Status.AllocatedIPs.length : Int)) :
    (validate c n obj tr).2.2 = true ∧
    (validate c n obj tr).2.1.AllocatedIPs = obj.Status.AllocatedIPs ∧
    onCreateOrUpdate c obj.Name n (validate c n obj tr).2.1 (validate c n obj tr).1
      = some ((validate c n obj tr).1, (validate c n obj tr).2.1, false) ∧
    process c obj numRequeues op tr
      = some ((validate c n obj tr).1, resultWith c obj (validate c n obj tr).2.1 false) := by
  have hnn : ¬ n < 0 := by omega
  have hv : (validate c n obj tr).2.2 = true := by
    simp only [validate, hname, ne_eq, not_true_eq_false, if_false, if_neg hnn]
    split <;> rfl
  have ha : (validate c n obj tr).2.1.AllocatedIPs = obj.Status.AllocatedIPs := by
    simp only [validate, hname, ne_eq, not_true_eq_false, if_false, if_neg hnn]
    split <;> rfl
  have ho : onCreateOrUpdate c obj.Name n (validate c n obj tr).2.1 (validate c n obj tr).1
      = some ((validate c n obj tr).1, (validate c n obj tr).2.1, false) := by
    unfold onCreateOrUpdate
    rw [if_pos (by rw [ha]; exact heq)]
  refine ⟨hv, ha, ho, ?_⟩
  have hn2 : (match obj.NumberOfIPs with | some n => n | none => 1) = n := by
    rw [← hn]; cases obj.NumberOfIPs <;> rfl
  rcases hv3 : validate c n obj tr with ⟨tr1, status1, b⟩
  rw [hv3] at hv ho
  simp only at hv ho
  subst hv
  rcases hop with h | h <;> subst h <;>
    simp only [process, hn2, hv3, ho, resultWith]

/-- C8: on a Create or Update of the valid singleton whose `numberOfIPs` (nil
counting as 1) equals the number of allocated IPs, `validate` accepts and
`onCreateOrUpdate` is a no-op: it adds no event to the trace, returns the status
as `validate` left it and requeue=false, and so does `process`. -/
theorem onCreateOrUpdate_noop_when_equal (c : clusterGlobalEgressIPController)
    (obj : ClusterGlobalEgressIP) (numRequeues : Int) (op : Operation) (tr : List Event)
    (n : Int) (hop : op = Operation.Create ∨ op = Operation.Update)
    (hname : obj.Name = c.ClusterGlobalEgressIPName)
    (hn : obj.NumberOfIPs.getD 1 = n)
    (heq : n = (obj.Status.AllocatedIPs.length : Int)) :
    (validate c n obj tr).2.2 = true ∧
    (validate c n obj tr).2.1.AllocatedIPs = obj.Status.AllocatedIPs ∧
    onCreateOrUpdate c obj.Name n (validate c n obj tr).2.1 (validate c n obj tr).1
      = some ((validate c n obj tr).1, (validate c n obj tr).2.1, false) ∧
    process c obj numRequeues op tr
      = some ((validate c n obj tr).1, resultWith c obj (validate c n obj tr).2.1 false) :=
  process_of_equal_counts c obj numRequeues op tr n hop hname hn heq

theorem onCreateOrUpdate_noop_when_equal_witness :
    (demoObject (some 2) ["169.254.0.0", "169.254.0.1"]).Name
      = demoController.ClusterGlobalEgressIPName ∧
    (validate demoController 2 (demoObject (some 2) ["169.254.0.0", "169.254.0.1"]) []).2.2
      = true ∧
    process demoController (demoObject (some 2) ["169.254.0.0", "169.254.0.1"]) 0
        Operation.Update []
      = some ((validate demoController 2
                (demoObject (some 2) ["169.254.0.0", "169.254.0.1"]) []).1,
          resultWith demoController (demoObject (some 2) ["169.254.0.0", "169.254.0.1"])
            (validate demoController 2
              (demoObject (some 2) ["169.254.0.0", "169.254.0.1"]) []).2.1 false) :=
  have h := onCreateOrUpdate_noop_when_equal demoController
    (demoObject (some 2) ["169.254.0.0", "169.254.0.1"]) 0 Operation.Update [] 2
    (Or.inr rfl) (by decide) rfl (by decide)
  ⟨by decide, h.1, h.2.2.2⟩

/-! ## The SNAT target -/

/-- C10: for a non-empty list of allocated IPs `getTargetSNATIPaddress` returns
the single element when the list has length 1, and first and last element
joined by a dash when it is longer. -/
theorem getTargetSNATIPaddress_spec (allocIPs : List String) (h : allocIPs ≠ []) :
    getTargetSNATIPaddress allocIPs
      = some (if allocIPs.length = 1 then allocIPs.head h
              else allocIPs.head h ++ "-" ++ allocIPs.getLast h) := by
  cases allocIPs with
  | nil => exact absurd rfl h
  | cons a rest =>
    by_cases h1 : (a :: rest).length = 1
    · simp [getTargetSNATIPaddress, h1]
    · have hlt : (a :: rest).length - 1 < (a :: rest).length := by simp
      simp only [getTargetSNATIPaddress, if_neg h1]
      rw [List.getElem?_eq_getElem hlt, List.getLast_eq_getElem]
      simp

theorem getTargetSNATIPaddress_spec_witness :
    getTargetSNATIPaddress ["169.254.0.0", "169.254.0.1", "169.254.0.2"]
      = some "169.254.0.0-169.254.0.2" ∧
    getTargetSNATIPaddress ["169.254.0.7"] = some "169.254.0.7" :=
  ⟨getTargetSNATIPaddress_spec ["169.254.0.0", "169.254.0.1", "169.254.0.2"] (by decide),
    getTargetSNATIPaddress_spec ["169.254.0.7"] (by decide)⟩

/-! ## Allocation -/

/-- The zero-count path of `process`. -/
theorem process_of_zero_count (c : clusterGlobalEgressIPController)
    (obj : ClusterGlobalEgressIP) (numRequeues : Int) (op : Operation) (tr : List Event)
    (hop : op = Operation.Create ∨ op = Operation.Update)
    (hname : obj.Name = c.ClusterGlobalEgressIPName)
    (hn : obj.NumberOfIPs = some 0) :
    ∃ (newCond : Condition) (evs : List Event),
      newCond.type = "Allocated" ∧ newCond.status = ConditionStatus.ConditionFalse ∧
      newCond.reason = "ZeroInput" ∧
      (validate c 0 obj tr).2.2 = true ∧
      evs = [Event.tryAppendStatusCondition newCond]
          ++ releaseEvents c obj.Status.AllocatedIPs
          ++ (if obj.Status.AllocatedIPs = [] then [] else [Event.setAllocatedIPs []]) ∧
      (∀ num, Event.Allocate num ∉ evs) ∧
      (∀ srcIP snatIP mark, Event.AddClusterEgressRules srcIP snatIP mark ∉ evs) ∧
      process c obj numRequeues op tr =
        some (tr ++ evs,
          resultWith c obj
            { Conditions := c.tryAppendStatusCondition obj.Status.Conditions newCond
              AllocatedIPs := [] } false) := by
  refine ⟨⟨"Allocated", ConditionStatus.ConditionFalse, "ZeroInput",
    "The specified NumberOfIPs is 0", 0⟩, _, rfl, rfl, rfl, ?_, rfl, ?_, ?_, ?_⟩
  · simp [validate, hname]
  · intro num hmem
    by_cases hcur : obj.Status.AllocatedIPs = []
    · simp [hcur, releaseEvents_nil] at hmem
    · obtain ⟨snatIP, hs⟩ := getTargetSNATIPaddress_isSome _ hcur
      simp [hcur, releaseEvents_of_target c _ snatIP hs, removeEvents] at hmem
  · intro srcIP snatIP mark hmem
    by_cases hcur : obj.Status.AllocatedIPs = []
    · simp [hcur, releaseEvents_nil] at hmem
    · obtain ⟨snatIP, hs⟩ := getTargetSNATIPaddress_isSome _ hcur
      simp [hcur, releaseEvents_of_target c _ snatIP hs, removeEvents] at hmem
  · have hv : validate c 0 obj tr
        = (tr ++ [Event.tryAppendStatusCondition ⟨"Allocated", ConditionStatus.ConditionFalse,
              "ZeroInput", "The specified NumberOfIPs is 0", 0⟩],
            { obj.Status with
              Conditions := c.tryAppendStatusCondition obj.Status.Conditions
                ⟨"Allocated", ConditionStatus.ConditionFalse, "ZeroInput",
                  "The specified NumberOfIPs is 0", 0⟩ }, true) := by
      simp [validate, hname, GlobalEgressIPAllocated]
    by_cases hcur : obj.Status.AllocatedIPs = []
    · rcases hop with h | h <;> subst h <;>
        simp [process, hn, hv, onCreateOrUpdate, hcur, releaseEvents_nil, resultWith]
    · have hne : (0 : Int) ≠ (obj.Status.AllocatedIPs.length : Int) := by
        have := List.length_pos.mpr hcur
        omega
      have hk := onCreateOrUpdate_of_ne c obj.Name 0
        { Conditions := c.tryAppendStatusCondition obj.Status.Conditions
            ⟨"Allocated", ConditionStatus.ConditionFalse, "ZeroInput",
              "The specified NumberOfIPs is 0", 0⟩
          AllocatedIPs := obj.Status.AllocatedIPs }
        (tr ++ [Event.tryAppendStatusCondition ⟨"Allocated", ConditionStatus.ConditionFalse,
              "ZeroInput", "The specified NumberOfIPs is 0", 0⟩]) hne
      rw [allocateGlobalIPs_zero] at hk
      rcases hop with h | h <;> subst h <;>
        simp [process, hn, hv, hk, hcur, resultWith]

/-- C9: a Create or Update of the well-known singleton with `numberOfIPs = 0`
is accepted by `validate`, which hands the condition (Allocated, False,
ZeroInput) to `tryAppendStatusCondition`; a non-empty current allocation then
has its rule removed on every local subnet and its addresses released; the
trace holds no `Allocate` and no rule installation, the allocated IPs end
empty and requeue=false. -/
theorem process_zero_input (c : clusterGlobalEgressIPController)
    (obj : ClusterGlobalEgressIP) (numRequeues : Int) (op : Operation) (tr : List Event)
    (hop : op = Operation.Create ∨ op = Operation.Update)
    (hname : obj.Name = c.ClusterGlobalEgressIPName)
    (hn : obj.NumberOfIPs = some 0) :
    ∃ (newCond : Condition) (evs : List Event),
      newCond.type = "Allocated" ∧ newCond.status = ConditionStatus.ConditionFalse ∧
      newCond.reason = "ZeroInput" ∧
      (validate c 0 obj tr).2.2 = true ∧
      evs = [Event.tryAppendStatusCondition newCond]
          ++ releaseEvents c obj.Status.AllocatedIPs
          ++ (if obj.Status.AllocatedIPs = [] then [] else [Event.setAllocatedIPs []]) ∧
      (∀ num, Event.Allocate num ∉ evs) ∧
      (∀ srcIP snatIP mark, Event.AddClusterEgressRules srcIP snatIP mark ∉ evs) ∧
      process c obj numRequeues op tr =
        some (tr ++ evs,
          resultWith c obj
            { Conditions := c.tryAppendStatusCondition obj.Status.Conditions newCond
              AllocatedIPs := [] } false) :=
  process_of_zero_count c obj numRequeues op tr hop hname hn

theorem process_zero_input_witness :
    (demoObject (some 0) ["169.254.0.0", "169.254.0.1"]).Name
      = demoController.ClusterGlobalEgressIPName ∧
    ∃ (newCond : Condition) (evs : List Event),
      newCond.type = "Allocated" ∧ newCond.status = ConditionStatus.ConditionFalse ∧
      newCond.reason = "ZeroInput" ∧
      (validate demoController 0 (demoObject (some 0) ["169.254.0.0", "169.254.0.1"]) []).2.2
        = true ∧
      evs = [Event.tryAppendStatusCondition newCond]
          ++ releaseEvents demoController
              (demoObject (some 0) ["169.254.0.0", "169.254.0.1"]).Status.AllocatedIPs
          ++ (if (demoObject (some 0) ["169.254.0.0", "169.254.0.1"]).Status.AllocatedIPs = []
              then [] else [Event.setAllocatedIPs []]) ∧
      (∀ num, Event.Allocate num ∉ evs) ∧
      (∀ srcIP snatIP mark, Event.AddClusterEgressRules srcIP snatIP mark ∉ evs) ∧
      process demoController (demoObject (some 0) ["169.254.0.0", "169.254.0.1"]) 0
          Operation.Update [] =
        some ([] ++ evs,
          resultWith demoController (demoObject (some 0) ["169.254.0.0", "169.254.0.1"])
            { Conditions :=
                demoController.tryAppendStatusCondition
                  (demoObject (some 0) ["169.254.0.0", "169.254.0.1"]).Status.Conditions newCond
              AllocatedIPs := [] } false) :=
  ⟨by decide,
    process_zero_input demoController (demoObject (some 0) ["169.254.0.0", "169.254.0.1"]) 0
      Operation.Update [] (Or.inr rfl) (by decide) rfl⟩

/-- C2: a Create or Update of the well-known singleton with `numberOfIPs = n > 0`
(nil counting as 1) and `len(status.allocatedIPs) ≠ n`, in which
`pool.Allocate(n)` succeeds with a list `L` whose SNAT target is `snatIP` and
every rule installation succeeds, ends with `status.allocatedIPs = L`, the
condition (Allocated, True, Success) handed to `tryAppendStatusCondition`, the
rule for `snatIP` installed once per local subnet in order, and requeue=false. -/
theorem process_allocates (c : clusterGlobalEgressIPController)
    (obj : ClusterGlobalEgressIP) (numRequeues : Int) (op : Operation) (tr : List Event)
    (n : Int) (L : List String) (snatIP : String)
    (hop : op = Operation.Create ∨ op = Operation.Update)
    (hname : obj.Name = c.ClusterGlobalEgressIPName)
    (hn : obj.NumberOfIPs.getD 1 = n) (hpos : 0 < n)
    (hne : n ≠ (obj.Status.AllocatedIPs.length : Int))
    (halloc : c.poolAllocate
        (tr ++ releaseEvents c obj.Status.AllocatedIPs ++ [Event.setAllocatedIPs []]) n
          = Except.ok L)
    (hsnat : getTargetSNATIPaddress L = some snatIP)
    (hadd : ∀ j srcIP, c.localSubnets[j]? = some srcIP →
      c.iptAddClusterEgressRules
        (tr ++ releaseEvents c obj.Status.AllocatedIPs
          ++ [Event.setAllocatedIPs [], Event.Allocate n]
          ++ addEvents c snatIP (c.localSubnets.take j))
        srcIP snatIP c.globalNetIPTableMark = none) :
    ∃ newCond : Condition,
      newCond.type = "Allocated" ∧ newCond.status = ConditionStatus.ConditionTrue ∧
      newCond.reason = "Success" ∧
      process c obj numRequeues op tr =
        some (tr ++ releaseEvents c obj.Status.AllocatedIPs
                ++ [Event.setAllocatedIPs [], Event.Allocate n]
                ++ addEvents c snatIP c.localSubnets
                ++ [Event.tryAppendStatusCondition newCond, Event.setAllocatedIPs L],
          resultWith c obj
            { Conditions := c.tryAppendStatusCondition obj.Status.Conditions newCond
              AllocatedIPs := L } false) := by
  refine ⟨⟨"Allocated", ConditionStatus.ConditionTrue, "Success",
    "Allocated " ++ toString n ++ " global IP(s)", 0⟩, rfl, rfl, rfl, ?_⟩
  rw [process_of_valid_pos c obj numRequeues op tr n hop hname hn hpos,
    onCreateOrUpdate_of_ne c obj.Name n obj.Status tr hne,
    allocateGlobalIPs_success c obj.Name n obj.Status _ L snatIP (by omega) halloc hsnat hadd]
  rfl

theorem process_allocates_witness :
    ∃ newCond : Condition,
      newCond.type = "Allocated" ∧ newCond.status = ConditionStatus.ConditionTrue ∧
      newCond.reason = "Success" ∧
      process demoController (demoObject (some 2) []) 0 Operation.Create [] =
        some ([] ++ releaseEvents demoController (demoObject (some 2) []).Status.AllocatedIPs
                ++ [Event.setAllocatedIPs [], Event.Allocate 2]
                ++ addEvents demoController "169.254.0.0-169.254.0.1"
                    demoController.localSubnets
                ++ [Event.tryAppendStatusCondition newCond,
                    Event.setAllocatedIPs ["169.254.0.0", "169.254.0.1"]],
          resultWith demoController (demoObject (some 2) [])
            { Conditions :=
                demoController.tryAppendStatusCondition
                  (demoObject (some 2) []).Status.Conditions newCond
              AllocatedIPs := ["169.254.0.0", "169.254.0.1"] } false) :=
  process_allocates demoController (demoObject (some 2) []) 0 Operation.Create [] 2
    ["169.254.0.0", "169.254.0.1"] "169.254.0.0-169.254.0.1"
    (Or.inl rfl) (by decide) rfl (by decide) (by decide) rfl (by decide)
    (fun _ _ _ => rfl)

/-- C4: a Create or Update of the valid singleton with `numberOfIPs = n > 0`
and `n ≠ len(status.allocatedIPs)` in which `pool.Allocate(n)` fails returns
requeue=true with `status.allocatedIPs` empty and the condition (Allocated,
False, IPPoolAllocationFailed) handed to `tryAppendStatusCondition`; no rule is
installed, and the rule removals and the release of a previous allocation
come before the failing `Allocate`. -/
theorem process_pool_failure (c : clusterGlobalEgressIPController)
    (obj : ClusterGlobalEgressIP) (numRequeues : Int) (op : Operation) (tr : List Event)
    (n : Int) (err : String)
    (hop : op = Operation.Create ∨ op = Operation.Update)
    (hname : obj.Name = c.ClusterGlobalEgressIPName)
    (hn : obj.NumberOfIPs.getD 1 = n) (hpos : 0 < n)
    (hne : n ≠ (obj.Status.AllocatedIPs.length : Int))
    (hfail : c.poolAllocate
        (tr ++ releaseEvents c obj.Status.AllocatedIPs ++ [Event.setAllocatedIPs []]) n
          = Except.error err) :
    ∃ (newCond : Condition) (evs : List Event),
      newCond.type = "Allocated" ∧ newCond.status = ConditionStatus.ConditionFalse ∧
      newCond.reason = "IPPoolAllocationFailed" ∧
      evs = releaseEvents c obj.Status.AllocatedIPs
          ++ [Event.setAllocatedIPs [], Event.Allocate n,
              Event.tryAppendStatusCondition newCond] ∧
      (∀ srcIP snatIP mark, Event.AddClusterEgressRules srcIP snatIP mark ∉ evs) ∧
      process c obj numRequeues op tr =
        some (tr ++ evs,
          resultWith c obj
            { Conditions := c.tryAppendStatusCondition obj.Status.Conditions newCond
              AllocatedIPs := [] } true) := by
  refine ⟨⟨"Allocated", ConditionStatus.ConditionFalse, "IPPoolAllocationFailed",
    "Error allocating " ++ toString n ++ " global IP(s) from the pool: " ++ err, 0⟩, _,
    rfl, rfl, rfl, rfl, ?_, ?_⟩
  · intro srcIP snatIP mark hmem
    by_cases hcur : obj.Status.AllocatedIPs = []
    · simp [hcur, releaseEvents_nil] at hmem
    · obtain ⟨snatIP, hs⟩ := getTargetSNATIPaddress_isSome _ hcur
      simp [releaseEvents_of_target c _ snatIP hs, removeEvents] at hmem
  · rw [process_of_valid_pos c obj numRequeues op tr n hop hname hn hpos,
      onCreateOrUpdate_of_ne c obj.Name n obj.Status tr hne,
      allocateGlobalIPs_pool_failure c obj.Name n obj.Status _ err (by omega) hfail]
    simp

theorem process_pool_failure_witness :
    ∃ (newCond : Condition) (evs : List Event),
      newCond.type = "Allocated" ∧ newCond.status = ConditionStatus.ConditionFalse ∧
      newCond.reason = "IPPoolAllocationFailed" ∧
      evs = releaseEvents demoController
              (demoObject (some 3) ["169.254.0.0", "169.254.0.1"]).Status.AllocatedIPs
          ++ [Event.setAllocatedIPs [], Event.Allocate 3,
              Event.tryAppendStatusCondition newCond] ∧
      (∀ srcIP snatIP mark, Event.AddClusterEgressRules srcIP snatIP mark ∉ evs) ∧
      process demoController (demoObject (some 3) ["169.254.0.0", "169.254.0.1"]) 0
          Operation.Update [] =
        some ([] ++ evs,
          resultWith demoController (demoObject (some 3) ["169.254.0.0", "169.254.0.1"])
            { Conditions :=
                demoController.tryAppendStatusCondition
                  (demoObject (some 3) ["169.254.0.0", "169.254.0.1"]).Status.Conditions newCond
              AllocatedIPs := [] } true) :=
  process_pool_failure demoController (demoObject (some 3) ["169.254.0.0", "169.254.0.1"]) 0
    Operation.Update [] 3 "insufficient IPs available"
    (Or.inr rfl) (by decide) rfl (by decide) (by decide) rfl

/-! ## Re-allocation -/

/-- C3, counterexample: with two addresses allocated and `numberOfIPs = 0` the
counts differ and the allocation is non-empty, yet `onCreateOrUpdate` removes
the rules, releases both addresses, clears the status and stops: the trace
holds no `Allocate` call. -/
theorem onCreateOrUpdate_zero_makes_no_allocate :
    (0 : Int) ≠ (["169.254.0.0", "169.254.0.1"].length : Int) ∧
    onCreateOrUpdate demoController "cluster-egress-ip" 0
        { Conditions := [], AllocatedIPs := ["169.254.0.0", "169.254.0.1"] } []
      = some ([Event.RemoveClusterEgressRules "10.0.0.0/16" "169.254.0.0-169.254.0.1"
                  "0xC0000/0xC0000",
               Event.RemoveClusterEgressRules "10.1.0.0/16" "169.254.0.0-169.254.0.1"
                  "0xC0000/0xC0000",
               Event.Release ["169.254.0.0", "169.254.0.1"],
               Event.setAllocatedIPs []],
          { Conditions := [], AllocatedIPs := [] }, false) ∧
    ¬ ∃ tr status requeue,
        onCreateOrUpdate demoController "cluster-egress-ip" 0
            { Conditions := [], AllocatedIPs := ["169.254.0.0", "169.254.0.1"] } []
          = some (tr, status, requeue) ∧
        Event.Allocate 0 ∈ tr := by
  have h : onCreateOrUpdate demoController "cluster-egress-ip" 0
        { Conditions := [], AllocatedIPs := ["169.254.0.0", "169.254.0.1"] } []
      = some ([Event.RemoveClusterEgressRules "10.0.0.0/16" "169.254.0.0-169.254.0.1"
                  "0xC0000/0xC0000",
               Event.RemoveClusterEgressRules "10.1.0.0/16" "169.254.0.0-169.254.0.1"
                  "0xC0000/0xC0000",
               Event.Release ["169.254.0.0", "169.254.0.1"],
               Event.setAllocatedIPs []],
          { Conditions := [], AllocatedIPs := [] }, false) := rfl
  refine ⟨by decide, h, ?_⟩
  rintro ⟨tr, status, requeue, heq, hmem⟩
  rw [h] at heq
  simp only [Option.some.injEq, Prod.mk.injEq] at heq
  rw [← heq.1] at hmem
  simp at hmem

/-- C3, amended: when the counts differ and the current allocation is
non-empty, `onCreateOrUpdate` first removes the rule for the SNAT target of the
current allocation on every local subnet, then releases the whole current
allocation, then clears `status.allocatedIPs`; for `numberOfIPs = 0` it stops
there, and otherwise the next call is `pool.Allocate(numberOfIPs)` for the full
count, no further `Allocate` follows, and the only later `Release` is of the
list that `Allocate` just returned.  (The pool returns a non-empty list when
it succeeds.) -/
theorem onCreateOrUpdate_full_reallocation (c : clusterGlobalEgressIPController)
    (key : String) (n : Int) (status : GlobalEgressIPStatus) (tr : List Event)
    (hne : n ≠ (status.AllocatedIPs.length : Int))
    (hcur : status.AllocatedIPs ≠ [])
    (hpool : ∀ L, c.poolAllocate
        (tr ++ releaseEvents c status.AllocatedIPs ++ [Event.setAllocatedIPs []]) n
          = Except.ok L → L ≠ []) :
    ∃ (snatIP : String) (rest : List Event) (status1 : GlobalEgressIPStatus) (requeue : Bool),
      getTargetSNATIPaddress status.AllocatedIPs = some snatIP ∧
      onCreateOrUpdate c key n status tr =
        some (tr ++ removeEvents c snatIP c.localSubnets
                ++ [Event.Release status.AllocatedIPs, Event.setAllocatedIPs []] ++ rest,
          status1, requeue) ∧
      (n = 0 → rest = []) ∧
      (n ≠ 0 → ∃ rest1, rest = Event.Allocate n :: rest1 ∧
        (∀ m, Event.Allocate m ∉ rest1) ∧
        ∀ ips, Event.Release ips ∈ rest1 →
          c.poolAllocate
            (tr ++ releaseEvents c status.AllocatedIPs ++ [Event.setAllocatedIPs []]) n
              = Except.ok ips) := by
  obtain ⟨snatIP, hs⟩ := getTargetSNATIPaddress_isSome _ hcur
  rw [onCreateOrUpdate_of_ne c key n status tr hne]
  by_cases hn0 : n = 0
  · subst hn0
    refine ⟨snatIP, [], { status with AllocatedIPs := [] }, false, hs, ?_, fun _ => rfl,
      fun h => absurd rfl h⟩
    rw [allocateGlobalIPs_zero, releaseEvents_of_target c _ snatIP hs]
    simp
  · rcases allocateGlobalIPs_cases c key n status
        (tr ++ releaseEvents c status.AllocatedIPs) hn0 with h | h | h | h
    · obtain ⟨err, _, hres⟩ := h
      rw [hres, releaseEvents_of_target c _ snatIP hs]
      refine ⟨snatIP, [Event.Allocate n, Event.tryAppendStatusCondition
          ⟨"Allocated", ConditionStatus.ConditionFalse, "IPPoolAllocationFailed",
            "Error allocating " ++ toString n ++ " global IP(s) from the pool: " ++ err, 0⟩],
        _, true, hs, by simp; rfl, fun h0 => absurd h0 hn0, fun _ => ⟨_, rfl, ?_, ?_⟩⟩
      · intro m hm
        simp at hm
      · intro ips hm
        simp at hm
    · exact absurd rfl (hpool [] h.1)
    · obtain ⟨L, snatL, _, _, hres⟩ := h
      rw [hres, releaseEvents_of_target c _ snatIP hs]
      refine ⟨snatIP, Event.Allocate n :: (addEvents c snatL c.localSubnets
          ++ [Event.tryAppendStatusCondition
                ⟨"Allocated", ConditionStatus.ConditionTrue, "Success",
                  "Allocated " ++ toString n ++ " global IP(s)", 0⟩,
              Event.setAllocatedIPs L]),
        _, false, hs, by simp; rfl, fun h0 => absurd h0 hn0, fun _ => ⟨_, rfl, ?_, ?_⟩⟩
      · intro m hm
        simp [allocate_not_mem_addEvents] at hm
      · intro ips hm
        simp [release_not_mem_addEvents] at hm
    · obtain ⟨L, snatL, i, failed, err, halloc, _, _, _, hres⟩ := h
      rw [hres, releaseEvents_of_target c _ snatIP hs]
      refine ⟨snatIP, Event.Allocate n :: (addEvents c snatL (c.localSubnets.take (i + 1))
          ++ removeEvents c snatL (c.localSubnets.take i) ++ [Event.Release L]),
        _, true, hs, by simp; rfl, fun h0 => absurd h0 hn0, fun _ => ⟨_, rfl, ?_, ?_⟩⟩
      · intro m hm
        simp [allocate_not_mem_addEvents, allocate_not_mem_removeEvents] at hm
      · intro ips hm
        simp [release_not_mem_addEvents, release_not_mem_removeEvents] at hm
        subst hm
        rw [← releaseEvents_of_target c _ snatIP hs]
        exact halloc

theorem onCreateOrUpdate_full_reallocation_witness :
    ∃ (snatIP : String) (rest : List Event) (status1 : GlobalEgressIPStatus) (requeue : Bool),
      getTargetSNATIPaddress ["169.254.0.0", "169.254.0.1"] = some snatIP ∧
      onCreateOrUpdate demoController "cluster-egress-ip" 1
          { Conditions := [], AllocatedIPs := ["169.254.0.0", "169.254.0.1"] } [] =
        some ([] ++ removeEvents demoController snatIP demoController.localSubnets
                ++ [Event.Release ["169.254.0.0", "169.254.0.1"], Event.setAllocatedIPs []]
                ++ rest,
          status1, requeue) ∧
      ((1 : Int) = 0 → rest = []) ∧
      ((1 : Int) ≠ 0 → ∃ rest1, rest = Event.Allocate 1 :: rest1 ∧
        (∀ m, Event.Allocate m ∉ rest1) ∧
        ∀ ips, Event.Release ips ∈ rest1 →
          demoController.poolAllocate
            ([] ++ releaseEvents demoController ["169.254.0.0", "169.254.0.1"]
              ++ [Event.setAllocatedIPs []]) 1
              = Except.ok ips) :=
  onCreateOrUpdate_full_reallocation demoController "cluster-egress-ip" 1
    { Conditions := [], AllocatedIPs := ["169.254.0.0", "169.254.0.1"] } []
    (by decide) (by decide)
    (fun L h => by
      have h1 : L = ["169.254.0.0"] := (Except.ok.inj h).symm
      rw [h1]
      decide)

/-! ## Roll-back -/

/-- C5: if the installation of the egress rule fails at index `i` of the local
subnets (and succeeded before), `programClusterGlobalEgressRules` has attempted
the subnets up to `i` only, removes the rule (same SNAT target and mark) for
exactly the subnets at indices below `i`, in order, and returns the error;
`allocateGlobalIPs` then releases exactly the list it had just allocated,
leaves `status.allocatedIPs` empty and returns requeue=true.  In the kernel
model, when removals succeed, the rules installed after the call are those
installed before it. -/
theorem program_failure_is_rolled_back (c : clusterGlobalEgressIPController) (key : String)
    (n : Int) (status : GlobalEgressIPStatus) (tr : List Event) (L : List String)
    (snatIP : String) (i : Nat) (failed err : String) (hn0 : n ≠ 0)
    (halloc : c.poolAllocate (tr ++ [Event.setAllocatedIPs []]) n = Except.ok L)
    (hsnat : getTargetSNATIPaddress L = some snatIP)
    (hi : c.localSubnets[i]? = some failed)
    (hadd : ∀ j srcIP, j < i → c.localSubnets[j]? = some srcIP →
      c.iptAddClusterEgressRules
        (tr ++ [Event.setAllocatedIPs [], Event.Allocate n]
          ++ addEvents c snatIP (c.localSubnets.take j))
        srcIP snatIP c.globalNetIPTableMark = none)
    (hfail : c.iptAddClusterEgressRules
        (tr ++ [Event.setAllocatedIPs [], Event.Allocate n]
          ++ addEvents c snatIP (c.localSubnets.take i))
        failed snatIP c.globalNetIPTableMark = some err) :
    programClusterGlobalEgressRules c L (tr ++ [Event.setAllocatedIPs [], Event.Allocate n])
      = some (tr ++ [Event.setAllocatedIPs [], Event.Allocate n]
                ++ addEvents c snatIP (c.localSubnets.take (i + 1))
                ++ removeEvents c snatIP (c.localSubnets.take i), some err) ∧
    allocateGlobalIPs c key n status tr
      = some (tr ++ [Event.setAllocatedIPs [], Event.Allocate n]
                ++ addEvents c snatIP (c.localSubnets.take (i + 1))
                ++ removeEvents c snatIP (c.localSubnets.take i)
                ++ [Event.Release L],
          { Conditions := status.Conditions, AllocatedIPs := [] }, true) ∧
    ((∀ tr1 srcIP snat mark, c.iptRemoveClusterEgressRules tr1 srcIP snat mark = none) →
      ∀ rules : List EgressRule,
        (kernelRules c []
          (tr ++ [Event.setAllocatedIPs [], Event.Allocate n]
            ++ addEvents c snatIP (c.localSubnets.take (i + 1))
            ++ removeEvents c snatIP (c.localSubnets.take i)
            ++ [Event.Release L]) rules).Perm (kernelRules c [] tr rules) ∧
        ∀ rule, rule ∈ kernelRules c []
            (tr ++ [Event.setAllocatedIPs [], Event.Allocate n]
              ++ addEvents c snatIP (c.localSubnets.take (i + 1))
              ++ removeEvents c snatIP (c.localSubnets.take i)
              ++ [Event.Release L]) rules
          ↔ rule ∈ kernelRules c [] tr rules) := by
  refine ⟨?_, allocateGlobalIPs_program_failure c key n status tr L snatIP i failed err hn0
    halloc hsnat hi hadd hfail, ?_⟩
  · have hloop := programLoop_fail c snatIP c.localSubnets []
      (tr ++ [Event.setAllocatedIPs [], Event.Allocate n]) i failed err hi hadd hfail
    simp only [programClusterGlobalEgressRules, hsnat, Option.bind_eq_bind, Option.some_bind,
      Option.pure_def]
    rw [hloop]
    simp
  · intro hrem rules
    have hperm : (kernelRules c []
          (tr ++ [Event.setAllocatedIPs [], Event.Allocate n]
            ++ addEvents c snatIP (c.localSubnets.take (i + 1))
            ++ removeEvents c snatIP (c.localSubnets.take i)
            ++ [Event.Release L]) rules).Perm (kernelRules c [] tr rules) := by
      have e1 : tr ++ [Event.setAllocatedIPs [], Event.Allocate n]
            ++ addEvents c snatIP (c.localSubnets.take (i + 1))
            ++ removeEvents c snatIP (c.localSubnets.take i)
            ++ [Event.Release L]
          = tr ++ ([Event.setAllocatedIPs [], Event.Allocate n]
            ++ ((addEvents c snatIP (c.localSubnets.take (i + 1))
                  ++ removeEvents c snatIP (c.localSubnets.take i))
              ++ [Event.Release L])) := by
        simp only [List.append_assoc]
      rw [e1, kernelRules_append, kernelRules_append, kernelRules_append]
      have e2 : kernelRules c ([] ++ tr) [Event.setAllocatedIPs [], Event.Allocate n]
          (kernelRules c [] tr rules) = kernelRules c [] tr rules := by
        simp [kernelRules]
      rw [e2]
      have e3 : ∀ before rs, kernelRules c before [Event.Release L] rs = rs := by
        intro before rs
        simp [kernelRules]
      rw [e3]
      exact kernelRules_rollback c snatIP c.localSubnets i failed err _ _ hi
        (by simpa using hadd) (by simpa using hfail) hrem
    exact ⟨hperm, fun rule => hperm.mem_iff⟩

theorem program_failure_is_rolled_back_witness :
    programClusterGlobalEgressRules demoAddFails ["169.254.0.0", "169.254.0.1"]
        ([] ++ [Event.setAllocatedIPs [], Event.Allocate 2])
      = some ([] ++ [Event.setAllocatedIPs [], Event.Allocate 2]
                ++ addEvents demoAddFails "169.254.0.0-169.254.0.1"
                    (demoAddFails.localSubnets.take (1 + 1))
                ++ removeEvents demoAddFails "169.254.0.0-169.254.0.1"
                    (demoAddFails.localSubnets.take 1),
              some "iptables: resource temporarily unavailable") ∧
    allocateGlobalIPs demoAddFails "cluster-egress-ip" 2
        { Conditions := [], AllocatedIPs := [] } []
      = some ([] ++ [Event.setAllocatedIPs [], Event.Allocate 2]
                ++ addEvents demoAddFails "169.254.0.0-169.254.0.1"
                    (demoAddFails.localSubnets.take (1 + 1))
                ++ removeEvents demoAddFails "169.254.0.0-169.254.0.1"
                    (demoAddFails.localSubnets.take 1)
                ++ [Event.Release ["169.254.0.0", "169.254.0.1"]],
          { Conditions := [], AllocatedIPs := [] }, true) ∧
    (kernelRules demoAddFails []
      ([] ++ [Event.setAllocatedIPs [], Event.Allocate 2]
        ++ addEvents demoAddFails "169.254.0.0-169.254.0.1"
            (demoAddFails.localSubnets.take (1 + 1))
        ++ removeEvents demoAddFails "169.254.0.0-169.254.0.1"
            (demoAddFails.localSubnets.take 1)
        ++ [Event.Release ["169.254.0.0", "169.254.0.1"]])
      [⟨"10.0.0.0/16", "169.254.0.0-169.254.0.1", "0xC0000/0xC0000"⟩]).Perm
      (kernelRules demoAddFails [] []
        [⟨"10.0.0.0/16", "169.254.0.0-169.254.0.1", "0xC0000/0xC0000"⟩]) :=
  have h := program_failure_is_rolled_back demoAddFails "cluster-egress-ip" 2
    { Conditions := [], AllocatedIPs := [] } [] ["169.254.0.0", "169.254.0.1"]
    "169.254.0.0-169.254.0.1" 1 "10.1.0.0/16" "iptables: resource temporarily unavailable"
    (by decide) rfl (by decide) (by decide)
    (fun j srcIP hj hs => by
      have hj0 : j = 0 := by omega
      subst hj0
      have hsrc : srcIP = "10.0.0.0/16" := (Option.some.inj hs).symm
      subst hsrc
      rfl)
    rfl
  ⟨h.1, h.2.1, (h.2.2 (fun _ _ _ _ => rfl) _).1⟩

/-! ## The reconcile invariant -/

/-- C6, counterexample: the valid singleton asks for two addresses, the pool
hands them out and the installation of the rule fails on the second local
subnet.  After `process` the status holds no allocated IP and no condition at
all, so neither `len(status.allocatedIPs) = 2` nor an Allocated=False
condition with a listed reason holds. -/
theorem reconcile_rule_failure_records_no_condition :
    (demoObject (some 2) []).Name = demoAddFails.ClusterGlobalEgressIPName ∧
    ∃ (tr1 : List Event) (res : ProcessResult),
      process demoAddFails (demoObject (some 2) []) 0 Operation.Create [] = some (tr1, res) ∧
      res.obj.Status = { Conditions := [], AllocatedIPs := [] } ∧
      res.requeue = true ∧
      ¬ ((res.obj.Status.AllocatedIPs.length : Int) = 2 ∨
          ∃ cond ∈ res.obj.Status.Conditions,
            cond.type = "Allocated" ∧ cond.status = ConditionStatus.ConditionFalse ∧
            cond.reason ∈
              ["InvalidInstance", "InvalidInput", "ZeroInput", "IPPoolAllocationFailed"]) := by
  refine ⟨by decide,
    [Event.setAllocatedIPs [], Event.Allocate 2,
      Event.AddClusterEgressRules "10.0.0.0/16" "169.254.0.0-169.254.0.1" "0xC0000/0xC0000",
      Event.AddClusterEgressRules "10.1.0.0/16" "169.254.0.0-169.254.0.1" "0xC0000/0xC0000",
      Event.RemoveClusterEgressRules "10.0.0.0/16" "169.254.0.0-169.254.0.1" "0xC0000/0xC0000",
      Event.Release ["169.254.0.0", "169.254.0.1"]],
    { obj := demoObject (some 2) []
      ret := some (demoObject (some 2) [])
      requeue := true }, rfl, rfl, rfl, ?_⟩
  simp [demoObject]

/-- C6, amended: after a Create or Update of the valid singleton with
`numberOfIPs = n ≥ 0`, from any prior status, `process` returns and either
`len(status.allocatedIPs) = n`, or the condition list holds an Allocated
condition with status False and one of the listed reasons, or the installation
of an egress rule failed, in which case `status.allocatedIPs` is empty, the
condition list is as before and requeue=true.  (The pool returns `n` addresses
when it succeeds; `tryAppendStatusCondition` leaves a condition with the
submitted type, status and reason in the list.) -/
theorem reconcile_outcome (c : clusterGlobalEgressIPController)
    (obj : ClusterGlobalEgressIP) (numRequeues : Int) (op : Operation) (tr : List Event)
    (n : Int) (hop : op = Operation.Create ∨ op = Operation.Update)
    (hname : obj.Name = c.ClusterGlobalEgressIPName)
    (hn : obj.NumberOfIPs.getD 1 = n) (hnn : 0 ≤ n)
    (hpool : ∀ tr1 L, c.poolAllocate tr1 n = Except.ok L → (L.length : Int) = n)
    (hcond : ∀ conds newCond, ∃ cond ∈ c.tryAppendStatusCondition conds newCond,
      cond.type = newCond.type ∧ cond.status = newCond.status ∧
      cond.reason = newCond.reason) :
    ∃ (tr1 : List Event) (res : ProcessResult),
      process c obj numRequeues op tr = some (tr1, res) ∧
      ((res.obj.Status.AllocatedIPs.length : Int) = n ∨
        (∃ cond ∈ res.obj.Status.Conditions,
          cond.type = "Allocated" ∧ cond.status = ConditionStatus.ConditionFalse ∧
          cond.reason ∈
            ["InvalidInstance", "InvalidInput", "ZeroInput", "IPPoolAllocationFailed"]) ∨
        (∃ (L : List String) (snatIP : String) (i : Nat) (failed err : String),
          getTargetSNATIPaddress L = some snatIP ∧
          c.localSubnets[i]? = some failed ∧
          c.iptAddClusterEgressRules
            (tr ++ releaseEvents c obj.Status.AllocatedIPs
              ++ [Event.setAllocatedIPs [], Event.Allocate n]
              ++ addEvents c snatIP (c.localSubnets.take i))
            failed snatIP c.globalNetIPTableMark = some err ∧
          res.obj.Status.AllocatedIPs = [] ∧
          res.obj.Status.Conditions = obj.Status.Conditions ∧
          res.requeue = true)) := by
  by_cases heq : n = (obj.Status.AllocatedIPs.length : Int)
  · -- the counts agree: nothing is done to the allocation
    have h := process_of_equal_counts c obj numRequeues op tr n hop hname hn heq
    refine ⟨_, _, h.2.2.2, Or.inl ?_⟩
    simp only [resultWith]
    rw [h.2.1]
    exact heq.symm
  · by_cases hn0 : n = 0
    · -- a zero count with a non-empty allocation
      subst hn0
      have hsome : obj.NumberOfIPs = some 0 := by
        cases hN : obj.NumberOfIPs with
        | none => rw [hN] at hn; simp at hn
        | some m => rw [hN] at hn; simpa using hn
      obtain ⟨newCond, evs, _, _, _, _, _, _, _, hres⟩ :=
        process_of_zero_count c obj numRequeues op tr hop hname hsome
      exact ⟨_, _, hres, Or.inl (by simp [resultWith])⟩
    · have hpos : 0 < n := by omega
      rw [process_of_valid_pos c obj numRequeues op tr n hop hname hn hpos,
        onCreateOrUpdate_of_ne c obj.Name n obj.Status tr heq]
      rcases allocateGlobalIPs_cases c obj.Name n obj.Status
          (tr ++ releaseEvents c obj.Status.AllocatedIPs) hn0 with h | h | h | h
      · obtain ⟨err, _, hres⟩ := h
        rw [hres]
        refine ⟨_, _, rfl, Or.inr (Or.inl ?_)⟩
        obtain ⟨cond, hmem, ht, hs, hr⟩ := hcond obj.Status.Conditions
          ⟨"Allocated", ConditionStatus.ConditionFalse, "IPPoolAllocationFailed",
            "Error allocating " ++ toString n ++ " global IP(s) from the pool: " ++ err, 0⟩
        exact ⟨cond, hmem, ht, hs, by rw [hr]; simp⟩
      · have := hpool _ _ h.1
        simp at this
        omega
      · obtain ⟨L, snatIP, halloc, _, hres⟩ := h
        rw [hres]
        exact ⟨_, _, rfl, Or.inl (hpool _ _ halloc)⟩
      · obtain ⟨L, snatIP, i, failed, err, _, hsnat, hi, hfail, hres⟩ := h
        rw [hres]
        exact ⟨_, _, rfl, Or.inr (Or.inr ⟨L, snatIP, i, failed, err, hsnat, hi, hfail,
          rfl, rfl, rfl⟩)⟩

theorem reconcile_outcome_witness :
    ∃ (tr1 : List Event) (res : ProcessResult),
      process demoAddFails (demoObject (some 2) []) 0 Operation.Create [] = some (tr1, res) ∧
      ((res.obj.Status.AllocatedIPs.length : Int) = 2 ∨
        (∃ cond ∈ res.obj.Status.Conditions,
          cond.type = "Allocated" ∧ cond.status = ConditionStatus.ConditionFalse ∧
          cond.reason ∈
            ["InvalidInstance", "InvalidInput", "ZeroInput", "IPPoolAllocationFailed"]) ∨
        (∃ (L : List String) (snatIP : String) (i : Nat) (failed err : String),
          getTargetSNATIPaddress L = some snatIP ∧
          demoAddFails.localSubnets[i]? = some failed ∧
          demoAddFails.iptAddClusterEgressRules
            ([] ++ releaseEvents demoAddFails (demoObject (some 2) []).Status.AllocatedIPs
              ++ [Event.setAllocatedIPs [], Event.Allocate 2]
              ++ addEvents demoAddFails snatIP (demoAddFails.localSubnets.take i))
            failed snatIP demoAddFails.globalNetIPTableMark = some err ∧
          res.obj.Status.AllocatedIPs = [] ∧
          res.obj.Status.Conditions = (demoObject (some 2) []).Status.Conditions ∧
          res.requeue = true)) :=
  reconcile_outcome demoAddFails (demoObject (some 2) []) 0 Operation.Create [] 2
    (Or.inl rfl) (by decide) rfl (by decide)
    (fun _ L h => by
      have h1 : L = ["169.254.0.0", "169.254.0.1"] := (Except.ok.inj h).symm
      rw [h1]
      rfl)
    tryAppendStatusConditionModel_mem

/-! ## Removal -/

/-- C11: a Delete event makes `process` return nil and requeue=false whatever
the collaborators answer; for a non-empty allocation the trace is the removal
of the rule with the SNAT target of those IPs for every local subnet, in
order, followed by `Release` of exactly those IPs (`releaseEvents`), and for an
empty allocation nothing is added to the trace. -/
theorem process_delete (c : clusterGlobalEgressIPController)
    (obj : ClusterGlobalEgressIP) (numRequeues : Int) (tr : List Event) :
    process c obj numRequeues Operation.Delete tr
        = some (tr ++ releaseEvents c obj.Status.AllocatedIPs,
            { obj := obj, ret := none, requeue := false }) ∧
    (obj.Status.AllocatedIPs = [] → releaseEvents c obj.Status.AllocatedIPs = []) ∧
    (obj.Status.AllocatedIPs ≠ [] →
      ∃ snatIP, getTargetSNATIPaddress obj.Status.AllocatedIPs = some snatIP ∧
        releaseEvents c obj.Status.AllocatedIPs
          = c.localSubnets.map
              (fun srcIP => Event.RemoveClusterEgressRules srcIP snatIP c.globalNetIPTableMark)
            ++ [Event.Release obj.Status.AllocatedIPs]) := by
  refine ⟨?_, ?_, ?_⟩
  · by_cases hcur : obj.Status.AllocatedIPs = []
    · simp [process, onRemove, hcur, releaseEvents_nil]
    · obtain ⟨snatIP, hs⟩ := getTargetSNATIPaddress_isSome _ hcur
      have hlen : obj.Status.AllocatedIPs.length > 0 := List.length_pos.mpr hcur
      simp only [process, onRemove, if_pos hlen,
        flushClusterGlobalEgressRules_eq c obj.Status snatIP tr hs,
        releaseEvents_of_target c _ snatIP hs]
      cases c.poolRelease (tr ++ removeEvents c snatIP c.localSubnets) obj.Status.AllocatedIPs <;>
        simp
  · intro hcur
    rw [hcur, releaseEvents_nil]
  · intro hcur
    obtain ⟨snatIP, hs⟩ := getTargetSNATIPaddress_isSome _ hcur
    exact ⟨snatIP, hs, by rw [releaseEvents_of_target c _ snatIP hs]; rfl⟩

theorem process_delete_witness :
    process demoController (demoObject (some 2) ["169.254.0.0", "169.254.0.1"]) 0
        Operation.Delete []
      = some ([] ++ releaseEvents demoController
                (demoObject (some 2) ["169.254.0.0", "169.254.0.1"]).Status.AllocatedIPs,
          { obj := demoObject (some 2) ["169.254.0.0", "169.254.0.1"], ret := none,
            requeue := false }) ∧
    releaseEvents demoController ["169.254.0.0", "169.254.0.1"]
      = [Event.RemoveClusterEgressRules "10.0.0.0/16" "169.254.0.0-169.254.0.1"
            "0xC0000/0xC0000",
         Event.RemoveClusterEgressRules "10.1.0.0/16" "169.254.0.0-169.254.0.1"
            "0xC0000/0xC0000",
         Event.Release ["169.254.0.0", "169.254.0.1"]] :=
  ⟨(process_delete demoController (demoObject (some 2) ["169.254.0.0", "169.254.0.1"]) 0 []).1,
    by decide⟩

/-! ## The unguarded index -/

theorem getTargetSNATIPaddress_eq_none_iff (allocIPs : List String) :
    getTargetSNATIPaddress allocIPs = none ↔ allocIPs = [] := by
  constructor
  · intro h
    by_contra hne
    obtain ⟨snatIP, hs⟩ := getTargetSNATIPaddress_isSome allocIPs hne
    rw [hs] at h
    exact Option.noConfusion h
  · intro h
    rw [h, getTargetSNATIPaddress_nil]

theorem validate_true_nonneg (c : clusterGlobalEgressIPController) (n : Int)
    (obj : ClusterGlobalEgressIP) (tr : List Event) (h : (validate c n obj tr).2.2 = true) :
    0 ≤ n := by
  unfold validate at h
  by_cases hname : obj.Name ≠ c.ClusterGlobalEgressIPName
  · simp [hname] at h
  · by_cases hneg : n < 0
    · simp [hname, hneg] at h
    · omega

theorem onRemove_isSome (c : clusterGlobalEgressIPController) (obj : ClusterGlobalEgressIP)
    (tr : List Event) : ∃ out, onRemove c obj tr = some out := by
  by_cases hcur : obj.Status.AllocatedIPs = []
  · exact ⟨(tr, false), by simp [onRemove, hcur]⟩
  · obtain ⟨snatIP, hs⟩ := getTargetSNATIPaddress_isSome _ hcur
    have hlen : obj.Status.AllocatedIPs.length > 0 := List.length_pos.mpr hcur
    simp only [onRemove, if_pos hlen, flushClusterGlobalEgressRules_eq c obj.Status snatIP tr hs]
    cases c.poolRelease (tr ++ removeEvents c snatIP c.localSubnets) obj.Status.AllocatedIPs <;>
      exact ⟨_, rfl⟩

theorem onCreateOrUpdate_isSome (c : clusterGlobalEgressIPController) (key : String) (n : Int)
    (status : GlobalEgressIPStatus) (tr : List Event) (hn : 0 ≤ n)
    (hpool : ∀ tr1 m L, 0 < m → c.poolAllocate tr1 m = Except.ok L → L ≠ []) :
    ∃ out, onCreateOrUpdate c key n status tr = some out := by
  by_cases heq : n = (status.AllocatedIPs.length : Int)
  · exact ⟨(tr, status, false), by unfold onCreateOrUpdate; rw [if_pos heq]⟩
  · rw [onCreateOrUpdate_of_ne c key n status tr heq]
    by_cases hn0 : n = 0
    · subst hn0
      exact ⟨_, allocateGlobalIPs_zero c key status _⟩
    · have hpos : 0 < n := by omega
      rcases allocateGlobalIPs_cases c key n status
          (tr ++ releaseEvents c status.AllocatedIPs) hn0 with h | h | h | h
      · obtain ⟨err, _, hres⟩ := h
        exact ⟨_, hres⟩
      · exact absurd rfl (hpool _ n [] hpos h.1)
      · obtain ⟨L, snatIP, _, _, hres⟩ := h
        exact ⟨_, hres⟩
      · obtain ⟨L, snatIP, i, failed, err, _, _, _, _, hres⟩ := h
        exact ⟨_, hres⟩

/-- C22: when a successful `pool.Allocate(n)` with `n > 0` returns a non-empty
list, `process` returns for every operation, status and `numberOfIPs`: it
never ends in the index panic of `getTargetSNATIPaddress`, which is what that
function does on the empty list and on no other list. -/
theorem process_never_indexes_empty_list (c : clusterGlobalEgressIPController)
    (obj : ClusterGlobalEgressIP) (numRequeues : Int) (op : Operation) (tr : List Event)
    (hpool : ∀ tr1 m L, 0 < m → c.poolAllocate tr1 m = Except.ok L → L ≠ []) :
    (∃ out, process c obj numRequeues op tr = some out) ∧
    (∀ allocIPs, getTargetSNATIPaddress allocIPs = none ↔ allocIPs = []) := by
  refine ⟨?_, getTargetSNATIPaddress_eq_none_iff⟩
  have hcu : ∃ out,
      (match validate c (match obj.NumberOfIPs with | some n => n | none => 1) obj tr with
        | (tr1, status1, false) =>
          some (tr1, ({ obj := { obj with Status := status1 },
                        ret := c.checkStatusChanged obj.Status status1
                          { obj with Status := status1 },
                        requeue := false } : ProcessResult))
        | (tr1, status1, true) =>
          match onCreateOrUpdate c obj.Name
              (match obj.NumberOfIPs with | some n => n | none => 1) status1 tr1 with
          | none => none
          | some (tr2, status2, requeue) =>
            some (tr2, ({ obj := { obj with Status := status2 },
                          ret := c.checkStatusChanged obj.Status status2
                            { obj with Status := status2 },
                          requeue := requeue } : ProcessResult))) = some out := by
    have hnn := validate_true_nonneg c (match obj.NumberOfIPs with | some n => n | none => 1)
      obj tr
    rcases hv : validate c (match obj.NumberOfIPs with | some n => n | none => 1) obj tr
      with ⟨tr1, status1, b⟩
    rw [hv] at hnn
    cases b with
    | false => exact ⟨_, rfl⟩
    | true =>
      obtain ⟨⟨tr2, status2, requeue⟩, hout⟩ := onCreateOrUpdate_isSome c obj.Name
        (match obj.NumberOfIPs with | some n => n | none => 1) status1 tr1 (hnn rfl) hpool
      simp only [hout]
      exact ⟨_, rfl⟩
  cases op with
  | Create => simpa [process] using hcu
  | Update => simpa [process] using hcu
  | Delete =>
    obtain ⟨⟨tr1, requeue⟩, hout⟩ := onRemove_isSome c obj tr
    exact ⟨(tr1, { obj := obj, ret := none, requeue := requeue }), by simp [process, hout]⟩
  | Other =>
    exact ⟨(tr, { obj := obj, ret := none, requeue := false }), by simp [process]⟩

theorem process_never_indexes_empty_list_witness :
    (∃ out, process demoController (demoObject (some 1) ["169.254.0.0", "169.254.0.1"]) 0
        Operation.Update [] = some out) ∧
    (∀ allocIPs, getTargetSNATIPaddress allocIPs = none ↔ allocIPs = []) :=
  process_never_indexes_empty_list demoController
    (demoObject (some 1) ["169.254.0.0", "169.254.0.1"]) 0 Operation.Update []
    (fun _ m L hpos h => by
      by_cases h2 : m ≤ 2
      · have hm : m = 1 ∨ m = 2 := by omega
        rcases hm with hm | hm
        · subst hm
          have h1 : L = ["169.254.0.0"] := (Except.ok.inj h).symm
          rw [h1]; decide
        · subst hm
          have h1 : L = ["169.254.0.0", "169.254.0.1"] := (Except.ok.inj h).symm
          rw [h1]; decide
      · have hf : demoController.poolAllocate [] m = Except.error "insufficient IPs available" := by
          simp [demoController, h2]
        have h3 : (Except.ok L : Except String (List String))
            = Except.error "insufficient IPs available" := by
          rw [← h, ← hf]; rfl
        exact Except.noConfusion h3)

end Globalnet

namespace RouteAgent

/-! ## Lists of strings -/

theorem containsString_eq (c : List String) (s : String) :
    containsString c s = decide (s ∈ c) := by
  induction c with
  | nil => simp [containsString]
  | cons v c ih =>
    by_cases h : v = s
    · simp [containsString, h]
    · have h2 : ¬ s = v := fun e => h e.symm
      simp [containsString, h, h2, ih]

theorem firstOccurrences_filter (p : String → Bool) (l : List String) :
    firstOccurrences (l.filter p) = (firstOccurrences l).filter p := by
  induction l with
  | nil => rfl
  | cons y ys ih =>
    by_cases hp : p y = true
    · simp only [List.filter_cons, hp, if_true, firstOccurrences, ih, List.filter_filter]
      congr 1
      apply List.filter_congr
      intro x _
      exact Bool.and_comm _ _
    · simp only [List.filter_cons, hp, firstOccurrences, List.filter_filter]
      simp only [Bool.false_eq_true, if_false]
      rw [ih]
      apply List.filter_congr
      intro x _
      by_cases hx : p x = true
      · have hxy : x ≠ y := fun e => hp (e ▸ hx)
        simp [hx, hxy]
      · simp [hx]

theorem mem_firstOccurrences (l : List String) (x : String) :
    x ∈ firstOccurrences l ↔ x ∈ l := by
  induction l with
  | nil => simp [firstOccurrences]
  | cons y ys ih =>
    by_cases h : x = y
    · simp [firstOccurrences, h]
    · simp [firstOccurrences, h, ih]

theorem nodup_firstOccurrences (l : List String) : (firstOccurrences l).Nodup := by
  induction l with
  | nil => simp [firstOccurrences]
  | cons y ys ih =>
    simp only [firstOccurrences, List.nodup_cons]
    exact ⟨by simp, ih.filter _⟩

theorem mem_newEntries (old input : List String) (x : String) :
    x ∈ newEntries old input ↔ x ∈ input ∧ x ∉ old := by
  simp [newEntries, mem_firstOccurrences]

theorem newEntries_cons_old (old rest : List String) (x : String) (h : x ∈ old) :
    newEntries old (x :: rest) = newEntries old rest := by
  simp [newEntries, h]

theorem newEntries_cons_new (old rest : List String) (x : String) (h : x ∉ old) :
    newEntries old (x :: rest) = x :: newEntries (old ++ [x]) rest := by
  have e : (rest.filter fun y => decide (y ∉ old ++ [x]))
      = (rest.filter fun y => decide (y ∉ old)).filter fun y => decide (y ≠ x) := by
    rw [List.filter_filter]
    apply List.filter_congr
    intro y _
    simp [not_or, and_comm]
  simp only [newEntries, List.filter_cons, h, not_false_eq_true, decide_True, if_true,
    firstOccurrences]
  rw [e]
  simp only [firstOccurrences_filter]

/-- The loop appends the new entries and programs the rules of each. -/
theorem updateIptableRules_eq (input : List String) (r : Controller) (tr : List Event) :
    updateIptableRulesForInterclusterTraffic input r tr
      = ({ r with remoteSubnets := r.remoteSubnets ++ newEntries r.remoteSubnets input },
          tr ++ (newEntries r.remoteSubnets input).map
            Event.programIptableRulesForInterClusterTraffic) := by
  induction input generalizing r tr with
  | nil => simp [updateIptableRulesForInterclusterTraffic, newEntries, firstOccurrences]
  | cons x rest ih =>
    by_cases h : x ∈ r.remoteSubnets
    · simp only [updateIptableRulesForInterclusterTraffic, containsString_eq, h, decide_True,
        Bool.not_true, Bool.false_eq_true, if_false, ih, newEntries_cons_old _ _ _ h]
    · simp only [updateIptableRulesForInterclusterTraffic, containsString_eq, h, decide_False,
        Bool.not_false, if_true, ih, newEntries_cons_new _ _ _ h]
      simp

/-! ## Addresses -/

set_option maxRecDepth 1000000 in
theorem parseOctet_toString : ∀ n, n < 256 → parseOctet (toString n).toList = some n := by
  decide

set_option maxRecDepth 1000000 in
theorem dot_not_mem_toString : ∀ n, n < 256 → '.' ∉ (toString n).toList := by
  decide

theorem ipString_toList (a b c d : Nat) :
    (ipString (IP.v4 a b c d)).toList
      = ['.'].intercalate [(toString a).toList, (toString b).toList, (toString c).toList,
          (toString d).toList] := by
  simp [ipString, List.intercalate, List.intersperse]

theorem splitOn_ipString (a b c d : Nat) (ha : a < 256) (hb : b < 256) (hc : c < 256)
    (hd : d < 256) :
    (ipString (IP.v4 a b c d)).toList.splitOn '.'
      = [(toString a).toList, (toString b).toList, (toString c).toList, (toString d).toList] := by
  rw [ipString_toList]
  apply List.splitOn_intercalate
  · intro l hl
    simp only [List.mem_cons, List.mem_singleton, List.not_mem_nil, or_false] at hl
    rcases hl with h | h | h | h <;> subst h
    · exact dot_not_mem_toString a ha
    · exact dot_not_mem_toString b hb
    · exact dot_not_mem_toString c hc
    · exact dot_not_mem_toString d hd
  · simp

/-- The text of an IPv4 address parses back to the address. -/
theorem ParseIP_ipString (a b c d : Nat) (ha : a < 256) (hb : b < 256) (hc : c < 256)
    (hd : d < 256) : ParseIP (ipString (IP.v4 a b c d)) = IP.v4 a b c d := by
  simp only [ParseIP, parseIPv4, splitOn_ipString a b c d ha hb hc hd,
    parseOctet_toString _ ha, parseOctet_toString _ hb, parseOctet_toString _ hc,
    parseOctet_toString _ hd]

/-- The derivation on an IPv4 address: the first octet becomes 240. -/
theorem replaceFirstOctet_v4 (a b c d : Nat) (ha : a < 256) (hb : b < 256) (hc : c < 256)
    (hd : d < 256) : replaceFirstOctet (IP.v4 a b c d) = IP.v4 240 b c d := by
  have h := ParseIP_ipString 240 b c d (by decide) hb hc hd
  simp only [replaceFirstOctet, stringsSplit, splitOn_ipString a b c d ha hb hc hd]
  rw [← h]
  congr 1
  have e240 : toString 240 = "240" := by decide
  apply String.ext
  simp [stringsJoin, VXLAN_VTEP_NETWORK_PREFIX, ipString, List.intercalate, List.intersperse,
    e240]

/-! ## Remote subnets -/

/-- C14: `updateIptableRulesForInterclusterTraffic` leaves `remoteSubnets` equal
to the old list followed by the distinct new entries of the input in
first-occurrence order (`newEntries`: the entries of the input that are not in
the old list), which is duplicate-free when the old list is; the rule is
programmed once for each new entry, in that order, and for no other entry; a
cluster event for the local cluster ID changes neither the controller nor the
rules, and one for another cluster merges its cluster and service CIDRs. -/
theorem updateIptableRules_merges_new_subnets (input : List String) (r : Controller)
    (tr : List Event) (hnd : r.remoteSubnets.Nodup) :
    (updateIptableRulesForInterclusterTraffic input r tr).1
      = { r with remoteSubnets := r.remoteSubnets ++ newEntries r.remoteSubnets input } ∧
    (updateIptableRulesForInterclusterTraffic input r tr).2
      = tr ++ (newEntries r.remoteSubnets input).map
          Event.programIptableRulesForInterClusterTraffic ∧
    (r.remoteSubnets ++ newEntries r.remoteSubnets input).Nodup ∧
    (∀ x, x ∈ newEntries r.remoteSubnets input ↔ x ∈ input ∧ x ∉ r.remoteSubnets) ∧
    (∀ (env : Env) (tr0 : List Event) (key ns name : String) (cluster : Cluster),
      env.clusterQueueGet tr0 = (key, false) →
      env.SplitMetaNamespaceKey key = Except.ok (ns, name) →
      env.GetCluster (tr0 ++ [Event.Get Queue.Clusters]) ns name = Except.ok cluster →
      (cluster.ClusterID = r.clusterID →
        processNextCluster env r tr0
          = Result.ok true r
              (tr0 ++ [Event.Get Queue.Clusters, Event.GetCluster ns name,
                Event.Done Queue.Clusters (Item.key key)])) ∧
      (cluster.ClusterID ≠ r.clusterID →
        processNextCluster env r tr0
          = Result.ok true
              { r with remoteSubnets := r.remoteSubnets
                  ++ newEntries r.remoteSubnets (cluster.ClusterCIDR ++ cluster.ServiceCIDR) }
              (tr0 ++ [Event.Get Queue.Clusters, Event.GetCluster ns name]
                ++ (newEntries r.remoteSubnets (cluster.ClusterCIDR ++ cluster.ServiceCIDR)).map
                    Event.programIptableRulesForInterClusterTraffic
                ++ [Event.Forget Queue.Clusters (Item.key key),
                    Event.Done Queue.Clusters (Item.key key)]))) := by
  refine ⟨by rw [updateIptableRules_eq], by rw [updateIptableRules_eq], ?_,
    mem_newEntries _ _, ?_⟩
  · refine List.Nodup.append hnd (nodup_firstOccurrences _) ?_
    intro x hx hnew
    exact ((mem_newEntries _ _ x).mp hnew).2 hx
  · intro env tr0 key ns name cluster hget hsplit hcl
    constructor
    · intro hid
      simp [processNextCluster, hget, hsplit, hcl, hid]
    · intro hid
      simp [processNextCluster, hget, hsplit, hcl, hid, updateIptableRules_eq]

theorem updateIptableRules_merges_new_subnets_witness :
    (updateIptableRulesForInterclusterTraffic
        ["10.1.0.0/16", "10.2.0.0/16", "10.1.0.0/16", "100.1.0.0/16"]
        { demoRouteAgent with remoteSubnets := ["10.2.0.0/16"] } []).1
      = { demoRouteAgent with
          remoteSubnets := ["10.2.0.0/16"] ++ newEntries ["10.2.0.0/16"]
            ["10.1.0.0/16", "10.2.0.0/16", "10.1.0.0/16", "100.1.0.0/16"] } ∧
    newEntries ["10.2.0.0/16"] ["10.1.0.0/16", "10.2.0.0/16", "10.1.0.0/16", "100.1.0.0/16"]
      = ["10.1.0.0/16", "100.1.0.0/16"] :=
  ⟨(updateIptableRules_merges_new_subnets
      ["10.1.0.0/16", "10.2.0.0/16", "10.1.0.0/16", "100.1.0.0/16"]
      { demoRouteAgent with remoteSubnets := ["10.2.0.0/16"] } [] (by decide)).1,
    by decide⟩

/-! ## Remote VTEPs -/

/-- C15: a pod event handled by `processNextPod` leaves `remoteVTEPs` as it was
when it already held the pod's podIP and appends the podIP otherwise, so the
podIP is in the list, the old list is a prefix of the new one, and a
duplicate-free list stays duplicate-free with the podIP in it once;
`AddFDB(podIP, 00:00:00:00:00:00)` is called if and only if `isGatewayNode`
is true; the item is forgotten and done. -/
theorem processNextPod_adds_vtep (env : Env) (r : Controller) (tr : List Event) (pod : Pod)
    (hget : env.podQueueGet tr = (pod, false)) :
    ∃ (r1 : Controller) (evs : List Event),
      processNextPod env r tr = Result.ok true r1 (tr ++ evs) ∧
      r1 = { r with remoteVTEPs :=
              if pod.PodIP ∈ r.remoteVTEPs then r.remoteVTEPs
              else r.remoteVTEPs ++ [pod.PodIP] } ∧
      pod.PodIP ∈ r1.remoteVTEPs ∧
      r.remoteVTEPs <+: r1.remoteVTEPs ∧
      (r.remoteVTEPs.Nodup → r1.remoteVTEPs.Nodup ∧ r1.remoteVTEPs.count pod.PodIP = 1) ∧
      evs = [Event.Get Queue.Pods]
          ++ (if r.isGatewayNode then [Event.AddFDB (ParseIP pod.PodIP) "00:00:00:00:00:00"]
              else [])
          ++ [Event.Forget Queue.Pods (Item.pod pod), Event.Done Queue.Pods (Item.pod pod)] ∧
      (Event.AddFDB (ParseIP pod.PodIP) "00:00:00:00:00:00" ∈ evs ↔ r.isGatewayNode = true) := by
  have hr1 : populateRemoteVtepIps r pod.PodIP
      = { r with remoteVTEPs :=
            if pod.PodIP ∈ r.remoteVTEPs then r.remoteVTEPs
            else r.remoteVTEPs ++ [pod.PodIP] } := by
    by_cases h : pod.PodIP ∈ r.remoteVTEPs <;>
      simp [populateRemoteVtepIps, containsString_eq, h]
  refine ⟨_, _, ?_, hr1, ?_, ?_, ?_, rfl, ?_⟩
  · simp only [processNextPod, hget, hr1]
    cases r.isGatewayNode <;> simp
  · rw [hr1]
    by_cases h : pod.PodIP ∈ r.remoteVTEPs <;> simp [h]
  · rw [hr1]
    by_cases h : pod.PodIP ∈ r.remoteVTEPs <;> simp [h]
  · intro hnd
    rw [hr1]
    by_cases h : pod.PodIP ∈ r.remoteVTEPs
    · simp only [h, if_true]
      exact ⟨hnd, List.count_eq_one_of_mem hnd h⟩
    · simp only [h, if_false]
      refine ⟨List.Nodup.append hnd (by simp) (by simpa using h), ?_⟩
      simp [List.count_append, List.count_eq_zero_of_not_mem h]
  · cases r.isGatewayNode <;> simp

theorem processNextPod_adds_vtep_witness :
    processNextPod (demoEnv eastCluster eastEndpoint { HostIP := "10.1.2.3", PodIP := "10.1.2.3" })
        { demoRouteAgent with isGatewayNode := true } []
      = Result.ok true
          { demoRouteAgent with isGatewayNode := true, remoteVTEPs := ["10.1.2.3"] }
          [Event.Get Queue.Pods, Event.AddFDB (IP.v4 10 1 2 3) "00:00:00:00:00:00",
            Event.Forget Queue.Pods (Item.pod { HostIP := "10.1.2.3", PodIP := "10.1.2.3" }),
            Event.Done Queue.Pods (Item.pod { HostIP := "10.1.2.3", PodIP := "10.1.2.3" })] := by
  obtain ⟨r1, evs, hres, hr1, _, _, _, hevs, _⟩ :=
    processNextPod_adds_vtep
      (demoEnv eastCluster eastEndpoint { HostIP := "10.1.2.3", PodIP := "10.1.2.3" })
      { demoRouteAgent with isGatewayNode := true } []
      { HostIP := "10.1.2.3", PodIP := "10.1.2.3" } rfl
  rw [hres, hr1, hevs]
  rfl

/-- C16, the code at the failing input: on a gateway with no remote VTEP a pod
with host address 192.168.1.5 and pod address 10.1.2.3 is added, which puts
10.1.2.3 into `remoteVTEPs`; the delete event for the same pod looks for the
host address, finds nothing, and leaves `remoteVTEPs` at [10.1.2.3] without a
`DelFDB` call. -/
theorem handleRemovedPod_looks_for_hostIP :
    processNextPod (demoEnv eastCluster eastEndpoint demoPod)
        { demoRouteAgent with isGatewayNode := true } []
      = Result.ok true
          { demoRouteAgent with isGatewayNode := true, remoteVTEPs := ["10.1.2.3"] }
          [Event.Get Queue.Pods, Event.AddFDB (IP.v4 10 1 2 3) "00:00:00:00:00:00",
            Event.Forget Queue.Pods (Item.pod demoPod),
            Event.Done Queue.Pods (Item.pod demoPod)] ∧
    handleRemovedPod
        { demoRouteAgent with isGatewayNode := true, remoteVTEPs := ["10.1.2.3"] } demoPod []
      = ({ demoRouteAgent with isGatewayNode := true, remoteVTEPs := ["10.1.2.3"] }, []) ∧
    (handleRemovedPod
        { demoRouteAgent with isGatewayNode := true, remoteVTEPs := ["10.1.2.3"] } demoPod
        []).1.remoteVTEPs ≠ demoRouteAgent.remoteVTEPs := by
  refine ⟨rfl, rfl, ?_⟩
  decide

/-! ## The VTEP derivation -/

theorem configureVtep_vxlanGw (env : Env) (r : Controller) (vtepIP : IP)
    (vtepMask : Option IPNet) (tr : List Event) :
    (configureVtep env r vtepIP vtepMask tr).controller.vxlanGw = r.vxlanGw := by
  unfold configureVtep
  cases vtepMask with
  | none => rfl
  | some ipNetwork =>
    simp only
    cases env.configureIPAddress tr vtepIP ipNetwork.Mask <;> rfl

theorem createVxLANInterface_vxlanGw (env : Env) (r : Controller) (isGatewayDevice : Bool)
    (tr : List Event) :
    (createVxLANInterface env r isGatewayDevice tr).controller.vxlanGw = r.vxlanGw := by
  unfold createVxLANInterface
  rcases hv : getVxlanVtepIPAddress env tr with ⟨tr1, res⟩
  cases res with
  | error e => rfl
  | ok v =>
    obtain ⟨vtepIP, vtepMask⟩ := v
    simp only
    cases isGatewayDevice with
    | true =>
      simp only [if_true]
      cases env.newVxlanIface tr1 gatewayAttributes with
      | some e => rfl
      | none =>
        simp only
        rcases hl : addFDBLoop env r.remoteVTEPs (tr1 ++ [Event.newVxlanIface gatewayAttributes])
          with ⟨tr2, b⟩
        cases b with
        | false => rfl
        | true => simp only; rw [configureVtep_vxlanGw]
    | false =>
      simp only [Bool.false_eq_true, if_false]
      split
      · rfl
      · rw [configureVtep_vxlanGw]

/-- Whatever happens after the addresses are set, `processNextEndpoint` leaves
`vxlanGw` at the derivation applied to the endpoint's private IP. -/
theorem processNextEndpoint_vxlanGw (env : Env) (r : Controller) (tr : List Event)
    (key ns name hostname : String) (endpoint : Endpoint)
    (hget : env.endpointQueueGet tr = (key, false))
    (hsplit : env.SplitMetaNamespaceKey key = Except.ok (ns, name))
    (hep : env.GetEndpoint (tr ++ [Event.Get Queue.Endpoints]) ns name = Except.ok endpoint)
    (hid : endpoint.ClusterID = r.clusterID)
    (hhost : env.Hostname (tr ++ [Event.Get Queue.Endpoints, Event.GetEndpoint ns name])
      = Except.ok hostname) :
    (processNextEndpoint env r tr).controller.vxlanGw
      = replaceFirstOctet (ParseIP endpoint.PrivateIP) := by
  simp only [processNextEndpoint, hget, hsplit, hep, hid, ne_eq, not_true_eq_false, if_false,
    List.append_assoc, List.singleton_append, hhost]
  by_cases hh : endpoint.Hostname = hostname
  · simp only [hh, if_true]
    have h := createVxLANInterface_vxlanGw env
      { r with gatewayNodeIP := ParseIP endpoint.PrivateIP,
               vxlanGw := replaceFirstOctet (ParseIP endpoint.PrivateIP),
               isGatewayNode := true } true
    generalize hres : createVxLANInterface env _ true _ = res
    have h2 : res.controller.vxlanGw = replaceFirstOctet (ParseIP endpoint.PrivateIP) := by
      rw [← hres]
      exact h _
    cases res with
    | ok v r4 tr5 => cases v <;> exact h2
    | fatal r4 tr5 => exact h2
    | panic r4 tr5 => exact h2
  · simp only [hh, if_false]
    have h := createVxLANInterface_vxlanGw env
      { r with gatewayNodeIP := ParseIP endpoint.PrivateIP,
               vxlanGw := replaceFirstOctet (ParseIP endpoint.PrivateIP),
               isGatewayNode := false } false
    generalize hres : createVxLANInterface env _ false _ = res
    have h2 : res.controller.vxlanGw = replaceFirstOctet (ParseIP endpoint.PrivateIP) := by
      rw [← hres]
      exact h _
    cases res with
    | ok v r4 tr5 =>
      cases v with
      | some e => exact h2
      | none =>
        simp only
        split <;> exact h2
    | fatal r4 tr5 => exact h2
    | panic r4 tr5 => exact h2

/-- C17: for an IPv4 address a.b.c.d the derivation returns 240.b.c.d, both in
`getVxlanVtepIPAddress`, which hands back the network of the host address (and
with it the original mask) unchanged, and in `processNextEndpoint`, which
stores the derivation of the endpoint's private IP in `vxlanGw`. -/
theorem vtep_replaces_first_octet (a b c d : Nat) (ha : a < 256) (hb : b < 256)
    (hc : c < 256) (hd : d < 256) :
    replaceFirstOctet (IP.v4 a b c d) = IP.v4 240 b c d ∧
    (∀ (env : Env) (tr : List Event) (addrs : List String) (err : Option String)
        (ipNetwork : IPNet),
      env.linkAddrs tr = (addrs, err) →
      firstIPv4 addrs = some (IP.v4 a b c d, ipNetwork) →
      getVxlanVtepIPAddress env tr
        = (tr ++ [Event.linkAddrs], Except.ok (IP.v4 240 b c d, some ipNetwork))) ∧
    (∀ (env : Env) (r : Controller) (tr : List Event) (key ns name hostname : String)
        (endpoint : Endpoint),
      env.endpointQueueGet tr = (key, false) →
      env.SplitMetaNamespaceKey key = Except.ok (ns, name) →
      env.GetEndpoint (tr ++ [Event.Get Queue.Endpoints]) ns name = Except.ok endpoint →
      endpoint.ClusterID = r.clusterID →
      env.Hostname (tr ++ [Event.Get Queue.Endpoints, Event.GetEndpoint ns name])
        = Except.ok hostname →
      ParseIP endpoint.PrivateIP = IP.v4 a b c d →
      (processNextEndpoint env r tr).controller.vxlanGw = IP.v4 240 b c d) := by
  refine ⟨replaceFirstOctet_v4 a b c d ha hb hc hd, ?_, ?_⟩
  · intro env tr addrs err ipNetwork haddrs hfirst
    simp [getVxlanVtepIPAddress, getHostIfaceIPAddress, haddrs, hfirst,
      replaceFirstOctet_v4 a b c d ha hb hc hd]
  · intro env r tr key ns name hostname endpoint hget hsplit hep hid hhost hip
    rw [processNextEndpoint_vxlanGw env r tr key ns name hostname endpoint hget hsplit hep hid
      hhost, hip, replaceFirstOctet_v4 a b c d ha hb hc hd]

theorem vtep_replaces_first_octet_witness :
    replaceFirstOctet (IP.v4 192 168 1 7) = IP.v4 240 168 1 7 ∧
    getVxlanVtepIPAddress (demoEnv eastCluster eastEndpoint demoPod) []
      = ([] ++ [Event.linkAddrs],
          Except.ok (IP.v4 240 168 1 7, some { IP := IP.v4 192 168 1 0, Mask := 24 })) ∧
    (processNextEndpoint (demoEnv eastCluster eastEndpoint demoPod) demoRouteAgent
      []).controller.vxlanGw = IP.v4 240 168 1 7 :=
  have h := vtep_replaces_first_octet 192 168 1 7 (by decide) (by decide) (by decide)
    (by decide)
  ⟨h.1,
    h.2.1 (demoEnv eastCluster eastEndpoint demoPod) [] ["fe80::1/64", "192.168.1.7/24"] none
      { IP := IP.v4 192 168 1 0, Mask := 24 } rfl (by decide),
    h.2.2 (demoEnv eastCluster eastEndpoint demoPod) demoRouteAgent [] "submariner/endpoint"
      "submariner" "endpoint" "node-a" eastEndpoint rfl rfl rfl rfl rfl (by decide)⟩

/-- C18, counterexample: the node addresses 10.1.2.3 and 192.1.2.3 differ and
have the same derived VTEP address 240.1.2.3. -/
theorem vtep_derivation_collides :
    replaceFirstOctet (IP.v4 10 1 2 3) = IP.v4 240 1 2 3 ∧
    replaceFirstOctet (IP.v4 192 1 2 3) = IP.v4 240 1 2 3 ∧
    IP.v4 10 1 2 3 ≠ IP.v4 192 1 2 3 := by
  decide

/-- C18, amended: two node IPv4 addresses have the same derived VTEP address
exactly when their last three octets agree; hence for two node addresses with
the same first octet, equal derived VTEP addresses mean equal node addresses. -/
theorem vtep_injective_for_same_first_octet (a b c d a2 b2 c2 d2 : Nat)
    (ha : a < 256) (hb : b < 256) (hc : c < 256) (hd : d < 256)
    (ha2 : a2 < 256) (hb2 : b2 < 256) (hc2 : c2 < 256) (hd2 : d2 < 256) :
    (replaceFirstOctet (IP.v4 a b c d) = replaceFirstOctet (IP.v4 a2 b2 c2 d2)
      ↔ b = b2 ∧ c = c2 ∧ d = d2) ∧
    (a = a2 → replaceFirstOctet (IP.v4 a b c d) = replaceFirstOctet (IP.v4 a2 b2 c2 d2) →
      IP.v4 a b c d = IP.v4 a2 b2 c2 d2) := by
  rw [replaceFirstOctet_v4 a b c d ha hb hc hd, replaceFirstOctet_v4 a2 b2 c2 d2 ha2 hb2 hc2 hd2]
  constructor
  · simp
  · intro h1 h2
    simp only [IP.v4.injEq, true_and] at h2
    rw [h1, h2.1, h2.2.1, h2.2.2]

theorem vtep_injective_for_same_first_octet_witness :
    (replaceFirstOctet (IP.v4 10 1 2 3) = replaceFirstOctet (IP.v4 10 1 2 4)
      ↔ 1 = 1 ∧ 2 = 2 ∧ 3 = 4) ∧
    (10 = 10 → replaceFirstOctet (IP.v4 10 1 2 3) = replaceFirstOctet (IP.v4 10 1 2 4) →
      IP.v4 10 1 2 3 = IP.v4 10 1 2 4) :=
  vtep_injective_for_same_first_octet 10 1 2 3 10 1 2 4 (by decide) (by decide) (by decide)
    (by decide) (by decide) (by decide) (by decide) (by decide)

/-! ## The work queues -/

/-- C19, the code at failing inputs: a cluster event for the local cluster
ends with `Done` alone, neither `Forget` nor `AddRateLimited`; a cluster event
whose object cannot be fetched ends in an error that is handed to
`HandleError` without `AddRateLimited`; an endpoint event that makes this node
the gateway returns without `Forget`. -/
theorem handlers_return_without_forget_or_requeue :
    processNextCluster (demoEnv eastCluster eastEndpoint demoPod) demoRouteAgent []
      = Result.ok true demoRouteAgent
          [Event.Get Queue.Clusters, Event.GetCluster "submariner" "cluster",
            Event.Done Queue.Clusters (Item.key "submariner/cluster")] ∧
    processNextCluster
        { demoEnv eastCluster eastEndpoint demoPod with
          GetCluster := fun _ _ _ => Except.error "not found" } demoRouteAgent []
      = Result.ok true demoRouteAgent
          [Event.Get Queue.Clusters, Event.GetCluster "submariner" "cluster",
            Event.Done Queue.Clusters (Item.key "submariner/cluster"),
            Event.HandleError "Error retrieving submariner cluster object cluster: not found"] ∧
    processNextEndpoint (demoEnv eastCluster eastEndpoint demoPod) demoRouteAgent []
      = Result.ok true
          { demoRouteAgent with
            gatewayNodeIP := IP.v4 192 168 1 7, vxlanGw := IP.v4 240 168 1 7,
            isGatewayNode := true, vxlanDevice := some gatewayAttributes }
          [Event.Get Queue.Endpoints, Event.GetEndpoint "submariner" "endpoint", Event.Hostname,
            Event.LinkByName "vxlan100", Event.RouteList { Index := 7, Name := "vxlan100" },
            Event.setIsGatewayNode true, Event.linkAddrs, Event.newVxlanIface gatewayAttributes,
            Event.WriteFile "/proc/sys/net/ipv4/conf/vxlan100/rp_filter" "2",
            Event.configureIPAddress (IP.v4 240 168 1 7) 24,
            Event.Done Queue.Endpoints (Item.key "submariner/endpoint")] :=
  ⟨rfl, rfl, rfl⟩

/-! ## Reconciling routes -/

theorem shouldDelete_iff (r : Controller) (route : Route) :
    shouldDelete r route = true ↔
      ∃ dst, route.Dst = some dst ∧ route.Gw ≠ IP.nil ∧
        ¬ (ipNetString dst ∈ r.remoteSubnets ∧ route.Gw = r.vxlanGw) := by
  unfold shouldDelete
  cases route.Dst with
  | none => simp
  | some dst => simp only [decide_eq_true_eq, Option.some.injEq, exists_eq_left']

/-- The first loop issues `RouteDel` for exactly the listed routes that are to
be deleted, in order. -/
theorem reconcileDeleteLoop_eq (r : Controller) (routes : List Route) (tr : List Event) :
    reconcileDeleteLoop r routes tr
      = tr ++ (routes.filter (shouldDelete r)).map Event.RouteDel := by
  induction routes generalizing tr with
  | nil => simp [reconcileDeleteLoop]
  | cons route rest ih =>
    unfold reconcileDeleteLoop
    cases hd : route.Dst with
    | none => simp [ih, shouldDelete, hd]
    | some dst =>
      by_cases hg : route.Gw = IP.nil
      · simp [ih, shouldDelete, hd, hg]
      · by_cases hk : ipNetString dst ∈ r.remoteSubnets ∧ route.Gw = r.vxlanGw
        · simp [ih, shouldDelete, hd, hg, hk, containsString_eq, ipEqual, hk.1, hk.2]
        · have hc : (containsString r.remoteSubnets (ipNetString dst)
              && ipEqual route.Gw r.vxlanGw) = false := by
            simp only [containsString_eq, ipEqual, Bool.and_eq_false_iff, decide_eq_false_iff_not]
            exact not_and_or.mp hk
          simp [ih, shouldDelete, hd, hg, hk, hc]

/-- The second loop issues `RouteAdd` for exactly `addedRoutes`. -/
theorem reconcileAddLoop_eq (r : Controller) (link : Link) (currentRouteList : List Route)
    (blocks : List String) (tr : List Event) :
    reconcileAddLoop r link currentRouteList blocks tr
      = tr ++ (addedRoutes r link currentRouteList blocks).map Event.RouteAdd := by
  induction blocks generalizing tr with
  | nil => simp [reconcileAddLoop, addedRoutes]
  | cons cidrBlock rest ih =>
    unfold reconcileAddLoop addedRoutes
    cases ParseCIDR cidrBlock with
    | none => simp
    | some p =>
      obtain ⟨ip, dst⟩ := p
      simp only
      cases routeFound currentRouteList (desiredRoute r link dst) <;> simp [ih]

/-- C20: in its deletion pass `reconcileRoutes` issues `RouteDel` for exactly
the listed routes, in order, that have non-nil dst and gw and for which it is
not the case that the text of dst is in `remoteSubnets` and gw equals
`vxlanGw`; no `RouteDel` follows the second listing.  So a route with dst in
`remoteSubnets` and another gw is deleted, a route with dst outside
`remoteSubnets` is deleted, and a route with dst in `remoteSubnets` and gw
equal to `vxlanGw`, or with nil dst or nil gw, is left alone. -/
theorem reconcileRoutes_deletion_pass (env : Env) (r : Controller) (tr : List Event)
    (link : Link) (currentRouteList : List Route)
    (hlink : env.LinkByName tr VXLAN_IFACE = Except.ok link)
    (hlist : env.RouteList (tr ++ [Event.LinkByName VXLAN_IFACE]) link
      = Except.ok currentRouteList) :
    (∃ rest,
      (reconcileRoutes env r tr).1
        = tr ++ [Event.LinkByName VXLAN_IFACE, Event.RouteList link]
            ++ (currentRouteList.filter (shouldDelete r)).map Event.RouteDel
            ++ Event.RouteList link :: rest ∧
      ∀ route, Event.RouteDel route ∉ rest) ∧
    (∀ route, shouldDelete r route = true ↔
      ∃ dst, route.Dst = some dst ∧ route.Gw ≠ IP.nil ∧
        ¬ (ipNetString dst ∈ r.remoteSubnets ∧ route.Gw = r.vxlanGw)) ∧
    (∀ route dst, route.Dst = some dst → route.Gw ≠ IP.nil →
      ipNetString dst ∈ r.remoteSubnets → route.Gw ≠ r.vxlanGw →
      shouldDelete r route = true) ∧
    (∀ route dst, route.Dst = some dst → route.Gw ≠ IP.nil →
      ipNetString dst ∉ r.remoteSubnets → shouldDelete r route = true) ∧
    (∀ route dst, route.Dst = some dst → ipNetString dst ∈ r.remoteSubnets →
      route.Gw = r.vxlanGw → shouldDelete r route = false) ∧
    (∀ route, route.Dst = none ∨ route.Gw = IP.nil → shouldDelete r route = false) := by
  refine ⟨?_, shouldDelete_iff r, ?_, ?_, ?_, ?_⟩
  · simp only [reconcileRoutes, hlink, hlist, reconcileDeleteLoop_eq]
    cases env.RouteList
        (tr ++ [Event.LinkByName VXLAN_IFACE] ++ [Event.RouteList link]
          ++ (currentRouteList.filter (shouldDelete r)).map Event.RouteDel) link with
    | error err => exact ⟨[], by simp, by simp⟩
    | ok currentRouteList2 =>
      refine ⟨(addedRoutes r link currentRouteList2 r.remoteSubnets).map Event.RouteAdd, ?_, ?_⟩
      · simp [reconcileAddLoop_eq]
      · simp
  · intro route dst hd hg hin hne
    exact (shouldDelete_iff r route).mpr ⟨dst, hd, hg, fun h => hne h.2⟩
  · intro route dst hd hg hnin
    exact (shouldDelete_iff r route).mpr ⟨dst, hd, hg, fun h => hnin h.1⟩
  · intro route dst hd hin hgw
    simp [shouldDelete, hd, hin, hgw]
  · intro route h
    rcases h with h | h
    · simp [shouldDelete, h]
    · cases hd : route.Dst <;> simp [shouldDelete, hd, h]

theorem reconcileRoutes_deletion_pass_witness :
    (∃ rest,
      (reconcileRoutes
          { demoEnv eastCluster eastEndpoint demoPod with
            RouteList := fun _ _ => Except.ok demoRoutes } demoWorker []).1
        = [] ++ [Event.LinkByName VXLAN_IFACE, Event.RouteList { Index := 7, Name := VXLAN_IFACE }]
            ++ (demoRoutes.filter (shouldDelete demoWorker)).map Event.RouteDel
            ++ Event.RouteList { Index := 7, Name := VXLAN_IFACE } :: rest ∧
      ∀ route, Event.RouteDel route ∉ rest) ∧
    demoRoutes.filter (shouldDelete demoWorker)
      = [routeVia (some { IP := IP.v4 10 1 0 0, Mask := 16 }) (IP.v4 240 168 1 9) 0,
         routeVia (some { IP := IP.v4 10 9 0 0, Mask := 16 }) (IP.v4 240 168 1 7) 0] :=
  ⟨(reconcileRoutes_deletion_pass
      { demoEnv eastCluster eastEndpoint demoPod with
        RouteList := fun _ _ => Except.ok demoRoutes } demoWorker []
      { Index := 7, Name := VXLAN_IFACE } demoRoutes rfl rfl).1,
    by decide⟩

/-! ## The gateway role -/

theorem addFDBLoop_ok (env : Env) (vteps : List String) (tr : List Event)
    (hadd : ∀ j vtep, vteps[j]? = some vtep →
      env.AddFDB (tr ++ fdbEvents (vteps.take j)) (ParseIP vtep) "00:00:00:00:00:00" = none) :
    addFDBLoop env vteps tr = (tr ++ fdbEvents vteps, true) := by
  induction vteps generalizing tr with
  | nil => simp [addFDBLoop, fdbEvents]
  | cons vtep rest ih =>
    have h0 := hadd 0 vtep (by simp)
    simp only [List.take_zero, fdbEvents, List.map_nil, List.append_nil] at h0
    unfold addFDBLoop
    rw [h0]
    simp only
    rw [ih]
    · simp [fdbEvents]
    · intro j s hj
      have := hadd (j + 1) s (by simpa using hj)
      simpa [fdbEvents] using this

/-- C13: an endpoint of the local cluster whose hostname is the local hostname
makes this node the gateway.  When the host has an IPv4 address and the device
calls succeed, `processNextEndpoint` returns with `isGatewayNode = true` and
the device created with the gateway attributes (vxlan100, VNI 100, port 4800,
MTU 1450, no group, no source address); its trace is `cleanRoutes`, then the
setting of the role flag, then the creation of the device, then
`AddFDB(vtep, 00:00:00:00:00:00)` for every element of `remoteVTEPs` in order,
then the `rp_filter` write, the address and `Done`; no link lookup, and so no
`reconcileRoutes`, follows `cleanRoutes`. -/
theorem processNextEndpoint_gateway (env : Env) (r r2 : Controller) (tr tr4 : List Event)
    (key ns name : String) (endpoint : Endpoint) (addrs : List String) (err : Option String)
    (hostIP : IP) (hostNet : IPNet)
    (hget : env.endpointQueueGet tr = (key, false))
    (hsplit : env.SplitMetaNamespaceKey key = Except.ok (ns, name))
    (hep : env.GetEndpoint (tr ++ [Event.Get Queue.Endpoints]) ns name = Except.ok endpoint)
    (hid : endpoint.ClusterID = r.clusterID)
    (hhost : env.Hostname (tr ++ [Event.Get Queue.Endpoints, Event.GetEndpoint ns name])
      = Except.ok endpoint.Hostname)
    (hr2 : r2 = { r with gatewayNodeIP := ParseIP endpoint.PrivateIP,
                         vxlanGw := replaceFirstOctet (ParseIP endpoint.PrivateIP) })
    (htr4 : tr4 = cleanRoutes env r2
      (tr ++ [Event.Get Queue.Endpoints, Event.GetEndpoint ns name, Event.Hostname]))
    (haddrs : env.linkAddrs (tr4 ++ [Event.setIsGatewayNode true]) = (addrs, err))
    (hfirst : firstIPv4 addrs = some (hostIP, hostNet))
    (hnew : env.newVxlanIface (tr4 ++ [Event.setIsGatewayNode true, Event.linkAddrs])
      gatewayAttributes = none)
    (hfdb : ∀ j vtep, r.remoteVTEPs[j]? = some vtep →
      env.AddFDB
        (tr4 ++ [Event.setIsGatewayNode true, Event.linkAddrs,
            Event.newVxlanIface gatewayAttributes]
          ++ fdbEvents (r.remoteVTEPs.take j))
        (ParseIP vtep) "00:00:00:00:00:00" = none)
    (hconf : env.configureIPAddress
        (tr4 ++ [Event.setIsGatewayNode true, Event.linkAddrs,
            Event.newVxlanIface gatewayAttributes]
          ++ fdbEvents r.remoteVTEPs
          ++ [Event.WriteFile "/proc/sys/net/ipv4/conf/vxlan100/rp_filter" "2"])
        (replaceFirstOctet hostIP) hostNet.Mask = none) :
    processNextEndpoint env r tr
      = Result.ok true
          { r2 with isGatewayNode := true, vxlanDevice := some gatewayAttributes }
          (tr4 ++ [Event.setIsGatewayNode true, Event.linkAddrs,
              Event.newVxlanIface gatewayAttributes]
            ++ fdbEvents r.remoteVTEPs
            ++ [Event.WriteFile "/proc/sys/net/ipv4/conf/vxlan100/rp_filter" "2",
                Event.configureIPAddress (replaceFirstOctet hostIP) hostNet.Mask,
                Event.Done Queue.Endpoints (Item.key key)]) ∧
    gatewayAttributes
      = { name := "vxlan100", vxlanId := 100, group := IP.nil, srcAddr := IP.nil,
          vtepPort := 4800, mtu := 1450 } ∧
    (∀ nm, Event.LinkByName nm ∉
      [Event.setIsGatewayNode true, Event.linkAddrs, Event.newVxlanIface gatewayAttributes]
        ++ fdbEvents r.remoteVTEPs
        ++ [Event.WriteFile "/proc/sys/net/ipv4/conf/vxlan100/rp_filter" "2",
            Event.configureIPAddress (replaceFirstOctet hostIP) hostNet.Mask,
            Event.Done Queue.Endpoints (Item.key key)]) := by
  refine ⟨?_, rfl, ?_⟩
  · subst hr2
    have hloop := addFDBLoop_ok env r.remoteVTEPs
      (tr4 ++ [Event.setIsGatewayNode true, Event.linkAddrs,
        Event.newVxlanIface gatewayAttributes]) hfdb
    have hvtep : getVxlanVtepIPAddress env (tr4 ++ [Event.setIsGatewayNode true])
        = (tr4 ++ [Event.setIsGatewayNode true, Event.linkAddrs],
            Except.ok (replaceFirstOctet hostIP, some hostNet)) := by
      simp [getVxlanVtepIPAddress, getHostIfaceIPAddress, haddrs, hfirst]
    have hcreate : createVxLANInterface env
        { r with gatewayNodeIP := ParseIP endpoint.PrivateIP,
                 vxlanGw := replaceFirstOctet (ParseIP endpoint.PrivateIP),
                 isGatewayNode := true } true (tr4 ++ [Event.setIsGatewayNode true])
        = Result.ok none
            { r with gatewayNodeIP := ParseIP endpoint.PrivateIP,
                     vxlanGw := replaceFirstOctet (ParseIP endpoint.PrivateIP),
                     isGatewayNode := true, vxlanDevice := some gatewayAttributes }
            (tr4 ++ [Event.setIsGatewayNode true, Event.linkAddrs,
                Event.newVxlanIface gatewayAttributes]
              ++ fdbEvents r.remoteVTEPs
              ++ [Event.WriteFile "/proc/sys/net/ipv4/conf/vxlan100/rp_filter" "2",
                  Event.configureIPAddress (replaceFirstOctet hostIP) hostNet.Mask]) := by
      have hnew2 : env.newVxlanIface (tr4 ++ [Event.setIsGatewayNode true, Event.linkAddrs])
          { name := VXLAN_IFACE, vxlanId := 100, group := IP.nil, srcAddr := IP.nil,
            vtepPort := 4800, mtu := 1450 } = none := hnew
      have hpath : "/proc/sys/net/ipv4/conf/" ++ VXLAN_IFACE ++ "/rp_filter"
          = "/proc/sys/net/ipv4/conf/vxlan100/rp_filter" := by decide
      simp only [createVxLANInterface, hvtep, if_true, gatewayAttributes, hnew2,
        List.append_assoc, List.cons_append, List.nil_append, hpath]
      simp only [gatewayAttributes, List.append_assoc, List.cons_append, List.nil_append]
        at hloop hconf
      rw [hloop]
      simp only [configureVtep, List.append_assoc, List.cons_append, List.nil_append, hconf]
    simp only [processNextEndpoint, hget, hsplit, hep, hid, ne_eq, not_true_eq_false, if_false,
      List.append_assoc, List.singleton_append, List.cons_append, List.nil_append, hhost,
      if_true]
    simp only [List.append_assoc, List.cons_append, List.nil_append] at htr4 hcreate
    rw [← htr4, hcreate]
    simp
  · intro nm hmem
    simp [fdbEvents] at hmem

theorem processNextEndpoint_gateway_witness :
    processNextEndpoint (demoEnv eastCluster eastEndpoint demoPod)
        { demoRouteAgent with remoteVTEPs := ["10.1.2.3", "10.1.2.4"] } []
      = Result.ok true
          { demoRouteAgent with
            remoteVTEPs := ["10.1.2.3", "10.1.2.4"],
            gatewayNodeIP := IP.v4 192 168 1 7, vxlanGw := IP.v4 240 168 1 7,
            isGatewayNode := true, vxlanDevice := some gatewayAttributes }
          [Event.Get Queue.Endpoints, Event.GetEndpoint "submariner" "endpoint", Event.Hostname,
            Event.LinkByName "vxlan100", Event.RouteList { Index := 7, Name := "vxlan100" },
            Event.setIsGatewayNode true, Event.linkAddrs, Event.newVxlanIface gatewayAttributes,
            Event.AddFDB (IP.v4 10 1 2 3) "00:00:00:00:00:00",
            Event.AddFDB (IP.v4 10 1 2 4) "00:00:00:00:00:00",
            Event.WriteFile "/proc/sys/net/ipv4/conf/vxlan100/rp_filter" "2",
            Event.configureIPAddress (IP.v4 240 168 1 7) 24,
            Event.Done Queue.Endpoints (Item.key "submariner/endpoint")] :=
  (processNextEndpoint_gateway (demoEnv eastCluster eastEndpoint demoPod)
    { demoRouteAgent with remoteVTEPs := ["10.1.2.3", "10.1.2.4"] }
    { demoRouteAgent with remoteVTEPs := ["10.1.2.3", "10.1.2.4"],
                          gatewayNodeIP := IP.v4 192 168 1 7, vxlanGw := IP.v4 240 168 1 7 }
    []
    [Event.Get Queue.Endpoints, Event.GetEndpoint "submariner" "endpoint", Event.Hostname,
      Event.LinkByName "vxlan100", Event.RouteList { Index := 7, Name := "vxlan100" }]
    "submariner/endpoint" "submariner" "endpoint" eastEndpoint
    ["fe80::1/64", "192.168.1.7/24"] none (IP.v4 192 168 1 7)
    { IP := IP.v4 192 168 1 0, Mask := 24 }
    rfl rfl rfl rfl rfl (by decide) (by decide) rfl (by decide) rfl (fun _ _ _ => rfl) rfl).1

/-! ## Reconciling routes over the kernel model -/

theorem routeTable_append (init : List Route) (tr1 tr2 : List Event) :
    routeTable init (tr1 ++ tr2) = tr2.foldl routeTableStep (routeTable init tr1) := by
  simp [routeTable, List.foldl_append]

theorem foldl_routeDel (routes table : List Route) :
    (routes.map Event.RouteDel).foldl routeTableStep table = routes.foldl List.erase table := by
  induction routes generalizing table with
  | nil => rfl
  | cons route rest ih => simp [routeTableStep, ih]

theorem foldl_routeAdd (routes table : List Route) :
    (routes.map Event.RouteAdd).foldl routeTableStep table = table ++ routes := by
  induction routes generalizing table with
  | nil => simp
  | cons route rest ih => simp [routeTableStep, ih]

theorem countP_foldl_erase_le (p : Route → Bool) (routes table : List Route) :
    (routes.foldl List.erase table).countP p ≤ table.countP p := by
  induction routes generalizing table with
  | nil => simp
  | cons route rest ih =>
    simp only [List.foldl_cons]
    exact le_trans (ih _) (List.Sublist.countP_le _ (List.erase_sublist _ _))

theorem mem_foldl_erase (routes table : List Route) (x : Route)
    (h : x ∈ routes.foldl List.erase table) : x ∈ table := by
  induction routes generalizing table with
  | nil => simpa using h
  | cons route rest ih =>
    simp only [List.foldl_cons] at h
    exact List.mem_of_mem_erase (ih _ h)

/-- What `reconcileRoutes` does over the kernel model: it returns no error and
leaves the table with the mismatching routes deleted and the missing routes
appended. -/
theorem reconcileRoutes_kernel (link : Link) (init : List Route) (base : Env)
    (r : Controller) (tr : List Event) :
    (reconcileRoutes (kernelEnv link init base) r tr).2 = none ∧
    routeTable init (reconcileRoutes (kernelEnv link init base) r tr).1
      = ((((routeTable init tr).filter fun route => route.LinkIndex = link.Index).filter
            (shouldDelete r)).foldl List.erase (routeTable init tr))
        ++ addedRoutes r link
            (((((routeTable init tr).filter fun route => route.LinkIndex = link.Index).filter
                (shouldDelete r)).foldl List.erase (routeTable init tr)).filter
              fun route => route.LinkIndex = link.Index)
            r.remoteSubnets := by
  have h1 : routeTable init (tr ++ [Event.LinkByName VXLAN_IFACE]) = routeTable init tr := by
    simp [routeTable_append, routeTableStep]
  have h2 : ∀ routes : List Route,
      routeTable init
        (tr ++ [Event.LinkByName VXLAN_IFACE] ++ [Event.RouteList link]
          ++ routes.map Event.RouteDel)
        = routes.foldl List.erase (routeTable init tr) := by
    intro routes
    rw [routeTable_append, foldl_routeDel, routeTable_append, h1]
    simp [routeTableStep]
  simp only [reconcileRoutes, kernelEnv, reconcileDeleteLoop_eq, reconcileAddLoop_eq, h1, h2,
    true_and]
  rw [routeTable_append, foldl_routeAdd, routeTable_append, h2]
  simp [routeTableStep]

theorem isRouteTo_desiredRoute (r : Controller) (link : Link) (dst : IPNet) (t : String) :
    isRouteTo link r.vxlanGw t (desiredRoute r link dst) = decide (ipNetString dst = t) := by
  simp [isRouteTo, desiredRoute]

/-- A listed route matches the desired one exactly when the table holds a route
on the link through `vxlanGw` with the same dst text. -/
theorem routeFound_iff (r : Controller) (link : Link) (table : List Route) (dst : IPNet)
    (hgw : r.vxlanGw ≠ IP.nil) :
    routeFound (table.filter fun route => route.LinkIndex = link.Index)
        (desiredRoute r link dst) = true
      ↔ 0 < table.countP (isRouteTo link r.vxlanGw (ipNetString dst)) := by
  rw [List.countP_pos_iff]
  simp only [routeFound, List.any_eq_true, List.mem_filter, decide_eq_true_eq]
  constructor
  · rintro ⟨x, ⟨hx, hlink⟩, hpred⟩
    refine ⟨x, hx, ?_⟩
    cases hd : x.Dst with
    | none => simp [hd, desiredRoute] at hpred
    | some curDst =>
      by_cases hnil : x.Gw = IP.nil
      · simp [hd, desiredRoute, hnil] at hpred
      · simp only [hd, desiredRoute, hnil, if_false, ipEqual, Bool.and_eq_true,
          decide_eq_true_eq, beq_iff_eq] at hpred
        simp [isRouteTo, hd, hlink, hpred.1, hpred.2]
  · rintro ⟨x, hx, hpred⟩
    refine ⟨x, ⟨hx, ?_⟩, ?_⟩
    · cases hd : x.Dst with
      | none => simp [isRouteTo, hd] at hpred
      | some curDst =>
        simp only [isRouteTo, hd, decide_eq_true_eq] at hpred
        exact hpred.1
    · cases hd : x.Dst with
      | none => simp [isRouteTo, hd] at hpred
      | some curDst =>
        simp only [isRouteTo, hd, decide_eq_true_eq] at hpred
        have hnil : x.Gw ≠ IP.nil := by rw [hpred.2.1]; exact hgw
        simp [desiredRoute, ipEqual, hpred.2.1, hpred.2.2, hgw]

theorem mem_addedRoutes (r : Controller) (link : Link) (cur : List Route)
    (blocks : List String) (x : Route) (h : x ∈ addedRoutes r link cur blocks) :
    ∃ dst, x = desiredRoute r link dst := by
  induction blocks with
  | nil => simp [addedRoutes] at h
  | cons cidrBlock rest ih =>
    unfold addedRoutes at h
    cases hp : ParseCIDR cidrBlock with
    | none => simp [hp] at h
    | some p =>
      obtain ⟨ip, dst⟩ := p
      simp only [hp] at h
      cases hf : routeFound cur (desiredRoute r link dst) with
      | true => rw [hf] at h; exact ih (by simpa using h)
      | false =>
        rw [hf] at h
        simp only [Bool.false_eq_true, if_false, List.mem_cons] at h
        rcases h with h | h
        · exact ⟨dst, h⟩
        · exact ih h

/-- Among the routes added for blocks that all parse and denote distinct
networks, at most one goes to the network with text `t`: the one of the block
with that network, when no listed route matched. -/
theorem countP_addedRoutes (r : Controller) (link : Link) (cur : List Route)
    (blocks : List String) (t : String) (b : Bool)
    (hparse : ∀ s ∈ blocks, (ParseCIDR s).isSome = true)
    (hnd : (blocks.map networkText).Nodup)
    (hf : ∀ dst, ipNetString dst = t → routeFound cur (desiredRoute r link dst) = b) :
    (addedRoutes r link cur blocks).countP (isRouteTo link r.vxlanGw t)
      = if some t ∈ blocks.map networkText ∧ b = false then 1 else 0 := by
  induction blocks with
  | nil => simp [addedRoutes]
  | cons cidrBlock rest ih =>
    have hrest := ih (fun s hs => hparse s (List.mem_cons_of_mem _ hs))
      (List.nodup_cons.mp (by simpa using hnd)).2
    have hnot : networkText cidrBlock ∉ rest.map networkText :=
      (List.nodup_cons.mp (by simpa using hnd)).1
    have hsome := hparse cidrBlock (List.mem_cons_self _ _)
    cases hp : ParseCIDR cidrBlock with
    | none => rw [hp] at hsome; exact absurd hsome (by simp)
    | some p =>
      obtain ⟨ip, dst⟩ := p
      have hnt : networkText cidrBlock = some (ipNetString dst) := by
        simp [networkText, hp]
      unfold addedRoutes
      simp only [hp, List.map_cons, List.mem_cons, hnt, Option.some.injEq]
      by_cases ht : ipNetString dst = t
      · have hb := hf dst ht
        have hnot2 : some t ∉ rest.map networkText := by
          rw [hnt, ht] at hnot; exact hnot
        have hzero : (addedRoutes r link cur rest).countP (isRouteTo link r.vxlanGw t) = 0 := by
          rw [hrest]; simp [hnot2]
        cases b with
        | true => simp [hb, hzero]
        | false =>
          simp [hb, hzero, List.countP_cons, isRouteTo_desiredRoute, ht]
      · have hne : ¬ t = ipNetString dst := fun e => ht e.symm
        cases hfd : routeFound cur (desiredRoute r link dst) with
        | true => simp [hrest, hne]
        | false =>
          simp [List.countP_cons, isRouteTo_desiredRoute, ht, hrest, hne]

/-- The second pass ends at the first block that does not parse: with an empty
table and the remote subnets `bogus`, 10.1.0.0/16, no route is added. -/
theorem reconcileRoutes_stops_at_unparsable_block :
    ParseCIDR "bogus" = none ∧
    reconcileRoutes (kernelEnv demoLink [] (demoEnv eastCluster eastEndpoint demoPod))
        { demoWorker with remoteSubnets := ["bogus", "10.1.0.0/16"] } []
      = ([Event.LinkByName "vxlan100", Event.RouteList demoLink, Event.RouteList demoLink],
          none) := by
  decide

/-- C12, counterexample: `vxlan100` holds two routes to 10.1.0.0/16 through
`vxlanGw` that differ in their metric; 10.1.0.0/16 is the one remote subnet.
Every netlink call succeeds, `reconcileRoutes` deletes nothing and adds
nothing, and afterwards two routes, not one, go to the subnet through
`vxlanGw`. -/
theorem reconcileRoutes_keeps_both_matching_routes :
    (reconcileRoutes (kernelEnv demoLink twoMetricRoutes (demoEnv eastCluster eastEndpoint demoPod))
        demoWorker []).2 = none ∧
    ParseCIDR "10.1.0.0/16" = some (IP.v4 10 1 0 0, { IP := IP.v4 10 1 0 0, Mask := 16 }) ∧
    routeTable twoMetricRoutes
        (reconcileRoutes
          (kernelEnv demoLink twoMetricRoutes (demoEnv eastCluster eastEndpoint demoPod))
          demoWorker []).1 = twoMetricRoutes ∧
    (routeTable twoMetricRoutes
        (reconcileRoutes
          (kernelEnv demoLink twoMetricRoutes (demoEnv eastCluster eastEndpoint demoPod))
          demoWorker []).1).countP
      (isRouteTo demoLink demoWorker.vxlanGw
        (ipNetString { IP := IP.v4 10 1 0 0, Mask := 16 })) = 2 := by
  decide

/-- C12, amended: over the kernel model, with `vxlanGw` not nil, with every
entry of `remoteSubnets` a valid CIDR and the entries denoting pairwise
distinct networks, and with an initial table that holds, for each entry, at
most one route on `vxlan100` to its network through `vxlanGw`:
`reconcileRoutes` returns no error and afterwards exactly one route on
`vxlan100` goes to the network of each entry through `vxlanGw`; a route of the
final table that was not in the initial table has protocol 4 and scope
universe. -/
theorem reconcileRoutes_one_route_per_subnet (link : Link) (init : List Route) (base : Env)
    (r : Controller) (tr : List Event)
    (hgw : r.vxlanGw ≠ IP.nil)
    (hparse : ∀ s ∈ r.remoteSubnets, (ParseCIDR s).isSome = true)
    (hnd : (r.remoteSubnets.map networkText).Nodup)
    (hinit : ∀ s ∈ r.remoteSubnets, ∀ ip dst, ParseCIDR s = some (ip, dst) →
      (routeTable init tr).countP (isRouteTo link r.vxlanGw (ipNetString dst)) ≤ 1) :
    (reconcileRoutes (kernelEnv link init base) r tr).2 = none ∧
    (∀ s ∈ r.remoteSubnets, ∀ ip dst, ParseCIDR s = some (ip, dst) →
      (routeTable init (reconcileRoutes (kernelEnv link init base) r tr).1).countP
        (isRouteTo link r.vxlanGw (ipNetString dst)) = 1) ∧
    (∀ route ∈ routeTable init (reconcileRoutes (kernelEnv link init base) r tr).1,
      route ∈ routeTable init tr ∨
        (route.Protocol = 4 ∧ route.Scope = RT_SCOPE_UNIVERSE ∧ route.Gw = r.vxlanGw ∧
          route.LinkIndex = link.Index)) := by
  obtain ⟨herr, htable⟩ := reconcileRoutes_kernel link init base r tr
  refine ⟨herr, ?_, ?_⟩
  · intro s hs ip dst hp
    rw [htable, List.countP_append]
    have hle := le_trans
      (countP_foldl_erase_le (isRouteTo link r.vxlanGw (ipNetString dst))
        (((routeTable init tr).filter fun route => route.LinkIndex = link.Index).filter
          (shouldDelete r)) (routeTable init tr))
      (hinit s hs ip dst hp)
    have hmem : some (ipNetString dst) ∈ r.remoteSubnets.map networkText := by
      refine List.mem_map.mpr ⟨s, hs, ?_⟩
      simp [networkText, hp]
    rw [countP_addedRoutes r link _ r.remoteSubnets (ipNetString dst)
      (decide (0 < ((((routeTable init tr).filter fun route => route.LinkIndex = link.Index).filter
          (shouldDelete r)).foldl List.erase (routeTable init tr)).countP
        (isRouteTo link r.vxlanGw (ipNetString dst)))) hparse hnd]
    · by_cases hpos : 0 < ((((routeTable init tr).filter
          fun route => route.LinkIndex = link.Index).filter
            (shouldDelete r)).foldl List.erase (routeTable init tr)).countP
          (isRouteTo link r.vxlanGw (ipNetString dst))
      · simp only [hmem, hpos, decide_True, Bool.true_eq_false, and_false, if_false]
        omega
      · simp only [hmem, hpos, decide_False, and_self, if_true]
        omega
    · intro dst2 ht
      have h := routeFound_iff r link
        ((((routeTable init tr).filter fun route => route.LinkIndex = link.Index).filter
          (shouldDelete r)).foldl List.erase (routeTable init tr)) dst2 hgw
      rw [ht] at h
      by_cases hpos : 0 < ((((routeTable init tr).filter
          fun route => route.LinkIndex = link.Index).filter
            (shouldDelete r)).foldl List.erase (routeTable init tr)).countP
          (isRouteTo link r.vxlanGw (ipNetString dst))
      · simp only [hpos, decide_True]
        exact h.mpr hpos
      · simp only [hpos, decide_False]
        exact Bool.eq_false_iff.mpr fun hf => hpos (h.mp hf)
  · intro route hroute
    rw [htable, List.mem_append] at hroute
    rcases hroute with h | h
    · exact Or.inl (mem_foldl_erase _ _ _ h)
    · obtain ⟨dst, hd⟩ := mem_addedRoutes r link _ _ route h
      right
      rw [hd]
      exact ⟨rfl, rfl, rfl, rfl⟩

theorem reconcileRoutes_one_route_per_subnet_witness :
    (reconcileRoutes (kernelEnv demoLink demoRoutes (demoEnv eastCluster eastEndpoint demoPod))
        { demoWorker with remoteSubnets := ["10.1.0.0/16", "10.2.0.0/16"] } []).2 = none ∧
    (routeTable demoRoutes
        (reconcileRoutes
          (kernelEnv demoLink demoRoutes (demoEnv eastCluster eastEndpoint demoPod))
          { demoWorker with remoteSubnets := ["10.1.0.0/16", "10.2.0.0/16"] } []).1).countP
      (isRouteTo demoLink (IP.v4 240 168 1 7)
        (ipNetString { IP := IP.v4 10 2 0 0, Mask := 16 })) = 1 ∧
    routeTable demoRoutes
        (reconcileRoutes
          (kernelEnv demoLink demoRoutes (demoEnv eastCluster eastEndpoint demoPod))
          { demoWorker with remoteSubnets := ["10.1.0.0/16", "10.2.0.0/16"] } []).1
      = [routeVia (some { IP := IP.v4 10 1 0 0, Mask := 16 }) (IP.v4 240 168 1 7) 0,
         routeVia (some { IP := IP.v4 240 0 0 0, Mask := 8 }) IP.nil 0,
         routeVia (some { IP := IP.v4 10 2 0 0, Mask := 16 }) (IP.v4 240 168 1 7) 0] :=
  have h := reconcileRoutes_one_route_per_subnet demoLink demoRoutes
    (demoEnv eastCluster eastEndpoint demoPod)
    { demoWorker with remoteSubnets := ["10.1.0.0/16", "10.2.0.0/16"] } []
    (by decide) (by decide) (by decide)
    (by
      intro s hs ip dst hp
      simp only [List.mem_cons, List.mem_singleton, List.not_mem_nil, or_false] at hs
      rcases hs with hs | hs
      · subst hs
        have e : ParseCIDR "10.1.0.0/16"
            = some (IP.v4 10 1 0 0, { IP := IP.v4 10 1 0 0, Mask := 16 }) := by decide
        rw [e] at hp
        cases hp
        decide
      · subst hs
        have e : ParseCIDR "10.2.0.0/16"
            = some (IP.v4 10 2 0 0, { IP := IP.v4 10 2 0 0, Mask := 16 }) := by decide
        rw [e] at hp
        cases hp
        decide)
  ⟨h.1, h.2.1 "10.2.0.0/16" (by decide) (IP.v4 10 2 0 0) { IP := IP.v4 10 2 0 0, Mask := 16 }
      (by decide), by decide⟩

/-! ## A second run of `reconcileRoutes` -/

/-- The trace of `reconcileRoutes` over the kernel model: the link lookup, a
listing, the deletions, a second listing and the additions. -/
theorem reconcileRoutes_kernel_trace (link : Link) (init : List Route) (base : Env)
    (r : Controller) (tr : List Event) :
    (reconcileRoutes (kernelEnv link init base) r tr).1
      = tr ++ [Event.LinkByName VXLAN_IFACE, Event.RouteList link]
        ++ ((((routeTable init tr).filter fun route => route.LinkIndex = link.Index).filter
              (shouldDelete r)).map Event.RouteDel)
        ++ [Event.RouteList link]
        ++ (addedRoutes r link
            (((((routeTable init tr).filter fun route => route.LinkIndex = link.Index).filter
                (shouldDelete r)).foldl List.erase (routeTable init tr)).filter
              fun route => route.LinkIndex = link.Index)
            r.remoteSubnets).map Event.RouteAdd := by
  have h1 : routeTable init (tr ++ [Event.LinkByName VXLAN_IFACE]) = routeTable init tr := by
    simp [routeTable_append, routeTableStep]
  have h2 : ∀ routes : List Route,
      routeTable init
        (tr ++ [Event.LinkByName VXLAN_IFACE] ++ [Event.RouteList link]
          ++ routes.map Event.RouteDel)
        = routes.foldl List.erase (routeTable init tr) := by
    intro routes
    rw [routeTable_append, foldl_routeDel, routeTable_append, h1]
    simp [routeTableStep]
  simp only [reconcileRoutes, kernelEnv, reconcileDeleteLoop_eq, reconcileAddLoop_eq, h1, h2]
  simp

theorem count_foldl_erase (routes table : List Route) (x : Route) :
    (routes.foldl List.erase table).count x = table.count x - routes.count x := by
  induction routes generalizing table with
  | nil => simp
  | cons route rest ih =>
    simp only [List.foldl_cons]
    rw [ih, List.count_erase, List.count_cons]
    by_cases h : route = x
    · simp only [h, beq_self_eq_true, if_true]
      omega
    · simp [h]

/-- Erasing from a table every route that passes two tests leaves no route
that passes both. -/
theorem not_mem_foldl_erase_filter (p q : Route → Bool) (table : List Route) (x : Route)
    (hp : p x = true) (hq : q x = true) :
    x ∉ ((table.filter p).filter q).foldl List.erase table := by
  intro hx
  have hpos := List.count_pos_iff.mpr hx
  rw [count_foldl_erase, List.count_filter hq, List.count_filter hp] at hpos
  omega

theorem mem_addedRoutes_block (r : Controller) (link : Link) (cur : List Route)
    (blocks : List String) (x : Route) (h : x ∈ addedRoutes r link cur blocks) :
    ∃ s ∈ blocks, ∃ ip dst, ParseCIDR s = some (ip, dst) ∧ x = desiredRoute r link dst := by
  induction blocks with
  | nil => simp [addedRoutes] at h
  | cons cidrBlock rest ih =>
    unfold addedRoutes at h
    cases hp : ParseCIDR cidrBlock with
    | none => simp [hp] at h
    | some p =>
      obtain ⟨ip, dst⟩ := p
      simp only [hp] at h
      have hrest : x ∈ addedRoutes r link cur rest →
          ∃ s ∈ cidrBlock :: rest, ∃ ip dst,
            ParseCIDR s = some (ip, dst) ∧ x = desiredRoute r link dst := by
        intro hx
        obtain ⟨s, hs, ip2, dst2, hp2, hx2⟩ := ih hx
        exact ⟨s, List.mem_cons_of_mem _ hs, ip2, dst2, hp2, hx2⟩
      cases hf : routeFound cur (desiredRoute r link dst) with
      | true => rw [hf] at h; exact hrest (by simpa using h)
      | false =>
        rw [hf] at h
        simp only [Bool.false_eq_true, if_false, List.mem_cons] at h
        rcases h with h | h
        · exact ⟨cidrBlock, List.mem_cons_self _ _, ip, dst, hp, h⟩
        · exact hrest h

/-- When every block parses, the route of a block that no listed route matched
is among the added ones. -/
theorem desiredRoute_mem_addedRoutes (r : Controller) (link : Link) (cur : List Route)
    (blocks : List String) (hparse : ∀ s ∈ blocks, (ParseCIDR s).isSome = true)
    (s : String) (hs : s ∈ blocks) (ip : IP) (dst : IPNet) (hp : ParseCIDR s = some (ip, dst))
    (hf : routeFound cur (desiredRoute r link dst) = false) :
    desiredRoute r link dst ∈ addedRoutes r link cur blocks := by
  induction blocks with
  | nil => simp at hs
  | cons cidrBlock rest ih =>
    have hrest : s ∈ rest → desiredRoute r link dst ∈ addedRoutes r link cur rest :=
      ih (fun t ht => hparse t (List.mem_cons_of_mem _ ht))
    have hsome := hparse cidrBlock (List.mem_cons_self _ _)
    unfold addedRoutes
    cases hp1 : ParseCIDR cidrBlock with
    | none => rw [hp1] at hsome; exact absurd hsome (by simp)
    | some p1 =>
      obtain ⟨ip1, dst1⟩ := p1
      simp only
      rcases List.mem_cons.mp hs with hhead | htail
      · subst hhead
        rw [hp] at hp1
        have hd : dst = dst1 := (Prod.mk.inj (Option.some.inj hp1)).2
        subst hd
        simp [hf]
      · cases hf1 : routeFound cur (desiredRoute r link dst1) with
        | true => simpa using hrest htail
        | false =>
          simp only [Bool.false_eq_true, if_false, List.mem_cons]
          exact Or.inr (hrest htail)

/-- Nothing is added when every block has a matching listed route. -/
theorem addedRoutes_eq_nil (r : Controller) (link : Link) (cur : List Route)
    (blocks : List String)
    (h : ∀ s ∈ blocks, ∀ ip dst, ParseCIDR s = some (ip, dst) →
      routeFound cur (desiredRoute r link dst) = true) :
    addedRoutes r link cur blocks = [] := by
  induction blocks with
  | nil => simp [addedRoutes]
  | cons cidrBlock rest ih =>
    unfold addedRoutes
    cases hp : ParseCIDR cidrBlock with
    | none => rfl
    | some p =>
      obtain ⟨ip, dst⟩ := p
      simp only
      rw [if_pos (h cidrBlock (List.mem_cons_self _ _) ip dst hp)]
      exact ih (fun s hs => h s (List.mem_cons_of_mem _ hs))

/-- The route for a network whose text is a remote subnet is not one the first
pass deletes. -/
theorem shouldDelete_desiredRoute (r : Controller) (link : Link) (dst : IPNet)
    (h : ipNetString dst ∈ r.remoteSubnets) :
    shouldDelete r (desiredRoute r link dst) = false := by
  simp [shouldDelete, desiredRoute, h]

/-- A second run over the table a first run left: nothing is deleted and
nothing is added. -/
theorem reconcileRoutes_twice (link : Link) (init : List Route) (base : Env)
    (r : Controller) (tr : List Event) (hgw : r.vxlanGw ≠ IP.nil)
    (hsub : ∀ s ∈ r.remoteSubnets, ∃ ip dst,
      ParseCIDR s = some (ip, dst) ∧ ipNetString dst ∈ r.remoteSubnets) :
    reconcileRoutes (kernelEnv link init base) r
        (reconcileRoutes (kernelEnv link init base) r tr).1
      = ((reconcileRoutes (kernelEnv link init base) r tr).1
          ++ [Event.LinkByName VXLAN_IFACE, Event.RouteList link, Event.RouteList link],
        none) := by
  obtain ⟨_, htable⟩ := reconcileRoutes_kernel link init base r tr
  generalize hT : (((routeTable init tr).filter fun route => route.LinkIndex = link.Index).filter
      (shouldDelete r)).foldl List.erase (routeTable init tr) = kept at htable
  generalize hA : addedRoutes r link
      (kept.filter fun route => route.LinkIndex = link.Index) r.remoteSubnets = added at htable
  generalize reconcileRoutes (kernelEnv link init base) r tr = run1 at htable
  have hparse : ∀ s ∈ r.remoteSubnets, (ParseCIDR s).isSome = true := by
    intro s hs
    obtain ⟨ip, dst, hp, _⟩ := hsub s hs
    rw [hp]; rfl
  have hdel : ((kept ++ added).filter fun route => route.LinkIndex = link.Index).filter
      (shouldDelete r) = [] := by
    rw [List.filter_eq_nil_iff]
    intro x hx hsd
    obtain ⟨hmem, hlink⟩ := List.mem_filter.mp hx
    rcases List.mem_append.mp hmem with hk | ha
    · rw [← hT] at hk
      exact not_mem_foldl_erase_filter _ _ _ x hlink hsd hk
    · rw [← hA] at ha
      obtain ⟨s, hs, ip, dst, hp, hxe⟩ := mem_addedRoutes_block r link _ _ x ha
      obtain ⟨ip2, dst2, hp2, hin⟩ := hsub s hs
      rw [hp] at hp2
      have hd : dst = dst2 := (Prod.mk.inj (Option.some.inj hp2)).2
      rw [hxe, shouldDelete_desiredRoute r link dst (by rw [hd]; exact hin)] at hsd
      exact Bool.noConfusion hsd
  have hadd : addedRoutes r link
      ((kept ++ added).filter fun route => route.LinkIndex = link.Index) r.remoteSubnets = [] := by
    apply addedRoutes_eq_nil
    intro s hs ip dst hp
    rw [routeFound_iff r link (kept ++ added) dst hgw, List.countP_append]
    cases hf : routeFound (kept.filter fun route => route.LinkIndex = link.Index)
        (desiredRoute r link dst) with
    | true =>
      have := (routeFound_iff r link kept dst hgw).mp hf
      omega
    | false =>
      have hmem : desiredRoute r link dst ∈ added := by
        rw [← hA]
        exact desiredRoute_mem_addedRoutes r link _ _ hparse s hs ip dst hp hf
      have hpos : 0 < added.countP (isRouteTo link r.vxlanGw (ipNetString dst)) :=
        List.countP_pos_iff.mpr ⟨_, hmem, by simp [isRouteTo_desiredRoute]⟩
      omega
  obtain ⟨herr, _⟩ := reconcileRoutes_kernel link init base r run1.1
  have htrace := reconcileRoutes_kernel_trace link init base r run1.1
  rw [htable, hdel] at htrace
  simp only [List.foldl_nil, List.map_nil, List.append_nil] at htrace
  rw [hadd] at htrace
  simp only [List.map_nil, List.append_nil, List.append_assoc, List.cons_append,
    List.nil_append] at htrace
  exact Prod.ext htrace herr

/-- C21, counterexample: the one remote subnet is written 10.1.2.3/16, which
parses to the network 10.1.0.0/16, `vxlanGw` is 240.168.1.7 and `vxlan100`
has no routes.  Every netlink call succeeds.  The first run adds the route to
10.1.0.0/16; the second run, with the same controller state, deletes that
route and adds it again. -/
theorem reconcileRoutes_second_run_deletes_and_adds :
    ParseCIDR "10.1.2.3/16" = some (IP.v4 10 1 2 3, { IP := IP.v4 10 1 0 0, Mask := 16 }) ∧
    reconcileRoutes (kernelEnv demoLink [] (demoEnv eastCluster eastEndpoint demoPod))
        hostBitsWorker []
      = ([Event.LinkByName "vxlan100", Event.RouteList demoLink, Event.RouteList demoLink,
          Event.RouteAdd (routeVia (some { IP := IP.v4 10 1 0 0, Mask := 16 })
            (IP.v4 240 168 1 7) 0)], none) ∧
    reconcileRoutes (kernelEnv demoLink [] (demoEnv eastCluster eastEndpoint demoPod))
        hostBitsWorker
        (reconcileRoutes (kernelEnv demoLink [] (demoEnv eastCluster eastEndpoint demoPod))
          hostBitsWorker []).1
      = ([Event.LinkByName "vxlan100", Event.RouteList demoLink, Event.RouteList demoLink,
          Event.RouteAdd (routeVia (some { IP := IP.v4 10 1 0 0, Mask := 16 })
            (IP.v4 240 168 1 7) 0),
          Event.LinkByName "vxlan100", Event.RouteList demoLink,
          Event.RouteDel (routeVia (some { IP := IP.v4 10 1 0 0, Mask := 16 })
            (IP.v4 240 168 1 7) 0),
          Event.RouteList demoLink,
          Event.RouteAdd (routeVia (some { IP := IP.v4 10 1 0 0, Mask := 16 })
            (IP.v4 240 168 1 7) 0)], none) := by
  decide

/-- The same with a nil `vxlanGw` and the remote subnet 10.1.0.0/16: the route
the first run adds has no gateway, the second run skips it when it looks for
the route and adds a second one. -/
theorem reconcileRoutes_nil_gateway_adds_again :
    reconcileRoutes (kernelEnv demoLink [] (demoEnv eastCluster eastEndpoint demoPod))
        { demoWorker with vxlanGw := IP.nil }
        (reconcileRoutes (kernelEnv demoLink [] (demoEnv eastCluster eastEndpoint demoPod))
          { demoWorker with vxlanGw := IP.nil } []).1
      = ([Event.LinkByName "vxlan100", Event.RouteList demoLink, Event.RouteList demoLink,
          Event.RouteAdd (routeVia (some { IP := IP.v4 10 1 0 0, Mask := 16 }) IP.nil 0),
          Event.LinkByName "vxlan100", Event.RouteList demoLink, Event.RouteList demoLink,
          Event.RouteAdd (routeVia (some { IP := IP.v4 10 1 0 0, Mask := 16 }) IP.nil 0)],
        none) := by
  decide

/-- C21, amended: over the kernel model, for a non-nil `vxlanGw` and remote
subnets that all parse and whose networks, as `IPNet.String` prints them, are
themselves entries of the list (so for every list of blocks in canonical
form), a second run of `reconcileRoutes` with the same controller state
returns no error, appends to the trace the link lookup and the two listings
only, so no `RouteDel` and no `RouteAdd`, and leaves the route table as the
first run left it. -/
theorem reconcileRoutes_second_run_is_noop (link : Link) (init : List Route) (base : Env)
    (r : Controller) (tr : List Event) (hgw : r.vxlanGw ≠ IP.nil)
    (hsub : ∀ s ∈ r.remoteSubnets, ∃ ip dst,
      ParseCIDR s = some (ip, dst) ∧ ipNetString dst ∈ r.remoteSubnets) :
    (reconcileRoutes (kernelEnv link init base) r tr).2 = none ∧
    reconcileRoutes (kernelEnv link init base) r
        (reconcileRoutes (kernelEnv link init base) r tr).1
      = ((reconcileRoutes (kernelEnv link init base) r tr).1
          ++ [Event.LinkByName VXLAN_IFACE, Event.RouteList link, Event.RouteList link],
        none) ∧
    (∀ route,
      (reconcileRoutes (kernelEnv link init base) r
          (reconcileRoutes (kernelEnv link init base) r tr).1).1.count (Event.RouteDel route)
        = (reconcileRoutes (kernelEnv link init base) r tr).1.count (Event.RouteDel route) ∧
      (reconcileRoutes (kernelEnv link init base) r
          (reconcileRoutes (kernelEnv link init base) r tr).1).1.count (Event.RouteAdd route)
        = (reconcileRoutes (kernelEnv link init base) r tr).1.count (Event.RouteAdd route)) ∧
    routeTable init
        (reconcileRoutes (kernelEnv link init base) r
          (reconcileRoutes (kernelEnv link init base) r tr).1).1
      = routeTable init (reconcileRoutes (kernelEnv link init base) r tr).1 := by
  refine ⟨(reconcileRoutes_kernel link init base r tr).1,
    reconcileRoutes_twice link init base r tr hgw hsub, fun route => ?_, ?_⟩
  · rw [reconcileRoutes_twice link init base r tr hgw hsub]
    simp [List.count_append, List.count_cons]
  · rw [reconcileRoutes_twice link init base r tr hgw hsub]
    simp [routeTable_append, routeTableStep]

theorem reconcileRoutes_second_run_is_noop_witness :
    (reconcileRoutes (kernelEnv demoLink demoRoutes (demoEnv eastCluster eastEndpoint demoPod))
        demoWorker []).2 = none ∧
    reconcileRoutes (kernelEnv demoLink demoRoutes (demoEnv eastCluster eastEndpoint demoPod))
        demoWorker
        (reconcileRoutes
          (kernelEnv demoLink demoRoutes (demoEnv eastCluster eastEndpoint demoPod))
          demoWorker []).1
      = ((reconcileRoutes
            (kernelEnv demoLink demoRoutes (demoEnv eastCluster eastEndpoint demoPod))
            demoWorker []).1
          ++ [Event.LinkByName VXLAN_IFACE, Event.RouteList demoLink, Event.RouteList demoLink],
        none) ∧
    (∀ route,
      (reconcileRoutes
          (kernelEnv demoLink demoRoutes (demoEnv eastCluster eastEndpoint demoPod)) demoWorker
          (reconcileRoutes
            (kernelEnv demoLink demoRoutes (demoEnv eastCluster eastEndpoint demoPod))
            demoWorker []).1).1.count (Event.RouteDel route)
        = (reconcileRoutes
            (kernelEnv demoLink demoRoutes (demoEnv eastCluster eastEndpoint demoPod))
            demoWorker []).1.count (Event.RouteDel route) ∧
      (reconcileRoutes
          (kernelEnv demoLink demoRoutes (demoEnv eastCluster eastEndpoint demoPod)) demoWorker
          (reconcileRoutes
            (kernelEnv demoLink demoRoutes (demoEnv eastCluster eastEndpoint demoPod))
            demoWorker []).1).1.count (Event.RouteAdd route)
        = (reconcileRoutes
            (kernelEnv demoLink demoRoutes (demoEnv eastCluster eastEndpoint demoPod))
            demoWorker []).1.count (Event.RouteAdd route)) ∧
    routeTable demoRoutes
        (reconcileRoutes
          (kernelEnv demoLink demoRoutes (demoEnv eastCluster eastEndpoint demoPod)) demoWorker
          (reconcileRoutes
            (kernelEnv demoLink demoRoutes (demoEnv eastCluster eastEndpoint demoPod))
            demoWorker []).1).1
      = routeTable demoRoutes
          (reconcileRoutes
            (kernelEnv demoLink demoRoutes (demoEnv eastCluster eastEndpoint demoPod))
            demoWorker []).1 :=
  reconcileRoutes_second_run_is_noop demoLink demoRoutes
    (demoEnv eastCluster eastEndpoint demoPod) demoWorker [] (by decide)
    (fun s hs => by
      have h1 : s = "10.1.0.0/16" := by simpa [demoWorker] using hs
      subst h1
      exact ⟨IP.v4 10 1 0 0, { IP := IP.v4 10 1 0 0, Mask := 16 }, by decide, by decide⟩)

end RouteAgent
